import Mathlib

/-!
Trap handling of the xv6-riscv2 kernel (`kernel/trap.c`).

A shallow embedding of `handleCOW`, `usertrap`, `usertrapret` and `devintr`
over an explicit kernel state.  Machine words are natural numbers reduced
modulo `2 ^ 64` where the C code can wrap, `int` fields are integers with
32-bit wrap-around, and functions that transfer control away (panic, exit,
return to user space, a null dereference) end in a `Res.halt`.
-/

namespace Xv6

/-! ## Constants of `riscv.h`, `param.h` and `proc.h` -/

/-- Modelled from the spec: `riscv.h` is not among the sources; bytes per page. -/
def PGSIZE : Nat := 4096

/-- Modelled from the spec: `riscv.h` is not among the sources; the maximum
valid address is one bit below the Sv39 limit, `1L << (9 + 9 + 9 + 12 - 1)`. -/
def MAXVA : Nat := 2 ^ 38

/-- Modelled from the spec: `riscv.h` is not among the sources; valid bit. -/
def PTE_V : Nat := 1

/-- Modelled from the spec: `riscv.h` is not among the sources; writable bit. -/
def PTE_W : Nat := 4

/-- Modelled from the spec: `riscv.h` is not among the sources; user-accessible bit. -/
def PTE_U : Nat := 16

/-- Modelled from the spec: `riscv.h` is not among the sources; the
copy-on-write marker is one of the two software-reserved bits of an Sv39
entry, here bit 8. -/
def PTE_COW : Nat := 256

/-- Modelled from the spec: `riscv.h` is not among the sources; previous
privilege bit of `sstatus`. -/
def SSTATUS_SPP : Nat := 256

/-- Modelled from the spec: `riscv.h` is not among the sources; previous
interrupt-enable bit of `sstatus`. -/
def SSTATUS_SPIE : Nat := 32

/-- Modelled from the spec: `riscv.h` is not among the sources; supervisor
interrupt-enable bit of `sstatus`. -/
def SSTATUS_SIE : Nat := 2

/-- Modelled from the spec: `param.h` is not among the sources; number of
process slots. -/
def NPROC : Nat := 64

/-- Modelled from the spec: `param.h` is not among the sources; number of
priority levels of the feedback queue. -/
def NPR : Nat := 5

/-- Modelled from the spec: `proc.h` is not among the sources; the maximum
priority level. -/
def P4 : Int := 4

/-- Modelled from the spec: `memlayout.h` is not among the sources; interrupt
number of the console device. -/
def UART0_IRQ : Int := 10

/-- Modelled from the spec: `memlayout.h` is not among the sources; interrupt
number of the block device. -/
def VIRTIO0_IRQ : Int := 1

/-- Modelled from the spec: `memlayout.h` is not among the sources; virtual
address of the trampoline page, `MAXVA - PGSIZE`. -/
def TRAMPOLINE : Nat := MAXVA - PGSIZE

/-! ## Machine arithmetic -/

/-- The C operator `~` on a 64-bit word. -/
def not64 (x : Nat) : Nat := x ^^^ (2 ^ 64 - 1)

/-- The macro `PGROUNDDOWN(a)`, `(a) & ~(PGSIZE-1)`. -/
def PGROUNDDOWN (a : Nat) : Nat := a &&& not64 (PGSIZE - 1)

/-- The macro `PTE2PA(pte)`, `((pte) >> 10) << 12` on `uint64`. -/
def PTE2PA (pte : Nat) : Nat := ((pte >>> 10) <<< 12) % 2 ^ 64

/-- The macro `PA2PTE(pa)`, `(((uint64)pa) >> 12) << 10`. -/
def PA2PTE (pa : Nat) : Nat := ((pa >>> 12) <<< 10) % 2 ^ 64

/-- The macro `PTE_FLAGS(pte)`, `(pte) & 0x3FF`. -/
def PTE_FLAGS (pte : Nat) : Nat := pte &&& 0x3FF

/-- The statement `x++` (or `x += 1`) on an `int`, wrapping at 32 bits. -/
def incInt32 (x : Int) : Int := if x = 2147483647 then -2147483648 else x + 1

/-- The expression `x - 1` on an `int`, wrapping at 32 bits. -/
def decInt32 (x : Int) : Int := if x = -2147483648 then 2147483647 else x - 1

/-- The expression `1 << n` on `int`: the shift amount is taken modulo 32 and
the result is a signed 32-bit value. -/
def shl1Int32 (n : Int) : Int :=
  if (n % 32).toNat = 31 then -2147483648 else 2 ^ (n % 32).toNat

/-! ## Kernel state -/

/-- Calls of collaborator routines, recorded in program order. -/
inductive Call where
  | walk | kalloc | kfree | memmove | uvmunmap | mappages
  | memref_lock | memref_unlock | memref_lock_kalloc | memref_unlock_kalloc
  | memref_get | memref_set
  | w_stvec | intr_on | intr_off | syscall | yield | setkilled | printf
  | exit (status : Int)
  | plic_claim | plic_complete | uartintr | virtio_disk_intr | clockintr | wakeup
  | devintr
  deriving DecidableEq, Repr

/-- Places where `trap.c` calls `panic`. -/
inductive PanicSite where
  | usertrap_not_from_user_mode
  | kerneltrap_not_from_supervisor_mode
  | kerneltrap_interrupts_enabled
  | kerneltrap
  deriving DecidableEq, Repr

/-- Run states of a process (`enum procstate`). -/
inductive ProcState where
  | UNUSED | USED | SLEEPING | RUNNABLE | RUNNING | ZOMBIE
  deriving DecidableEq, Repr

/-- Saved user registers and kernel-assist fields (`struct trapframe`). -/
structure Trapframe where
  kernel_satp : Nat
  kernel_sp : Nat
  kernel_trap : Nat
  epc : Nat
  kernel_hartid : Nat
  regs : Nat → Nat

/-- The fields of `struct proc` that `trap.c` reads or writes. -/
structure Proc where
  state : ProcState
  killed : Int
  pid : Int
  pagetable : Nat
  trapframe : Nat
  kstack : Nat
  nticks : Int
  interval : Int
  handler : Nat
  alarmOn : Int
  alarmContext : Nat
  rtime : Nat
  rticks : Int
  wticks : Int
  pr : Int

/-- Address of a leaf page-table slot: the table root and the virtual page number. -/
structure PtePtr where
  root : Nat
  vpn : Nat
  deriving DecidableEq, Repr

/-- The kernel state seen by `trap.c`.

* `pagetables root vpn` is the leaf slot of virtual page `vpn` in the table
  rooted at `root`; `none` when the intermediate tables are missing.
* `mem` is physical memory by byte address, `tfmem a` the trapframe stored in
  the page at address `a`.
* `memref` is the share count of each physical frame address.
* `freelist` holds the numbers of the free frames of the allocator.
* `memrefLock`, `kallocLock` tell whether the reference-count lock and the
  allocator-side lock are held.
* `cur` is the slot of `myproc()`, `queue` the priority-queue grid.
* `log` records collaborator calls in program order. -/
structure Kernel where
  sstatus : Nat
  sepc : Nat
  scause : Nat
  stval : Nat
  stvec : Nat
  sip : Nat
  satp : Nat
  tp : Nat
  pagetables : Nat → Nat → Option Nat
  mem : Nat → Nat
  tfmem : Nat → Trapframe
  memref : Nat → Int
  freelist : List Nat
  memrefLock : Bool
  kallocLock : Bool
  proc : Nat → Proc
  cur : Option Nat
  queue : Nat → Nat → Option Nat
  ticks : Nat
  log : List Call

/-- Ways in which control leaves a function without returning to its caller. -/
inductive Halt where
  | panic (site : PanicSite)
  | exit (status : Int)
  | nullDeref
  | userret (satp : Nat)
  deriving DecidableEq, Repr

/-- Result of running a kernel function: a normal return with a value and the
new state, or a halt with the state at that point. -/
inductive Res (α : Type) where
  | ok : α → Kernel → Res α
  | halt : Halt → Kernel → Res α

/-- Append one call to the log. -/
def record (s : Kernel) (c : Call) : Kernel := { s with log := s.log ++ [c] }

/-! ## Collaborators of `handleCOW` -/

/-- Modelled from the spec: `kalloc.c` is not among the sources.  Allocate one
frame: the first free frame is handed out, and the null pointer is returned
when the allocator is exhausted. -/
def kalloc (s : Kernel) : Nat × Kernel :=
  match s.freelist with
  | [] => (0, record s Call.kalloc)
  | f :: rest => ((PGSIZE * f) % 2 ^ 64, record { s with freelist := rest } Call.kalloc)

/-- Modelled from the spec: `kalloc.c` is not among the sources.  Free one
frame: it goes back to the allocator. -/
def kfree (s : Kernel) (pa : Nat) : Kernel :=
  record { s with freelist := (pa / PGSIZE) :: s.freelist } Call.kfree

/-- Modelled from the spec: `kalloc.c` is not among the sources.  Acquire the
reference-count lock. -/
def memref_lock (s : Kernel) : Kernel :=
  record { s with memrefLock := true } Call.memref_lock

/-- Modelled from the spec: `kalloc.c` is not among the sources.  Release the
reference-count lock. -/
def memref_unlock (s : Kernel) : Kernel :=
  record { s with memrefLock := false } Call.memref_unlock

/-- Modelled from the spec: `kalloc.c` is not among the sources.  Acquire the
allocator-side lock of the hand-off. -/
def memref_lock_kalloc (s : Kernel) : Kernel :=
  record { s with kallocLock := true } Call.memref_lock_kalloc

/-- Modelled from the spec: `kalloc.c` is not among the sources.  Release the
allocator-side lock of the hand-off. -/
def memref_unlock_kalloc (s : Kernel) : Kernel :=
  record { s with kallocLock := false } Call.memref_unlock_kalloc

/-- Modelled from the spec: `kalloc.c` is not among the sources.  Read a
frame's share count. -/
def memref_get (s : Kernel) (pa : Nat) : Int × Kernel :=
  (s.memref pa, record s Call.memref_get)

/-- Modelled from the spec: `kalloc.c` is not among the sources.  Write a
frame's share count. -/
def memref_set (s : Kernel) (pa : Nat) (v : Int) : Kernel :=
  record { s with memref := fun a => if a = pa then v else s.memref a } Call.memref_set

/-- Modelled from the spec: `string.c` is not among the sources.  Copy `n`
bytes from `src` to `dst`; a copy of at least a whole page also carries the
trapframe stored at `src`.  The null destination of line 156 is dealt with in
`alarmHook`, where the call is made. -/
def memmove (s : Kernel) (dst src n : Nat) : Kernel :=
  record { s with
    mem := fun a => if dst ≤ a ∧ a < dst + n then s.mem (src + (a - dst)) else s.mem a,
    tfmem := fun a => if a = dst ∧ PGSIZE ≤ n then s.tfmem src else s.tfmem a }
    Call.memmove

/-- Modelled from the spec: `vm.c` is not among the sources.  Look up the
page-table entry of a virtual address, optionally allocating the missing
intermediate table; the null pointer is returned when there is no entry. -/
def walk (s : Kernel) (pagetable va alloc : Nat) : Option PtePtr × Kernel :=
  let s0 := record s Call.walk
  match s0.pagetables pagetable (va / PGSIZE) with
  | some _ => (some ⟨pagetable, va / PGSIZE⟩, s0)
  | none =>
    if alloc = 0 then (none, s0)
    else
      let r := kalloc s0
      if r.1 = 0 then (none, r.2)
      else
        (some ⟨pagetable, va / PGSIZE⟩,
          { r.2 with pagetables := fun root vpn =>
              if root = pagetable ∧ vpn / 512 = va / PGSIZE / 512
                  ∧ r.2.pagetables root vpn = none
              then some 0 else r.2.pagetables root vpn })

/-- The expression `*pte` for a non-null `pte`. -/
def readPte (s : Kernel) (p : PtePtr) : Nat := (s.pagetables p.root p.vpn).getD 0

/-- The assignment `*pte = v` for a non-null `pte`. -/
def writePte (s : Kernel) (p : PtePtr) (v : Nat) : Kernel :=
  { s with pagetables := fun root vpn =>
      if root = p.root ∧ vpn = p.vpn then some v else s.pagetables root vpn }

/-- One page of `uvmunmap`: clear the entry, freeing the frame when asked to. -/
def uvmunmapPage (s : Kernel) (pagetable a do_free : Nat) : Kernel :=
  match s.pagetables pagetable (a / PGSIZE) with
  | none => s
  | some e =>
    let s1 := if do_free = 0 then s else kfree s (PTE2PA e)
    writePte s1 ⟨pagetable, a / PGSIZE⟩ 0

/-- Modelled from the spec: `vm.c` is not among the sources.  Remove the
mappings of `npages` pages starting at `va`; the frames are released only when
`do_free` is non-zero. -/
def uvmunmap (s : Kernel) (pagetable va npages do_free : Nat) : Kernel :=
  (List.range npages).foldl
    (fun k i => uvmunmapPage k pagetable (va + i * PGSIZE) do_free)
    (record s Call.uvmunmap)

/-- The page loop of `mappages`: `k` pages starting at `a`, backed by `pa`. -/
def mappagesLoop (pagetable perm : Nat) : Nat → Kernel → Nat → Nat → Int × Kernel
  | 0, s, _, _ => (0, s)
  | k + 1, s, a, pa =>
    match walk s pagetable a 1 with
    | (none, s1) => (-1, s1)
    | (some p, s1) =>
      mappagesLoop pagetable perm k
        (writePte s1 p (PA2PTE pa ||| perm ||| PTE_V)) (a + PGSIZE) (pa + PGSIZE)

/-- Modelled from the spec: `vm.c` is not among the sources.  Install
mappings for the pages of `[va, va + size)` onto the frames starting at `pa`
with permissions `perm`; 0 on success, -1 when a table cannot be allocated. -/
def mappages (s : Kernel) (pagetable va size pa perm : Nat) : Int × Kernel :=
  mappagesLoop pagetable perm
    ((PGROUNDDOWN (va + size - 1) - PGROUNDDOWN va) / PGSIZE + 1)
    (record s Call.mappages) (PGROUNDDOWN va) pa

/-! ## `handleCOW` (trap.c, lines 32-77) -/

/-- The function `handleCOW(pagetable, va)`: resolve a write fault on a
copy-on-write page.  The entry returned by `walk` is dereferenced on lines
43-44, before the test `pte == 0` of line 46. -/
def handleCOW (s : Kernel) (pagetable va : Nat) : Res Int :=
  if va ≥ MAXVA then Res.ok 1 s
  else
    let va := PGROUNDDOWN va
    let w := walk s pagetable va 0
    match w.1 with
    | none => Res.halt Halt.nullDeref w.2
    | some pte =>
      let s1 := w.2
      let pa := PTE2PA (readPte s1 pte)
      let flags := PTE_FLAGS (readPte s1 pte)
      if va = 0 ∨ flags &&& PTE_COW = 0 ∨ w.1 = none ∨ flags &&& PTE_V = 0
          ∨ flags &&& PTE_U = 0 then
        Res.ok 1 s1
      else
        let s2 := memref_unlock_kalloc (memref_lock s1)
        let flags := (flags &&& not64 PTE_COW) ||| PTE_W
        let g := memref_get s2 pa
        let fq := g.1
        if fq = 1 then
          let s3 := writePte g.2 pte ((readPte g.2 pte &&& not64 PTE_COW) ||| PTE_W)
          Res.ok 0 (memref_unlock (memref_lock_kalloc s3))
        else
          let k := kalloc g.2
          let mem := k.1
          if mem = 0 then Res.ok 1 (memref_unlock k.2)
          else
            let s4 := uvmunmap (memmove k.2 mem pa PGSIZE) pagetable va 1 0
            let m := mappages s4 pagetable va PGSIZE mem flags
            if m.1 ≠ 0 then Res.ok 1 (memref_unlock (kfree m.2 mem))
            else
              let s5 := memref_set m.2 pa (decInt32 fq)
              Res.ok 0 (memref_unlock (memref_lock_kalloc s5))

/-! ## Collaborators of the trap paths -/

/-- The state a result ends in. -/
def Res.state {α : Type} : Res α → Kernel
  | Res.ok _ s => s
  | Res.halt _ s => s

/-- The value a result returns to its caller, if it returns. -/
def Res.returned {α : Type} : Res α → Option α
  | Res.ok v _ => some v
  | Res.halt _ _ => none

/-- The way a result leaves the kernel path, if it does not return. -/
def Res.halted {α : Type} : Res α → Option Halt
  | Res.ok _ _ => none
  | Res.halt h _ => some h

/-- Modelled from the spec: the syscall layer, the scheduler, the drivers and
the linker symbols are not among the sources.  Their effect on the kernel
state is left arbitrary; `syscall` may also not return (process exit). -/
structure Env where
  kernelvec : Nat
  usertrap_addr : Nat
  uservec_off : Nat
  userret_off : Nat
  syscall : Kernel → Res Unit
  yield : Kernel → Kernel
  wakeup : Kernel → Kernel
  uartintr : Kernel → Kernel
  virtio_disk_intr : Kernel → Kernel
  plic_claim : Kernel → Int

/-- Compile-time choice of the preemption policy (`RR`, `MLFQ`, `LOTTERY`). -/
inductive Policy where
  | RR | MLFQ | LOTTERY
  deriving DecidableEq, Repr

/-- Run a collaborator with an arbitrary effect and record the call. -/
def callOut (f : Kernel → Kernel) (c : Call) (s : Kernel) : Kernel :=
  { f s with log := s.log ++ [c] }

/-- The call `yield()`. -/
def yield (env : Env) (s : Kernel) : Kernel := callOut env.yield Call.yield s

/-- The call `syscall()`. -/
def syscall (env : Env) (s : Kernel) : Res Unit :=
  match env.syscall s with
  | Res.ok u s1 => Res.ok u { s1 with log := s.log ++ [Call.syscall] }
  | Res.halt h s1 => Res.halt h { s1 with log := s.log ++ [Call.syscall] }

/-- Update the process in slot `i`. -/
def setProc (s : Kernel) (i : Nat) (f : Proc → Proc) : Kernel :=
  { s with proc := fun j => if j = i then f (s.proc i) else s.proc j }

/-- Update the trapframe stored at address `a`. -/
def setTrapframe (s : Kernel) (a : Nat) (f : Trapframe → Trapframe) : Kernel :=
  { s with tfmem := fun b => if b = a then f (s.tfmem a) else s.tfmem b }

/-- Modelled from the spec: `proc.c` is not among the sources.  Read the
killed flag of a process. -/
def killed (s : Kernel) (p : Nat) : Int := (s.proc p).killed

/-- Modelled from the spec: `proc.c` is not among the sources.  Mark a
process killed. -/
def setkilled (s : Kernel) (p : Nat) : Kernel :=
  record (setProc s p (fun q => { q with killed := 1 })) Call.setkilled

/-- Modelled from the spec: `proc.c` is not among the sources.  Terminate the
current process with an exit status; control does not come back. -/
def exit (s : Kernel) (status : Int) : Res Unit :=
  Res.halt (Halt.exit status) (record s (Call.exit status))

/-- Modelled from the spec: `riscv.h` is not among the sources.  Write the
trap vector. -/
def w_stvec (s : Kernel) (x : Nat) : Kernel := record { s with stvec := x } Call.w_stvec

/-- Modelled from the spec: `riscv.h` is not among the sources.  Enable device
interrupts. -/
def intr_on (s : Kernel) : Kernel :=
  record { s with sstatus := s.sstatus ||| SSTATUS_SIE } Call.intr_on

/-- Modelled from the spec: `riscv.h` is not among the sources.  Disable
device interrupts. -/
def intr_off (s : Kernel) : Kernel :=
  record { s with sstatus := s.sstatus &&& not64 SSTATUS_SIE } Call.intr_off

/-- Modelled from the spec: `riscv.h` is not among the sources.  Are device
interrupts enabled? -/
def intr_get (s : Kernel) : Bool := s.sstatus &&& SSTATUS_SIE ≠ 0

/-- Modelled from the spec: `riscv.h` is not among the sources.  The
address-space token of a page table, `(8L << 60) | (pagetable >> 12)`. -/
def MAKE_SATP (pagetable : Nat) : Nat := (8 <<< 60) ||| (pagetable >>> 12)

/-- Modelled from the spec: `proc.c` is not among the sources.  The hart
identity, read from `tp` into an `int`. -/
def cpuid (s : Kernel) : Nat := s.tp % 2 ^ 32

/-! ## `clockintr` and `devintr` (trap.c, lines 328-394) -/

/-- The function `clockintr()`: advance the tick counter and wake the waiters. -/
def clockintr (env : Env) (s : Kernel) : Kernel :=
  callOut env.wakeup Call.wakeup
    (record { s with ticks := (s.ticks + 1) % 2 ^ 32 } Call.clockintr)

/-- The function `devintr()`: 2 for a timer interrupt, 1 for another device,
0 when the cause is not recognized. -/
def devintr (env : Env) (s : Kernel) : Int × Kernel :=
  let s0 := record s Call.devintr
  let scause := s0.scause
  if scause &&& 0x8000000000000000 ≠ 0 ∧ scause &&& 0xff = 9 then
    let irq := env.plic_claim s0
    let s1 := record s0 Call.plic_claim
    let s2 :=
      if irq = UART0_IRQ then callOut env.uartintr Call.uartintr s1
      else if irq = VIRTIO0_IRQ then callOut env.virtio_disk_intr Call.virtio_disk_intr s1
      else if irq ≠ 0 then record s1 Call.printf
      else s1
    let s3 := if irq ≠ 0 then record s2 Call.plic_complete else s2
    (1, s3)
  else if scause = 0x8000000000000001 then
    let s1 := if cpuid s0 = 0 then clockintr env s0 else s0
    (2, { s1 with sip := s1.sip &&& not64 2 })
  else
    (0, s0)

/-! ## `usertrap` (trap.c, lines 83-223) -/

/-- Lines 136-145: every process in state `RUNNING` gets one more tick of run time. -/
def rtimeAccount (s : Kernel) : Kernel :=
  (List.range NPROC).foldl
    (fun k fp =>
      if (k.proc fp).state = ProcState.RUNNING then
        setProc k fp (fun q => { q with rtime := (q.rtime + 1) % 2 ^ 32 })
      else k)
    s

/-- Lines 148-161: the alarm hook of process `p`.  The result of `kalloc` is
not tested (line 155): when the allocator is exhausted `memmove` is called
with the null pointer as destination and the kernel stops at the store. -/
def alarmHook (s : Kernel) (p : Nat) (which_dev : Int) : Res Unit :=
  if which_dev = 2 ∧ (s.proc p).alarmOn = 0 then
    let s1 := setProc s p (fun q => { q with nticks := incInt32 q.nticks })
    if (s1.proc p).nticks = (s1.proc p).interval then
      let k := kalloc s1
      let context := k.1
      if context = 0 then Res.halt Halt.nullDeref (record k.2 Call.memmove)
      else
        let s2 := memmove k.2 context (k.2.proc p).trapframe PGSIZE
        let s3 := setProc s2 p (fun q => { q with alarmContext := context })
        let s4 := setProc s3 p (fun q => { q with alarmOn := 1 })
        Res.ok ()
          (setTrapframe s4 (s4.proc p).trapframe
            (fun t => { t with epc := (s4.proc p).handler }))
    else Res.ok () s1
  else Res.ok () s

/-- Lines 170-174: one slot of the priority-queue grid. -/
def wticksSlot (s : Kernel) (i j : Nat) : Kernel :=
  match s.queue i j with
  | none => s
  | some fp =>
    if (s.proc fp).state = ProcState.RUNNABLE then
      setProc s fp (fun q => { q with wticks := incInt32 q.wticks })
    else s

/-- Lines 168-176: the scan of all `NPR` by `NPROC` slots. -/
def wticksScan (s : Kernel) : Kernel :=
  (List.range NPR).foldl
    (fun k i => (List.range NPROC).foldl (fun k2 j => wticksSlot k2 i j) k)
    s

/-- Lines 164-177: tick accounting for the feedback queue. -/
def mlfqAccount (s : Kernel) (p : Nat) (which_dev : Int) : Kernel :=
  if which_dev = 2 then
    let s1 :=
      if (s.proc p).state = ProcState.RUNNING then
        setProc s p (fun q => { q with rticks := incInt32 q.rticks })
      else s
    wticksScan s1
  else s

/-- Lines 105-184: the cause dispatch of `usertrap` for process `p`; the
value returned is `which_dev`. -/
def usertrapCause (env : Env) (s : Kernel) (p : Nat) : Res Int :=
  if s.scause = 8 then
    if killed s p ≠ 0 then
      match exit s (-1) with
      | Res.ok _ s1 => Res.ok 0 s1
      | Res.halt h s1 => Res.halt h s1
    else
      let s1 := setTrapframe s (s.proc p).trapframe
        (fun t => { t with epc := (t.epc + 4) % 2 ^ 64 })
      match syscall env (intr_on s1) with
      | Res.ok _ s2 => Res.ok 0 s2
      | Res.halt h s2 => Res.halt h s2
  else if s.scause = 15 then
    let va := s.stval
    match handleCOW s (s.proc p).pagetable va with
    | Res.halt h s1 => Res.halt h s1
    | Res.ok r s1 => if r ≠ 0 then Res.ok 0 (setkilled s1 p) else Res.ok 0 s1
  else
    let d := devintr env s
    let which_dev := d.1
    if which_dev ≠ 0 then
      let s1 := if which_dev = 2 then rtimeAccount d.2 else d.2
      match alarmHook s1 p which_dev with
      | Res.halt h s2 => Res.halt h s2
      | Res.ok _ s2 => Res.ok which_dev (mlfqAccount s2 p which_dev)
    else
      Res.ok which_dev (setkilled (record (record d.2 Call.printf) Call.printf) p)

/-- Lines 206-208: the index of the first empty slot of level `i` among the
first `n`, or `n` when they are all occupied. -/
def firstEmpty (s : Kernel) (i : Nat) : Nat → Nat
  | 0 => 0
  | n + 1 =>
    if firstEmpty s i n < n then firstEmpty s i n
    else if s.queue i n = none then n else n + 1

/-- Lines 205-214: the scan for an occupied level above the level of `p`,
from level `i` on; `p->pr` is read again on every round. -/
def mlfqPreempt (env : Env) (p : Nat) : Nat → Nat → Kernel → Kernel
  | 0, _, s => s
  | fuel + 1, i, s =>
    if (i : Int) < (s.proc p).pr then
      let j := firstEmpty s i NPROC
      mlfqPreempt env p fuel (i + 1) (if j ≠ 0 then yield env s else s)
    else s

/-- Lines 196-202: quantum exhaustion under the feedback queue. -/
def mlfqQuantum (env : Env) (p : Nat) (s : Kernel) : Kernel :=
  if (s.proc p).rticks = shl1Int32 (s.proc p).pr then
    let s1 := setProc s p (fun q => { q with rticks := 0 })
    let s2 :=
      if (s1.proc p).pr ≠ P4 then setProc s1 p (fun q => { q with pr := incInt32 q.pr })
      else s1
    yield env s2
  else s

/-- Lines 189-220: the preemption policy compiled into `usertrap`. -/
def usertrapPolicy (env : Env) (pol : Policy) (p : Nat) (which_dev : Int) (s : Kernel) :
    Kernel :=
  match pol with
  | Policy.RR => if which_dev = 2 then yield env s else s
  | Policy.MLFQ =>
    if which_dev = 2 then mlfqPreempt env p 2147483648 0 (mlfqQuantum env p s) else s
  | Policy.LOTTERY => if which_dev = 2 then yield env s else s

/-- The function `usertrapret()` (lines 228-268): return to user space. -/
def usertrapret (env : Env) (s : Kernel) : Res Unit :=
  match s.cur with
  | none => Res.halt Halt.nullDeref s
  | some p =>
    let s1 := intr_off s
    let s2 := w_stvec s1 (TRAMPOLINE + env.uservec_off)
    let tf := (s2.proc p).trapframe
    let s3 := setTrapframe s2 tf (fun t => { t with kernel_satp := s2.satp })
    let s4 := setTrapframe s3 tf
      (fun t => { t with kernel_sp := ((s3.proc p).kstack + PGSIZE) % 2 ^ 64 })
    let s5 := setTrapframe s4 tf (fun t => { t with kernel_trap := env.usertrap_addr })
    let s6 := setTrapframe s5 tf (fun t => { t with kernel_hartid := s5.tp })
    let x := s6.sstatus
    let x := x &&& not64 SSTATUS_SPP
    let x := x ||| SSTATUS_SPIE
    let s7 := { s6 with sstatus := x }
    let s8 := { s7 with sepc := (s7.tfmem tf).epc }
    let satp := MAKE_SATP (s8.proc p).pagetable
    Res.halt (Halt.userret satp) s8

/-- Lines 186-222: the killed check, the preemption policy and the return to
user space. -/
def usertrapFinish (env : Env) (pol : Policy) (p : Nat) (which_dev : Int) (s : Kernel) :
    Res Unit :=
  if killed s p ≠ 0 then exit s (-1)
  else usertrapret env (usertrapPolicy env pol p which_dev s)

/-- The function `usertrap()`: handle an interrupt, exception or system call
from user space. -/
def usertrap (env : Env) (pol : Policy) (s : Kernel) : Res Unit :=
  if s.sstatus &&& SSTATUS_SPP ≠ 0 then
    Res.halt (Halt.panic PanicSite.usertrap_not_from_user_mode) s
  else
    let s1 := w_stvec s env.kernelvec
    match s1.cur with
    | none => Res.halt Halt.nullDeref s1
    | some p =>
      let s2 := setTrapframe s1 (s1.proc p).trapframe (fun t => { t with epc := s1.sepc })
      match usertrapCause env s2 p with
      | Res.halt h s3 => Res.halt h s3
      | Res.ok which_dev s3 => usertrapFinish env pol p which_dev s3

/-! ## `kerneltrap` (trap.c, lines 272-326) -/

/-- Lines 297-320: the preemption policy compiled into `kerneltrap`. -/
def kerneltrapPolicy (env : Env) (pol : Policy) (which_dev : Int) (s : Kernel) : Kernel :=
  let running (k : Kernel) : Bool :=
    match k.cur with
    | none => false
    | some p => (k.proc p).state = ProcState.RUNNING
  match pol with
  | Policy.RR => if which_dev = 2 ∧ running s then yield env s else s
  | Policy.MLFQ =>
    let s1 := if which_dev = 2 then wticksScan s else s
    if which_dev = 2 ∧ running s1 then yield env s1 else s1
  | Policy.LOTTERY => if which_dev = 2 ∧ running s then yield env s else s

/-- The function `kerneltrap()`: interrupts and exceptions from kernel code. -/
def kerneltrap (env : Env) (pol : Policy) (s : Kernel) : Res Unit :=
  let sepc := s.sepc
  let sstatus := s.sstatus
  if sstatus &&& SSTATUS_SPP = 0 then
    Res.halt (Halt.panic PanicSite.kerneltrap_not_from_supervisor_mode) s
  else if intr_get s then
    Res.halt (Halt.panic PanicSite.kerneltrap_interrupts_enabled) s
  else
    let d := devintr env s
    let which_dev := d.1
    if which_dev = 0 then
      Res.halt (Halt.panic PanicSite.kerneltrap) (record (record d.2 Call.printf) Call.printf)
    else
      let s1 := kerneltrapPolicy env pol which_dev d.2
      Res.ok () { s1 with sepc := sepc, sstatus := sstatus }


/-! ## Auxiliary notions and sample states -/

/-- The log of `t` extends the log of `s`. -/
def LogExt (s t : Kernel) : Prop := ∃ l, t.log = s.log ++ l

/-- A trapframe with every field zero. -/
def Trapframe.zero : Trapframe := ⟨0, 0, 0, 0, 0, fun _ => 0⟩

/-- An unused process slot. -/
def Proc.zero : Proc := ⟨ProcState.UNUSED, 0, 0, 0, 0, 0, 0, 0, 0, 0, 0, 0, 0, 0, 0⟩

/-- A kernel state with empty tables. -/
def Kernel.zero : Kernel :=
  { sstatus := 0, sepc := 0, scause := 0, stval := 0, stvec := 0, sip := 0, satp := 0, tp := 0,
    pagetables := fun _ _ => none, mem := fun _ => 0, tfmem := fun _ => Trapframe.zero,
    memref := fun _ => 0, freelist := [], memrefLock := false, kallocLock := false,
    proc := fun _ => Proc.zero, cur := none, queue := fun _ _ => none, ticks := 0, log := [] }

/-- Two page tables (roots 1 and 2) map virtual page 5 copy-on-write onto the
frame at `0x80005000`, whose share count is 2; a third table (root 3) maps
its page 5 writable, without the copy-on-write marker; one frame is free. -/
def cowShared : Kernel :=
  { Kernel.zero with
    pagetables := fun r v =>
      if (r = 1 ∨ r = 2) ∧ v = 5 then some 0x20001513
      else if r = 3 ∧ v = 5 then some 0x20001417
      else none,
    mem := fun a => a % 251,
    memref := fun a => if a = 0x80005000 then 2 else 0,
    freelist := [0x80009] }

/-- The state `cowShared` with the share count of the frame down to 1. -/
def cowSole : Kernel :=
  { cowShared with memref := fun a => if a = 0x80005000 then 1 else 0 }

/-- A sequence of user traps: trap `k + 1` is taken in the state
`enter k u`, where `u` is the state in which trap `k` ended (the start state
for `k = 0`); `enter` stands for what user code, the other harts and the trap
entry do in between.  The value is the state in which trap `k` ended. -/
def trapRun (env : Env) (pol : Policy) (enter : Nat → Kernel → Kernel) : Nat → Kernel → Kernel
  | 0, s => s
  | k + 1, s => (usertrap env pol (enter k (trapRun env pol enter k s))).state

/-- Lines 98-103 and 132 of `usertrap` for process `p`: the state `devintr`
leaves once the trap vector is set and `sepc` is saved in the trapframe. -/
def tickState (env : Env) (s : Kernel) (p : Nat) : Kernel :=
  (devintr env (setTrapframe (w_stvec s env.kernelvec) (s.proc p).trapframe
    (fun tf => { tf with epc := s.sepc }))).2

/-- The states `u` and `t` agree on the priority-queue grid and on the run
state and wait ticks of every process. -/
def SameSched (u t : Kernel) : Prop :=
  t.queue = u.queue ∧ ∀ q, (t.proc q).state = (u.proc q).state
    ∧ (t.proc q).wticks = (u.proc q).wticks

/-- An environment whose collaborators leave the kernel state alone. -/
def idleEnv : Env :=
  { kernelvec := 0x80006000, usertrap_addr := 0x80002000, uservec_off := 0, userret_off := 0x9c,
    syscall := fun s => Res.ok () s, yield := fun s => s, wakeup := fun s => s,
    uartintr := fun s => s, virtio_disk_intr := fun s => s, plic_claim := fun _ => 0 }

/-- A timer interrupt taken in user mode on hart 1 by the process in slot 0
(running, level 1, one tick of its quantum used, alarm interval 2); the
process in slot 3 is runnable and queued at level 0. -/
def timerTrap : Kernel :=
  { Kernel.zero with
    scause := 0x8000000000000001, sepc := 0x400, tp := 1, cur := some 0,
    freelist := [0x80009],
    proc := fun i =>
      if i = 0 then
        { Proc.zero with
          state := ProcState.RUNNING, pid := 1, pagetable := 1, trapframe := 0x87f00000,
          interval := 2, handler := 0x1000, pr := 1, rticks := 1 }
      else if i = 3 then { Proc.zero with state := ProcState.RUNNABLE, pid := 4 }
      else Proc.zero,
    queue := fun i j => if i = 0 ∧ j = 0 then some 3 else none }

/-- The state `timerTrap` with the process of slot 3 queued twice, at levels 0 and 1. -/
def timerTrapTwice : Kernel :=
  { timerTrap with queue := fun i j => if (i = 0 ∨ i = 1) ∧ j = 0 then some 3 else none }

/-- The state `timerTrap` as a system-call trap of a process already marked killed. -/
def killedSyscall : Kernel :=
  { timerTrap with
    scause := 8,
    proc := fun i => if i = 0 then { timerTrap.proc 0 with killed := 1 } else timerTrap.proc i }

/-- The state `timerTrap` once the process of slot 0 has used the two ticks of
its quantum at level 1. -/
def quantumDue : Kernel :=
  { timerTrap with
    proc := fun i => if i = 0 then { timerTrap.proc 0 with rticks := 2 } else timerTrap.proc i }

/-- The calls `handleCOW` can make: page-table, allocator, copy and share-count routines. -/
def isMemCall : Call → Bool
  | Call.walk | Call.kalloc | Call.kfree | Call.memmove | Call.uvmunmap | Call.mappages
  | Call.memref_lock | Call.memref_unlock | Call.memref_lock_kalloc
  | Call.memref_unlock_kalloc | Call.memref_get | Call.memref_set => true
  | _ => false

/-- The log of `t` extends the log of `s` by calls that satisfy `P` only. -/
def LogExtBy (P : Call → Prop) (s t : Kernel) : Prop :=
  ∃ l, t.log = s.log ++ l ∧ ∀ c ∈ l, P c

/-- The state `timerTrap` as a timer interrupt taken in supervisor mode with
interrupts disabled. -/
def kernelTimerTrap : Kernel :=
  { timerTrap with sstatus := 0x100, sepc := 0x80001234 }

/-- The state `timerTrap` as a trap with an unrecognized cause (illegal instruction). -/
def badCauseTrap : Kernel :=
  { timerTrap with scause := 2 }

/-- A store page fault at `0x5123` taken by a process whose page table (root 3
of `cowShared`) maps the page without the copy-on-write marker. -/
def storeFaultTrap : Kernel :=
  { cowShared with
    scause := 15, stval := 0x5123, sepc := 0x400, cur := some 0,
    proc := fun i =>
      if i = 0 then
        { Proc.zero with
          state := ProcState.RUNNING, pid := 1, pagetable := 3, trapframe := 0x87f00000 }
      else Proc.zero }

/-- The state `timerTrap` with a fresh quantum and with the runnable process
of slot 3 queued at level 0 behind an empty slot: `queue[0][0]` is empty and
`queue[0][1]` holds it. -/
def timerTrapHole : Kernel :=
  { timerTrap with
    proc := fun i => if i = 0 then { timerTrap.proc 0 with rticks := 0 } else timerTrap.proc i,
    queue := fun i j => if i = 0 ∧ j = 1 then some 3 else none }

/-- The invariant of the reference-count table: every frame referenced by a
valid copy-on-write page-table entry has a share count of at least 1. -/
def CowCountsPositive (s : Kernel) : Prop :=
  ∀ root vpn e, s.pagetables root vpn = some e → e &&& PTE_V ≠ 0 → e &&& PTE_COW ≠ 0 →
    1 ≤ s.memref (PTE2PA e)

/-- The states `u` and `t` agree on the trapframes, the allocator, the call
log and the alarm fields of every process. -/
def SameAlarm (u t : Kernel) : Prop :=
  t.tfmem = u.tfmem ∧ t.freelist = u.freelist ∧ t.log = u.log
    ∧ ∀ q, (t.proc q).nticks = (u.proc q).nticks ∧ (t.proc q).interval = (u.proc q).interval
      ∧ (t.proc q).handler = (u.proc q).handler ∧ (t.proc q).alarmOn = (u.proc q).alarmOn
      ∧ (t.proc q).alarmContext = (u.proc q).alarmContext
      ∧ (t.proc q).trapframe = (u.proc q).trapframe

/-- The state `timerTrap` one tick before the alarm of the process of slot 0 is due. -/
def alarmDue : Kernel :=
  { timerTrap with
    proc := fun i => if i = 0 then { timerTrap.proc 0 with nticks := 1 } else timerTrap.proc i }

/-- The state `timerTrap` with the alarm interval of the process of slot 0 set to 0. -/
def alarmOff : Kernel :=
  { timerTrap with
    proc := fun i =>
      if i = 0 then { timerTrap.proc 0 with interval := 0, nticks := 7 } else timerTrap.proc i }

/-- The state `alarmDue` once `usertrap` has set the trap vector and saved
`sepc` in the trapframe (lines 98-103). -/
def alarmDueSaved : Kernel :=
  setTrapframe (w_stvec alarmDue idleEnv.kernelvec) (alarmDue.proc 0).trapframe
    (fun tf => { tf with epc := alarmDue.sepc })

/-- The state `alarmOff` once `usertrap` has set the trap vector and saved
`sepc` in the trapframe (lines 98-103). -/
def alarmOffSaved : Kernel :=
  setTrapframe (w_stvec alarmOff idleEnv.kernelvec) (alarmOff.proc 0).trapframe
    (fun tf => { tf with epc := alarmOff.sepc })

/-- The alarm fields the hook reads (`nticks`, `interval`, `alarmOn`) of
process `p` are the same in `t` as in `u`. -/
def SameTicks (p : Nat) (u t : Kernel) : Prop :=
  (t.proc p).nticks = (u.proc p).nticks ∧ (t.proc p).interval = (u.proc p).interval
    ∧ (t.proc p).alarmOn = (u.proc p).alarmOn

/-- The state `e` is the entry of a timer-interrupt user trap of process `p`:
previous privilege user, `p` current, `scause` the supervisor software
interrupt that `devintr` reports as 2. -/
def TimerEntry (p : Nat) (e : Kernel) : Prop :=
  e.sstatus &&& SSTATUS_SPP = 0 ∧ e.cur = some p ∧ e.scause = 0x8000000000000001

/-- The state `timerTrap` with alarm interval 1 and the allocator exhausted. -/
def alarmNoMem : Kernel :=
  { timerTrap with
    freelist := [],
    proc := fun i => if i = 0 then { timerTrap.proc 0 with interval := 1 } else timerTrap.proc i }

/-- The state `u` as the entry of the next timer interrupt taken in user mode
by the process of slot `p`. -/
def timerAgain (p : Nat) (u : Kernel) : Kernel :=
  { u with
    sstatus := u.sstatus &&& not64 SSTATUS_SPP, scause := 0x8000000000000001, cur := some p }

/-- The state `cowShared` with whole leaf tables: in each of the three page
tables the leaf table of virtual pages 0 to 511 is present, its entries other
than that of page 5 being 0, and no other leaf table exists. -/
def cowLeaf : Kernel :=
  { cowShared with
    pagetables := fun r v =>
      if (r = 1 ∨ r = 2 ∨ r = 3) ∧ v / 512 = 0 then some ((cowShared.pagetables r v).getD 0)
      else none }

/-- Leaf slots come in whole tables of 512 entries: two virtual pages of the
same leaf table both have a slot or both have none. -/
def LeafTables (s : Kernel) : Prop :=
  ∀ root v w, v / 512 = w / 512 → (s.pagetables root v = none ↔ s.pagetables root w = none)

/-- A store page fault at `0x200123` taken by a process whose page table (root
1 of `cowLeaf`) has no leaf table for that address. -/
def storeFaultAbsent : Kernel :=
  { cowLeaf with
    scause := 15, stval := 0x200123, sepc := 0x400, cur := some 0,
    proc := fun i =>
      if i = 0 then
        { Proc.zero with
          state := ProcState.RUNNING, pid := 1, pagetable := 1, trapframe := 0x87f00000 }
      else Proc.zero }

/-! ## Bit-level facts about page-table entries -/


theorem testBit_not64 (x i : Nat) :
    (not64 x).testBit i = xor (x.testBit i) (decide (i < 64)) := by
  unfold not64
  rw [Nat.testBit_xor, Nat.testBit_two_pow_sub_one]

theorem and_two_pow_eq_zero (x n : Nat) : x &&& 2 ^ n = 0 ↔ x.testBit n = false := by
  constructor
  · intro h
    have h1 := congrArg (fun y => Nat.testBit y n) h
    simpa [Nat.testBit_two_pow_self] using h1
  · intro h
    apply Nat.eq_of_testBit_eq
    intro i
    by_cases hi : n = i
    · subst hi; simp [h]
    · simp [Nat.testBit_two_pow, hi]

theorem flags_and (e n : Nat) (hn : n < 10) :
    PTE_FLAGS e &&& 2 ^ n = 0 ↔ e.testBit n = false := by
  rw [and_two_pow_eq_zero]
  have h : PTE_FLAGS e = e % 2 ^ 10 := Nat.and_pow_two_sub_one_eq_mod e 10
  rw [h, Nat.testBit_mod_two_pow]
  simp [hn]

theorem PGROUNDDOWN_eq (a : Nat) (h : a < 2 ^ 64) : PGROUNDDOWN a = a / 4096 * 4096 := by
  apply Nat.eq_of_testBit_eq
  intro i
  have h1 : a / 4096 * 4096 = (a >>> 12) <<< 12 := by
    simp [Nat.shiftLeft_eq, Nat.shiftRight_eq_div_pow]
  have h2 : PGSIZE - 1 = 2 ^ 12 - 1 := by norm_num [PGSIZE]
  rw [h1, PGROUNDDOWN, Nat.testBit_and, testBit_not64, h2, Nat.testBit_two_pow_sub_one,
    Nat.testBit_shiftLeft, Nat.testBit_shiftRight]
  by_cases h12 : i < 12
  · have : ¬ (i ≥ 12) := by omega
    simp [h12, this]
    intro _; omega
  · have h3 : i ≥ 12 := by omega
    have h4 : 12 + (i - 12) = i := by omega
    by_cases h64 : i < 64
    · simp [h12, h3, h4, h64]
    · have : a.testBit i = false := by
        apply Nat.testBit_lt_two_pow
        calc a < 2 ^ 64 := h
          _ ≤ 2 ^ i := Nat.pow_le_pow_right (by norm_num) (by omega)
      simp [h12, h3, h4, h64, this]

theorem PTE2PA_aligned (e : Nat) : PTE2PA e % 4096 = 0 := by
  simp only [PTE2PA, Nat.shiftLeft_eq]
  omega


theorem testBit_PTE2PA (e j : Nat) :
    (PTE2PA e).testBit j = (decide (j < 64) && (decide (12 ≤ j) && e.testBit (10 + (j - 12)))) := by
  unfold PTE2PA
  rw [Nat.testBit_mod_two_pow, Nat.testBit_shiftLeft, Nat.testBit_shiftRight]

theorem testBit_PA2PTE (a j : Nat) :
    (PA2PTE a).testBit j = (decide (j < 64) && (decide (10 ≤ j) && a.testBit (12 + (j - 10)))) := by
  unfold PA2PTE
  rw [Nat.testBit_mod_two_pow, Nat.testBit_shiftLeft, Nat.testBit_shiftRight]

theorem testBit_PTE_FLAGS (e j : Nat) :
    (PTE_FLAGS e).testBit j = (decide (j < 10) && e.testBit j) := by
  have h : PTE_FLAGS e = e % 2 ^ 10 := Nat.and_pow_two_sub_one_eq_mod e 10
  rw [h, Nat.testBit_mod_two_pow]

theorem testBit_resolve (x i : Nat) :
    ((x &&& not64 PTE_COW) ||| PTE_W).testBit i
      = ((x.testBit i && (decide (i < 64) && !decide (i = 8))) || decide (i = 2)) := by
  have hc : PTE_COW = 2 ^ 8 := rfl
  have hw : PTE_W = 2 ^ 2 := rfl
  rw [Nat.testBit_or, Nat.testBit_and, testBit_not64, hc, hw, Nat.testBit_two_pow,
    Nat.testBit_two_pow]
  by_cases h8 : i = 8
  · subst h8; simp
  · have h8' : ¬ (8 = i) := fun h => h8 h.symm
    by_cases h2 : i = 2
    · subst h2; simp
    · have h2' : ¬ (2 = i) := fun h => h2 h.symm
      simp [h8, h8', h2, h2']

theorem testBit_aligned (x j : Nat) (hx : x % 4096 = 0) (hj : j < 12) : x.testBit j = false := by
  have h := Nat.testBit_mod_two_pow x 12 j
  have h0 : x % 2 ^ 12 = 0 := hx
  rw [h0] at h
  simpa [hj] using h.symm

theorem and_ne_zero_iff (x n : Nat) : x &&& 2 ^ n ≠ 0 ↔ x.testBit n = true := by
  rw [Ne, and_two_pow_eq_zero]; simp

/-- Frame of a resolved entry is the frame of the original entry. -/
theorem PTE2PA_resolve (e : Nat) : PTE2PA ((e &&& not64 PTE_COW) ||| PTE_W) = PTE2PA e := by
  apply Nat.eq_of_testBit_eq
  intro j
  rw [testBit_PTE2PA, testBit_PTE2PA, testBit_resolve]
  by_cases h64 : j < 64
  · by_cases h12 : 12 ≤ j
    · have a1 : 10 + (j - 12) < 64 := by omega
      have a2 : ¬ (10 + (j - 12) = 8) := by omega
      have a3 : ¬ (10 + (j - 12) = 2) := by omega
      simp [h64, h12, a1, a2, a3]
    · simp [h12]
  · simp [h64]

theorem PTE2PA_install (new fl : Nat) (hn : new < 2 ^ 64) (ha : new % 4096 = 0)
    (hf : fl < 2 ^ 10) : PTE2PA (PA2PTE new ||| fl ||| PTE_V) = new := by
  apply Nat.eq_of_testBit_eq
  intro j
  have hv : PTE_V = 2 ^ 0 := rfl
  rw [testBit_PTE2PA, Nat.testBit_or, Nat.testBit_or, testBit_PA2PTE, hv, Nat.testBit_two_pow]
  by_cases h64 : j < 64
  · by_cases h12 : 12 ≤ j
    · have a1 : 10 + (j - 12) < 64 := by omega
      have a2 : 10 ≤ 10 + (j - 12) := by omega
      have a3 : 12 + (10 + (j - 12) - 10) = j := by omega
      have a4 : ¬ (0 = 10 + (j - 12)) := by omega
      have a5 : fl.testBit (10 + (j - 12)) = false := by
        apply Nat.testBit_lt_two_pow
        calc fl < 2 ^ 10 := hf
          _ ≤ 2 ^ (10 + (j - 12)) := Nat.pow_le_pow_right (by norm_num) (by omega)
      simp [h64, h12, a1, a2, a3, a4, a5]
    · have : new.testBit j = false := testBit_aligned new j ha (by omega)
      simp [h12, this]
  · have : new.testBit j = false := by
      apply Nat.testBit_lt_two_pow
      calc new < 2 ^ 64 := hn
        _ ≤ 2 ^ j := Nat.pow_le_pow_right (by norm_num) (by omega)
    simp [h64, this]

theorem PTE_FLAGS_install (new fl : Nat) (hf : fl < 2 ^ 10) (hv : fl.testBit 0 = true) :
    PTE_FLAGS (PA2PTE new ||| fl ||| PTE_V) = fl := by
  apply Nat.eq_of_testBit_eq
  intro j
  have hV : PTE_V = 2 ^ 0 := rfl
  rw [testBit_PTE_FLAGS, Nat.testBit_or, Nat.testBit_or, testBit_PA2PTE, hV, Nat.testBit_two_pow]
  by_cases h10 : j < 10
  · have a1 : ¬ (10 ≤ j) := by omega
    by_cases h0 : j = 0
    · subst h0; simp [hv]
    · have : ¬ (0 = j) := fun h => h0 h.symm
      simp [h10, a1, this]
  · have a5 : fl.testBit j = false := by
      apply Nat.testBit_lt_two_pow
      calc fl < 2 ^ 10 := hf
        _ ≤ 2 ^ j := Nat.pow_le_pow_right (by norm_num) (by omega)
    simp [h10, a5]

theorem resolve_flags_lt (e : Nat) : (PTE_FLAGS e &&& not64 PTE_COW) ||| PTE_W < 2 ^ 10 := by
  apply Nat.lt_pow_two_of_testBit
  intro i hi
  rw [testBit_resolve, testBit_PTE_FLAGS]
  have a1 : ¬ (i < 10) := by omega
  have a2 : ¬ (i = 2) := by omega
  simp [a1, a2]

/-! ## The paths of `handleCOW` -/


/-- Claim C4 (range check of `handleCOW`): for every fault address
`va ≥ MAXVA` and every page table, `handleCOW` returns 1 in the very state it
was given: `walk` is not called, no lock is taken, and page tables, share
counts and frames are unchanged. -/
theorem handleCOW_range (s : Kernel) (pagetable va : Nat) (h : MAXVA ≤ va) :
    handleCOW s pagetable va = Res.ok 1 s := by
  simp [handleCOW, h]

theorem walk_present (s : Kernel) (pagetable va alloc e : Nat)
    (h : s.pagetables pagetable (va / PGSIZE) = some e) :
    walk s pagetable va alloc = (some ⟨pagetable, va / PGSIZE⟩, record s Call.walk) := by
  simp [walk, record, h]

theorem walk_absent (s : Kernel) (pagetable va : Nat)
    (h : s.pagetables pagetable (va / PGSIZE) = none) :
    walk s pagetable va 0 = (none, record s Call.walk) := by
  simp [walk, record, h]

theorem handleCOW_absent (s : Kernel) (pagetable va : Nat) (hva : va < MAXVA)
    (h : s.pagetables pagetable (PGROUNDDOWN va / PGSIZE) = none) :
    handleCOW s pagetable va = Res.halt Halt.nullDeref (record s Call.walk) := by
  have hva' : ¬ (va ≥ MAXVA) := by omega
  simp only [handleCOW, hva', if_false, walk_absent s pagetable _ h]

/-- Claim C3 (precondition check of `handleCOW`): for a fault address below
`MAXVA` whose entry `e` exists, if `PTE_COW`, `PTE_V` or `PTE_U` is clear in
`e`, or the rounded-down address is 0, then `handleCOW` returns 1 and the
state is the one it was given but for the record of the call of `walk`: no
lock is taken, no frame is allocated, and page tables, share counts and
frames are unchanged, whatever the share count is. -/
theorem handleCOW_reject (s : Kernel) (pagetable va e : Nat) (hva : va < MAXVA)
    (hent : s.pagetables pagetable (PGROUNDDOWN va / PGSIZE) = some e)
    (h : e &&& PTE_COW = 0 ∨ e &&& PTE_V = 0 ∨ e &&& PTE_U = 0 ∨ PGROUNDDOWN va = 0) :
    handleCOW s pagetable va = Res.ok 1 (record s Call.walk) := by
  have hva' : ¬ (va ≥ MAXVA) := by omega
  have hr : readPte (record s Call.walk) ⟨pagetable, PGROUNDDOWN va / PGSIZE⟩ = e := by
    simp [readPte, record, hent]
  have hc : (PTE_FLAGS e &&& PTE_COW = 0) = (e &&& PTE_COW = 0) := by
    have := flags_and e 8 (by norm_num); have := and_two_pow_eq_zero e 8
    simp_all [PTE_COW]
  have hv : (PTE_FLAGS e &&& PTE_V = 0) = (e &&& PTE_V = 0) := by
    have := flags_and e 0 (by norm_num); have := and_two_pow_eq_zero e 0
    simp_all [PTE_V]
  have hu : (PTE_FLAGS e &&& PTE_U = 0) = (e &&& PTE_U = 0) := by
    have := flags_and e 4 (by norm_num); have := and_two_pow_eq_zero e 4
    simp_all [PTE_U]
  simp only [handleCOW, hva', if_false, walk_present s pagetable _ 0 e hent, hr, hc, hv, hu]
  rw [if_pos]
  tauto


theorem uvmunmap_one (s : Kernel) (pagetable va e : Nat)
    (h : s.pagetables pagetable (va / PGSIZE) = some e) :
    uvmunmap s pagetable va 1 0
      = writePte (record s Call.uvmunmap) ⟨pagetable, va / PGSIZE⟩ 0 := by
  simp [uvmunmap, uvmunmapPage, record, h, List.range_succ]

theorem PGROUNDDOWN_idem_add (va : Nat) (hva : va < MAXVA) :
    (PGROUNDDOWN (PGROUNDDOWN va + PGSIZE - 1) - PGROUNDDOWN (PGROUNDDOWN va)) / PGSIZE + 1 = 1
      ∧ PGROUNDDOWN (PGROUNDDOWN va) = PGROUNDDOWN va := by
  have h1 : va < 2 ^ 64 := lt_of_lt_of_le hva (by norm_num [MAXVA])
  have e1 := PGROUNDDOWN_eq va h1
  have h2 : PGROUNDDOWN va < 2 ^ 64 := by rw [e1]; omega
  have e2 := PGROUNDDOWN_eq (PGROUNDDOWN va) h2
  have h3 : PGROUNDDOWN va + PGSIZE - 1 < 2 ^ 64 := by
    rw [e1]; simp only [MAXVA, PGSIZE] at *; omega
  have e3 := PGROUNDDOWN_eq _ h3
  simp only [PGSIZE] at *
  omega

theorem mappages_one (s : Kernel) (pagetable va pa perm e : Nat) (hva : va < MAXVA)
    (h : s.pagetables pagetable (PGROUNDDOWN va / PGSIZE) = some e) :
    mappages s pagetable (PGROUNDDOWN va) PGSIZE pa perm
      = (0, writePte (record (record s Call.mappages) Call.walk)
              ⟨pagetable, PGROUNDDOWN va / PGSIZE⟩ (PA2PTE pa ||| perm ||| PTE_V)) := by
  obtain ⟨h1, h2⟩ := PGROUNDDOWN_idem_add va hva
  have hw : walk (record s Call.mappages) pagetable (PGROUNDDOWN va) 1
      = (some ⟨pagetable, PGROUNDDOWN va / PGSIZE⟩, record (record s Call.mappages) Call.walk) :=
    walk_present _ _ _ _ e (by simpa [record] using h)
  rw [h2] at h1
  have h0 : (PGROUNDDOWN (PGROUNDDOWN va + PGSIZE - 1) - PGROUNDDOWN va) / PGSIZE = 0 := by
    omega
  simp only [mappages, h2, h0, mappagesLoop, hw]


/-- Past the range and precondition checks `handleCOW` runs the resolution
code of lines 50-76 on the entry found by `walk`. -/
theorem handleCOW_resolve_eq (s : Kernel) (pagetable va e : Nat) (hva : va < MAXVA)
    (hpage : PGROUNDDOWN va ≠ 0)
    (hent : s.pagetables pagetable (PGROUNDDOWN va / PGSIZE) = some e)
    (hV : e &&& PTE_V ≠ 0) (hU : e &&& PTE_U ≠ 0) (hC : e &&& PTE_COW ≠ 0) :
    handleCOW s pagetable va =
      (let pte : PtePtr := ⟨pagetable, PGROUNDDOWN va / PGSIZE⟩
       let g := memref_get (memref_unlock_kalloc (memref_lock (record s Call.walk))) (PTE2PA e)
       if g.1 = 1 then
         Res.ok 0 (memref_unlock (memref_lock_kalloc
           (writePte g.2 pte ((readPte g.2 pte &&& not64 PTE_COW) ||| PTE_W))))
       else
         let k := kalloc g.2
         if k.1 = 0 then Res.ok 1 (memref_unlock k.2)
         else
           let m := mappages
             (uvmunmap (memmove k.2 k.1 (PTE2PA e) PGSIZE) pagetable (PGROUNDDOWN va) 1 0)
             pagetable (PGROUNDDOWN va) PGSIZE k.1 ((PTE_FLAGS e &&& not64 PTE_COW) ||| PTE_W)
           if m.1 ≠ 0 then Res.ok 1 (memref_unlock (kfree m.2 k.1))
           else Res.ok 0 (memref_unlock (memref_lock_kalloc
             (memref_set m.2 (PTE2PA e) (decInt32 g.1))))) := by
  have hva' : ¬ (va ≥ MAXVA) := by omega
  have hr : readPte (record s Call.walk) ⟨pagetable, PGROUNDDOWN va / PGSIZE⟩ = e := by
    simp [readPte, record, hent]
  have hc : ¬ (PTE_FLAGS e &&& PTE_COW = 0) := by
    have := flags_and e 8 (by norm_num); have := and_two_pow_eq_zero e 8
    simp_all [PTE_COW]
  have hv : ¬ (PTE_FLAGS e &&& PTE_V = 0) := by
    have := flags_and e 0 (by norm_num); have := and_two_pow_eq_zero e 0
    simp_all [PTE_V]
  have hu : ¬ (PTE_FLAGS e &&& PTE_U = 0) := by
    have := flags_and e 4 (by norm_num); have := and_two_pow_eq_zero e 4
    simp_all [PTE_U]
  simp only [handleCOW, hva', if_false, walk_present s pagetable _ 0 e hent, hr]
  rw [if_neg]
  simp [hpage, hc, hv, hu]


/-- Claim C2 (sole-owner path of `handleCOW`): for a fault address below
`MAXVA` whose rounded-down page is not page 0 and whose entry `e` has `PTE_V`,
`PTE_U` and `PTE_COW` set, backed by a frame with share count 1, `handleCOW`
returns 0 and calls neither `kalloc`, `uvmunmap`, `mappages` nor `memref_set`
(the log lists the calls made); the entry still points at the same frame, has
`PTE_W` set and `PTE_COW` cleared, every other bit is unchanged, and the share
count is still 1. -/
theorem handleCOW_sole_owner (s : Kernel) (pagetable va e : Nat) (hva : va < MAXVA)
    (hpage : PGROUNDDOWN va ≠ 0)
    (hent : s.pagetables pagetable (PGROUNDDOWN va / PGSIZE) = some e)
    (hV : e &&& PTE_V ≠ 0) (hU : e &&& PTE_U ≠ 0) (hC : e &&& PTE_COW ≠ 0)
    (h1 : s.memref (PTE2PA e) = 1) :
    ∃ s' e', handleCOW s pagetable va = Res.ok 0 s'
      ∧ s'.log = s.log ++ [Call.walk, Call.memref_lock, Call.memref_unlock_kalloc,
          Call.memref_get, Call.memref_lock_kalloc, Call.memref_unlock]
      ∧ s'.freelist = s.freelist ∧ s'.mem = s.mem ∧ s'.memref = s.memref
      ∧ s'.pagetables pagetable (PGROUNDDOWN va / PGSIZE) = some e'
      ∧ PTE2PA e' = PTE2PA e ∧ e' &&& PTE_W ≠ 0 ∧ e' &&& PTE_COW = 0
      ∧ (∀ i, i < 64 → 2 ^ i ≠ PTE_W → 2 ^ i ≠ PTE_COW → e'.testBit i = e.testBit i)
      ∧ s'.memref (PTE2PA e) = 1 := by
  rw [handleCOW_resolve_eq s pagetable va e hva hpage hent hV hU hC]
  have hg : (memref_get (memref_unlock_kalloc (memref_lock (record s Call.walk))) (PTE2PA e)).1
      = 1 := by
    simp [memref_get, memref_unlock_kalloc, memref_lock, record, h1]
  simp only [hg, if_true]
  refine ⟨_, (e &&& not64 PTE_COW) ||| PTE_W, rfl, ?_, ?_, ?_, ?_, ?_, ?_, ?_, ?_, ?_, ?_⟩
  · simp [memref_unlock, memref_lock_kalloc, writePte, memref_get, memref_unlock_kalloc,
      memref_lock, record]
  · simp [memref_unlock, memref_lock_kalloc, writePte, memref_get, memref_unlock_kalloc,
      memref_lock, record]
  · simp [memref_unlock, memref_lock_kalloc, writePte, memref_get, memref_unlock_kalloc,
      memref_lock, record]
  · simp [memref_unlock, memref_lock_kalloc, writePte, memref_get, memref_unlock_kalloc,
      memref_lock, record]
  · simp [memref_unlock, memref_lock_kalloc, writePte, memref_get, memref_unlock_kalloc,
      memref_lock, record, readPte, hent]
  · exact PTE2PA_resolve e
  · exact (and_ne_zero_iff ((e &&& not64 PTE_COW) ||| PTE_W) 2).2
      (by rw [testBit_resolve]; simp)
  · exact (and_two_pow_eq_zero ((e &&& not64 PTE_COW) ||| PTE_W) 8).2
      (by rw [testBit_resolve]; simp)
  · intro i hi h2 h8
    have a2 : ¬ (i = 2) := by intro h; subst h; exact h2 rfl
    have a8 : ¬ (i = 8) := by intro h; subst h; exact h8 rfl
    rw [testBit_resolve]; simp [hi, a2, a8]
  · simp [memref_unlock, memref_lock_kalloc, writePte, memref_get, memref_unlock_kalloc,
      memref_lock, record, h1]

theorem decInt32_of_gt (n : Int) (h : 1 < n) : decInt32 n = n - 1 := by
  unfold decInt32
  rw [if_neg]; omega

theorem kalloc_aligned (s : Kernel) : (kalloc s).1 % 4096 = 0 ∧ (kalloc s).1 < 2 ^ 64 := by
  unfold kalloc
  cases s.freelist with
  | nil => simp
  | cons f rest => simp only [PGSIZE]; omega

/-- Claim C1 (shared path of `handleCOW`): for a fault address below `MAXVA`
whose rounded-down page is not page 0 and whose entry `e` has `PTE_V`, `PTE_U`
and `PTE_COW` set, backed by the frame `PTE2PA e` with share count `N > 1`,
and with a frame left for `kalloc`, `handleCOW` returns 0 and afterwards
(a) the share count of the frame is `N - 1`, (b) its bytes are unchanged,
(c) the page is mapped to the frame `kalloc` handed out, whose `PGSIZE` bytes
are the bytes the old frame held at the call, and (d) the flags of the new
entry are the old flags with `PTE_COW` cleared and `PTE_W` set.  The call of
`mappages` cannot fail here: the leaf slot exists. -/
theorem handleCOW_shared (s : Kernel) (pagetable va e : Nat) (N : Int) (hva : va < MAXVA)
    (hpage : PGROUNDDOWN va ≠ 0)
    (hent : s.pagetables pagetable (PGROUNDDOWN va / PGSIZE) = some e)
    (hV : e &&& PTE_V ≠ 0) (hU : e &&& PTE_U ≠ 0) (hC : e &&& PTE_COW ≠ 0)
    (hN : s.memref (PTE2PA e) = N) (hN1 : 1 < N)
    (hk : (kalloc s).1 ≠ 0) :
    ∃ s' e', handleCOW s pagetable va = Res.ok 0 s'
      ∧ s'.memref (PTE2PA e) = N - 1
      ∧ (∀ i, i < PGSIZE → s'.mem (PTE2PA e + i) = s.mem (PTE2PA e + i))
      ∧ s'.pagetables pagetable (PGROUNDDOWN va / PGSIZE) = some e'
      ∧ PTE2PA e' = (kalloc s).1
      ∧ (∀ i, i < PGSIZE → s'.mem ((kalloc s).1 + i) = s.mem (PTE2PA e + i))
      ∧ PTE_FLAGS e' = (PTE_FLAGS e &&& not64 PTE_COW) ||| PTE_W := by
  rw [handleCOW_resolve_eq s pagetable va e hva hpage hent hV hU hC]
  have hg : (memref_get (memref_unlock_kalloc (memref_lock (record s Call.walk))) (PTE2PA e)).1
      = N := by
    simp [memref_get, memref_unlock_kalloc, memref_lock, record, hN]
  have hN' : ¬ (N = 1) := by omega
  obtain ⟨f, rest, hfl⟩ : ∃ f rest, s.freelist = f :: rest := by
    cases hl : s.freelist with
    | nil => simp [kalloc, hl] at hk
    | cons f rest => exact ⟨f, rest, rfl⟩
  have hks : (kalloc s).1 = (PGSIZE * f) % 2 ^ 64 := by simp [kalloc, hfl]
  obtain ⟨hal, hlt⟩ := kalloc_aligned s
  have hpa := PTE2PA_aligned e
  rw [hks] at hk hal hlt
  rw [hks]
  simp only [hg, hN', if_false]
  have hk2 : kalloc (memref_get (memref_unlock_kalloc (memref_lock (record s Call.walk)))
      (PTE2PA e)).2 = ((PGSIZE * f) % 2 ^ 64,
        record { (memref_get (memref_unlock_kalloc (memref_lock (record s Call.walk)))
          (PTE2PA e)).2 with freelist := rest } Call.kalloc) := by
    simp [kalloc, memref_get, memref_unlock_kalloc, memref_lock, record, hfl]
  simp only [hk2, hk, if_false]
  rw [uvmunmap_one _ pagetable (PGROUNDDOWN va) e
    (by simpa [memmove, memref_get, memref_unlock_kalloc, memref_lock, record] using hent)]
  rw [mappages_one _ pagetable va _ _ 0 hva
    (by simp [writePte])]
  simp only [ne_eq, not_true_eq_false, if_false]
  have hfl10 := resolve_flags_lt e
  have hv0 : ((PTE_FLAGS e &&& not64 PTE_COW) ||| PTE_W).testBit 0 = true := by
    rw [testBit_resolve, testBit_PTE_FLAGS]
    have := (and_ne_zero_iff e 0).1 hV
    simp [this]
  refine ⟨_, PA2PTE ((PGSIZE * f) % 2 ^ 64) ||| ((PTE_FLAGS e &&& not64 PTE_COW) ||| PTE_W)
    ||| PTE_V, rfl, ?_, ?_, ?_, ?_, ?_, ?_⟩
  · simp [memref_unlock, memref_lock_kalloc, memref_set, record, decInt32_of_gt N hN1]
  · intro i hi
    simp only [memref_unlock, memref_lock_kalloc, memref_set, record, writePte, memmove,
      memref_get, memref_unlock_kalloc, memref_lock]
    split
    · rename_i hin
      congr 1
      simp only [PGSIZE] at *
      omega
    · rfl
  · simp [memref_unlock, memref_lock_kalloc, memref_set, record, writePte]
  · exact PTE2PA_install _ _ hlt hal hfl10
  · intro i hi
    simp only [memref_unlock, memref_lock_kalloc, memref_set, record, writePte, memmove,
      memref_get, memref_unlock_kalloc, memref_lock]
    rw [if_pos (by omega)]
    congr 1
    omega
  · exact PTE_FLAGS_install _ _ hfl10 hv0


theorem LogExt.extRefl (s : Kernel) : LogExt s s := ⟨[], by simp⟩

theorem LogExt.extTrans {s t u : Kernel} (h1 : LogExt s t) (h2 : LogExt t u) : LogExt s u := by
  obtain ⟨l1, e1⟩ := h1
  obtain ⟨l2, e2⟩ := h2
  exact ⟨l1 ++ l2, by rw [e2, e1, List.append_assoc]⟩

theorem mem_drop_of_logExt {s t : Kernel} (c : Call) (l : List Call)
    (h : LogExt { s with log := s.log ++ l } t) (hc : c ∈ l) :
    c ∈ t.log.drop s.log.length := by
  obtain ⟨l2, e⟩ := h
  simp only at e
  rw [e, List.append_assoc, List.drop_left]
  exact List.mem_append_left _ hc


/-- Claim C10 (killed process on a system call): for a user trap (`SPP` clear)
with `scause = 8` taken by a process whose killed flag is set, `usertrap` ends
in `exit(-1)`; the calls made are `w_stvec` and `exit` only, so `syscall` is
not invoked and interrupts are not re-enabled (`sstatus` is unchanged), and
the saved `epc` is `sepc`, not advanced by 4. -/
theorem usertrap_killed_syscall (env : Env) (pol : Policy) (s : Kernel) (p : Nat)
    (hspp : s.sstatus &&& SSTATUS_SPP = 0) (hcur : s.cur = some p) (hsc : s.scause = 8)
    (hk : (s.proc p).killed ≠ 0) :
    (usertrap env pol s).halted = some (Halt.exit (-1))
      ∧ (usertrap env pol s).state.log = s.log ++ [Call.w_stvec, Call.exit (-1)]
      ∧ ((usertrap env pol s).state.tfmem (s.proc p).trapframe).epc = s.sepc
      ∧ (usertrap env pol s).state.sstatus = s.sstatus := by
  have h1 : ¬ (s.sstatus &&& SSTATUS_SPP ≠ 0) := by simp [hspp]
  have h2 : usertrap env pol s = Res.halt (Halt.exit (-1))
      (record (setTrapframe (w_stvec s env.kernelvec) (s.proc p).trapframe
        (fun t => { t with epc := s.sepc })) (Call.exit (-1))) := by
    simp [usertrap, h1, w_stvec, record, hcur, usertrapCause, setTrapframe, hsc, killed, hk, exit]
  rw [h2]
  simp [Res.halted, Res.state, record, setTrapframe, w_stvec]

theorem SameAlarm.alarmRefl (u : Kernel) : SameAlarm u u :=
  ⟨rfl, rfl, rfl, fun _ => ⟨rfl, rfl, rfl, rfl, rfl, rfl⟩⟩

theorem SameAlarm.alarmTrans {u t w : Kernel} (h1 : SameAlarm u t) (h2 : SameAlarm t w) :
    SameAlarm u w := by
  obtain ⟨a1, a2, a3, a4⟩ := h1
  obtain ⟨b1, b2, b3, b4⟩ := h2
  refine ⟨b1.trans a1, b2.trans a2, b3.trans a3, fun q => ?_⟩
  obtain ⟨c1, c2, c3, c4, c5, c6⟩ := a4 q
  obtain ⟨d1, d2, d3, d4, d5, d6⟩ := b4 q
  exact ⟨d1.trans c1, d2.trans c2, d3.trans c3, d4.trans c4, d5.trans c5, d6.trans c6⟩

theorem sameAlarm_foldl {β : Type} (f : Kernel → β → Kernel) (hf : ∀ k b, SameAlarm k (f k b))
    (l : List β) (s : Kernel) : SameAlarm s (l.foldl f s) := by
  induction l generalizing s with
  | nil => exact SameAlarm.alarmRefl s
  | cons b l ih => exact (hf s b).alarmTrans (ih (f s b))

theorem sameAlarm_setProc (s : Kernel) (i : Nat) (f : Proc → Proc)
    (hf : ∀ q : Proc, (f q).nticks = q.nticks ∧ (f q).interval = q.interval
      ∧ (f q).handler = q.handler ∧ (f q).alarmOn = q.alarmOn
      ∧ (f q).alarmContext = q.alarmContext ∧ (f q).trapframe = q.trapframe) :
    SameAlarm s (setProc s i f) := by
  refine ⟨rfl, rfl, rfl, fun q => ?_⟩
  by_cases h : q = i
  · subst h
    simpa [setProc] using hf (s.proc q)
  · simp [setProc, h]

theorem sameAlarm_rtimeAccount (s : Kernel) : SameAlarm s (rtimeAccount s) := by
  unfold rtimeAccount
  apply sameAlarm_foldl
  intro k fp
  split
  · exact sameAlarm_setProc k fp _ (fun _ => ⟨rfl, rfl, rfl, rfl, rfl, rfl⟩)
  · exact SameAlarm.alarmRefl k

theorem sameAlarm_wticksSlot (s : Kernel) (i j : Nat) : SameAlarm s (wticksSlot s i j) := by
  unfold wticksSlot
  split
  · exact SameAlarm.alarmRefl s
  · split
    · exact sameAlarm_setProc s _ _ (fun _ => ⟨rfl, rfl, rfl, rfl, rfl, rfl⟩)
    · exact SameAlarm.alarmRefl s

theorem sameAlarm_mlfqAccount (s : Kernel) (p : Nat) (which_dev : Int) :
    SameAlarm s (mlfqAccount s p which_dev) := by
  unfold mlfqAccount
  split
  · simp only
    have h1 : SameAlarm s (if (s.proc p).state = ProcState.RUNNING then
        setProc s p (fun q => { q with rticks := incInt32 q.rticks }) else s) := by
      split
      · exact sameAlarm_setProc s p _ (fun _ => ⟨rfl, rfl, rfl, rfl, rfl, rfl⟩)
      · exact SameAlarm.alarmRefl s
    refine h1.alarmTrans ?_
    unfold wticksScan
    apply sameAlarm_foldl
    intro k i
    apply sameAlarm_foldl
    intro k2 j
    exact sameAlarm_wticksSlot k2 i j
  · exact SameAlarm.alarmRefl s

theorem kalloc_queue (s : Kernel) : (kalloc s).2.queue = s.queue := by
  unfold kalloc; split <;> rfl

theorem kalloc_proc (s : Kernel) : (kalloc s).2.proc = s.proc := by
  unfold kalloc; split <;> rfl

theorem kalloc_fst_congr (s u : Kernel) (h : s.freelist = u.freelist) :
    (kalloc s).1 = (kalloc u).1 := by
  unfold kalloc
  rw [h]
  cases u.freelist <;> rfl

theorem incInt32_of_lt (n : Int) (h : n < 2147483647) : incInt32 n = n + 1 := by
  unfold incInt32
  rw [if_neg]; omega

theorem state_ok {α : Type} (v : α) (s : Kernel) : (Res.ok v s).state = s := rfl

theorem state_halt {α : Type} (h : Halt) (s : Kernel) : (Res.halt h s : Res α).state = s := rfl

theorem kalloc_setProc (t : Kernel) (p : Nat) (f : Proc → Proc) :
    (kalloc (setProc t p f)).1 = (kalloc t).1 :=
  kalloc_fst_congr (setProc t p f) t rfl

theorem alarmHook_pending (t : Kernel) (p : Nat) (which_dev : Int)
    (h : (t.proc p).alarmOn ≠ 0) : alarmHook t p which_dev = Res.ok () t := by
  simp [alarmHook, h]

theorem alarmHook_quiet (t : Kernel) (p : Nat) (h0 : (t.proc p).alarmOn = 0)
    (hne : incInt32 (t.proc p).nticks ≠ (t.proc p).interval) :
    alarmHook t p 2
      = Res.ok () (setProc t p (fun q => { q with nticks := incInt32 q.nticks })) := by
  simp [alarmHook, h0, setProc, hne]

/-- The alarm hook returns unless it fires with the allocator exhausted. -/
theorem alarmHook_returns (t : Kernel) (p : Nat) (which_dev : Int)
    (hmem : (t.proc p).alarmOn = 0 → incInt32 (t.proc p).nticks = (t.proc p).interval →
      (kalloc t).1 ≠ 0) :
    alarmHook t p which_dev = Res.ok () (alarmHook t p which_dev).state := by
  unfold alarmHook
  split
  · next h =>
    simp only
    split
    · next he =>
      have hk : (kalloc (setProc t p (fun q => { q with nticks := incInt32 q.nticks }))).1 ≠ 0 := by
        rw [kalloc_setProc]
        exact hmem h.2 (by simpa [setProc] using he)
      rw [if_neg hk]
      rfl
    · rfl
  · rfl

/-- The alarm hook stops at the store through the null pointer when it fires
with the allocator exhausted (lines 155-156). -/
theorem alarmHook_nomem (t : Kernel) (p : Nat) (h0 : (t.proc p).alarmOn = 0)
    (he : incInt32 (t.proc p).nticks = (t.proc p).interval) (hk : (kalloc t).1 = 0) :
    (alarmHook t p 2).halted = some Halt.nullDeref
      ∧ ((alarmHook t p 2).state.proc p).alarmOn = 0
      ∧ (alarmHook t p 2).state.tfmem = t.tfmem := by
  have hk2 : (kalloc (setProc t p (fun q => { q with nticks := incInt32 q.nticks }))).1 = 0 := by
    rw [kalloc_setProc]; exact hk
  have hs : alarmHook t p 2 = Res.halt Halt.nullDeref
      (record (kalloc (setProc t p (fun q => { q with nticks := incInt32 q.nticks }))).2
        Call.memmove) := by
    unfold alarmHook
    rw [if_pos ⟨rfl, h0⟩]
    simp only
    rw [if_pos (by simpa [setProc] using he), if_pos hk2]
  rw [hs]
  refine ⟨rfl, ?_, ?_⟩
  · simp only [Res.state, record, kalloc_proc]
    simpa [setProc] using h0
  · simp only [Res.state, record]
    unfold kalloc
    split <;> rfl

theorem shl1Int32_small (L : Int) (h0 : 0 ≤ L) (h4 : L ≤ 4) : shl1Int32 L = 2 ^ L.toNat := by
  have h : L % 32 = L := Int.emod_eq_of_lt h0 (by omega)
  unfold shl1Int32
  rw [h, if_neg]
  omega

theorem setProc_setProc (s : Kernel) (p : Nat) (f g : Proc → Proc) :
    setProc (setProc s p f) p g = setProc s p (fun q => g (f q)) := by
  simp only [setProc]
  congr 1
  funext j
  by_cases h : j = p <;> simp [h]

theorem mlfqPreempt_frame (env : Env) (p : Nat)
    (hy : ∀ t, ((env.yield t).proc p).rticks = (t.proc p).rticks
      ∧ ((env.yield t).proc p).pr = (t.proc p).pr)
    (fuel i : Nat) (t : Kernel) :
    ((mlfqPreempt env p fuel i t).proc p).rticks = (t.proc p).rticks
      ∧ ((mlfqPreempt env p fuel i t).proc p).pr = (t.proc p).pr := by
  induction fuel generalizing i t with
  | zero => simp [mlfqPreempt]
  | succ fuel ih =>
    unfold mlfqPreempt
    split
    · simp only
      split
      · have := ih (i + 1) (yield env t)
        rw [this.1, this.2]
        simpa [yield, callOut] using hy t
      · exact ih (i + 1) t
    · exact ⟨rfl, rfl⟩

/-- Claim C8 (quantum exhaustion under `MLFQ`): on a timer-interrupt user trap
of a process `p` that is not killed and is at level `L` with `0 ≤ L ≤ P4`, if
after accounting `rticks = 2 ^ L` then `usertrap` goes on from `yield` called
in the state where `rticks` is 0 and the level is `L + 1` (`P4` when `L = P4`);
if `rticks ≠ 2 ^ L` the quantum code changes nothing; the new level never
exceeds `P4`; and the scan for higher levels that follows writes neither
`rticks` nor the level (it only calls `yield`). -/
theorem mlfq_quantum_exhaustion (env : Env) (s : Kernel) (p : Nat) (L : Int)
    (hk : (s.proc p).killed = 0) (hL0 : 0 ≤ L) (hL4 : L ≤ P4) (hpr : (s.proc p).pr = L) :
    ((s.proc p).rticks = 2 ^ L.toNat →
        usertrapFinish env Policy.MLFQ p 2 s
          = usertrapret env (mlfqPreempt env p 2147483648 0
              (yield env (setProc s p
                (fun q => { q with rticks := 0, pr := if L < P4 then L + 1 else P4 })))))
      ∧ ((s.proc p).rticks ≠ 2 ^ L.toNat →
          usertrapFinish env Policy.MLFQ p 2 s
            = usertrapret env (mlfqPreempt env p 2147483648 0 s))
      ∧ (if L < P4 then L + 1 else P4) ≤ P4
      ∧ ((∀ t, ((env.yield t).proc p).rticks = (t.proc p).rticks
            ∧ ((env.yield t).proc p).pr = (t.proc p).pr) →
          ∀ fuel i t, ((mlfqPreempt env p fuel i t).proc p).rticks = (t.proc p).rticks
            ∧ ((mlfqPreempt env p fuel i t).proc p).pr = (t.proc p).pr) := by
  have hs : shl1Int32 L = 2 ^ L.toNat := shl1Int32_small L hL0 (by simpa [P4] using hL4)
  refine ⟨fun h => ?_, fun h => ?_, ?_, fun hy fuel i t => mlfqPreempt_frame env p hy fuel i t⟩
  · have hq : mlfqQuantum env p s = yield env (setProc s p
        (fun q => { q with rticks := 0, pr := if L < P4 then L + 1 else P4 })) := by
      unfold mlfqQuantum
      rw [hpr, hs, if_pos h]
      by_cases h4 : L < P4
      · have hne : L ≠ P4 := by omega
        have h1 : incInt32 L = L + 1 := incInt32_of_lt L (by simp only [P4] at h4; omega)
        simp only [setProc, if_true, hpr, hne, ne_eq, not_false_eq_true, h4, h1]
        congr 2
        funext j
        by_cases hj : j = p <;> simp [hj, hpr, h1]
      · have he : L = P4 := by omega
        simp only [setProc, if_true, hpr, he, ne_eq, not_true_eq_false, if_false,
          lt_self_iff_false]
    simp [usertrapFinish, killed, hk, usertrapPolicy, hq]
  · have hq : mlfqQuantum env p s = s := by
      unfold mlfqQuantum
      rw [hpr, hs, if_neg h]
    simp [usertrapFinish, killed, hk, usertrapPolicy, hq]
  · split <;> omega


theorem SameSched.schedRefl (u : Kernel) : SameSched u u := ⟨rfl, fun _ => ⟨rfl, rfl⟩⟩

theorem SameSched.schedTrans {u t w : Kernel} (h1 : SameSched u t) (h2 : SameSched t w) :
    SameSched u w :=
  ⟨h2.1.trans h1.1, fun q => ⟨(h2.2 q).1.trans (h1.2 q).1, (h2.2 q).2.trans (h1.2 q).2⟩⟩

theorem sameSched_foldl {β : Type} (f : Kernel → β → Kernel) (hf : ∀ k b, SameSched k (f k b))
    (l : List β) (s : Kernel) : SameSched s (l.foldl f s) := by
  induction l generalizing s with
  | nil => exact SameSched.schedRefl s
  | cons b l ih => exact (hf s b).schedTrans (ih (f s b))

theorem sameSched_rtimeAccount (s : Kernel) : SameSched s (rtimeAccount s) := by
  unfold rtimeAccount
  apply sameSched_foldl
  intro k fp
  split
  · refine ⟨rfl, fun q => ?_⟩
    by_cases h : q = fp <;> simp [setProc, h]
  · exact SameSched.schedRefl k

theorem sameSched_alarmHook (s : Kernel) (p : Nat) (which_dev : Int) :
    SameSched s (alarmHook s p which_dev).state := by
  unfold alarmHook
  split
  · simp only
    split
    · split
      · refine ⟨by simp [Res.state, record, kalloc_queue, setProc], fun q => ?_⟩
        by_cases h : q = p <;> simp [Res.state, setProc, record, h, kalloc_proc]
      · refine ⟨by simp [Res.state, setTrapframe, setProc, memmove, record, kalloc_queue],
          fun q => ?_⟩
        by_cases h : q = p <;>
          simp [Res.state, setTrapframe, setProc, memmove, record, h, kalloc_proc]
    · refine ⟨rfl, fun q => ?_⟩
      by_cases h : q = p <;> simp [Res.state, setProc, h]
  · exact SameSched.schedRefl s


theorem foldl_product (g : Kernel → Nat → Nat → Kernel) (l1 l2 : List Nat) (u : Kernel) :
    l1.foldl (fun k i => l2.foldl (fun k2 j => g k2 i j) k) u
      = (l1 ×ˢ l2).foldl (fun k ij => g k ij.1 ij.2) u := by
  induction l1 generalizing u with
  | nil => rfl
  | cons a l1 ih =>
    rw [List.foldl_cons, ih, List.product_cons, List.foldl_append, List.foldl_map]

theorem sameSched_wticksSlot_except (u : Kernel) (i j : Nat) :
    (wticksSlot u i j).queue = u.queue
      ∧ ∀ q, ((wticksSlot u i j).proc q).state = (u.proc q).state := by
  unfold wticksSlot
  split
  · exact ⟨rfl, fun _ => rfl⟩
  · rename_i e _
    split
    · refine ⟨rfl, fun q => ?_⟩
      by_cases h : q = e <;> simp [setProc, h]
    · exact ⟨rfl, fun _ => rfl⟩

theorem wticksSlot_wticks (u : Kernel) (i j fp : Nat) :
    ((wticksSlot u i j).proc fp).wticks
      = if u.queue i j = some fp ∧ (u.proc fp).state = ProcState.RUNNABLE
        then incInt32 (u.proc fp).wticks else (u.proc fp).wticks := by
  unfold wticksSlot
  cases hq : u.queue i j with
  | none => simp
  | some q =>
    simp only
    by_cases hr : (u.proc q).state = ProcState.RUNNABLE
    · by_cases hfp : fp = q
      · subst hfp; simp [hr, setProc]
      · have : ¬ (q = fp) := fun h => hfp h.symm
        simp [hr, setProc, hfp, this]
    · by_cases hfp : q = fp
      · subst hfp; simp [hr]
      · simp [hr, hfp]

theorem scan_frame (L : List (Nat × Nat)) (u : Kernel) :
    (L.foldl (fun k ij => wticksSlot k ij.1 ij.2) u).queue = u.queue
      ∧ ∀ q, ((L.foldl (fun k ij => wticksSlot k ij.1 ij.2) u).proc q).state
          = (u.proc q).state := by
  induction L generalizing u with
  | nil => exact ⟨rfl, fun _ => rfl⟩
  | cons a L ih =>
    rw [List.foldl_cons]
    obtain ⟨h1, h2⟩ := ih (wticksSlot u a.1 a.2)
    obtain ⟨g1, g2⟩ := sameSched_wticksSlot_except u a.1 a.2
    exact ⟨h1.trans g1, fun q => (h2 q).trans (g2 q)⟩

theorem scan_none (L : List (Nat × Nat)) (u : Kernel) (fp : Nat)
    (h : ∀ a ∈ L, u.queue a.1 a.2 ≠ some fp) :
    ((L.foldl (fun k ij => wticksSlot k ij.1 ij.2) u).proc fp).wticks = (u.proc fp).wticks := by
  induction L generalizing u with
  | nil => rfl
  | cons a L ih =>
    rw [List.foldl_cons]
    obtain ⟨g1, _⟩ := sameSched_wticksSlot_except u a.1 a.2
    rw [ih (wticksSlot u a.1 a.2)
      (fun b hb => by rw [g1]; exact h b (List.mem_cons_of_mem _ hb))]
    rw [wticksSlot_wticks, if_neg]
    intro hc
    exact h a (List.mem_cons_self _ _) hc.1

theorem scan_unique (L : List (Nat × Nat)) (u : Kernel) (fp : Nat) (hnd : L.Nodup)
    (huniq : ∀ a ∈ L, ∀ b ∈ L, u.queue a.1 a.2 = some fp → u.queue b.1 b.2 = some fp → a = b) :
    ((L.foldl (fun k ij => wticksSlot k ij.1 ij.2) u).proc fp).wticks
      = if (∃ a ∈ L, u.queue a.1 a.2 = some fp) ∧ (u.proc fp).state = ProcState.RUNNABLE
        then incInt32 (u.proc fp).wticks else (u.proc fp).wticks := by
  induction L generalizing u with
  | nil => simp
  | cons a L ih =>
    rw [List.foldl_cons]
    obtain ⟨g1, g2⟩ := sameSched_wticksSlot_except u a.1 a.2
    have hndL : L.Nodup := (List.nodup_cons.1 hnd).2
    have haL : a ∉ L := (List.nodup_cons.1 hnd).1
    by_cases ha : u.queue a.1 a.2 = some fp
    · have hrest : ∀ b ∈ L, (wticksSlot u a.1 a.2).queue b.1 b.2 ≠ some fp := by
        intro b hb hc
        rw [g1] at hc
        have := huniq a (List.mem_cons_self _ _) b (List.mem_cons_of_mem _ hb) ha hc
        exact haL (this ▸ hb)
      rw [scan_none L _ fp hrest, wticksSlot_wticks]
      have hex : ∃ b ∈ a :: L, u.queue b.1 b.2 = some fp := ⟨a, List.mem_cons_self _ _, ha⟩
      simp only [ha, true_and, hex]
    · rw [ih (wticksSlot u a.1 a.2) hndL
        (fun b hb c hc h1 h2 => huniq b (List.mem_cons_of_mem _ hb) c (List.mem_cons_of_mem _ hc)
          (by rw [g1] at h1; exact h1) (by rw [g1] at h2; exact h2))]
      rw [g1, g2 fp, wticksSlot_wticks]
      have hiff : (∃ b ∈ a :: L, u.queue b.1 b.2 = some fp) ↔ (∃ b ∈ L, u.queue b.1 b.2 = some fp) := by
        constructor
        · rintro ⟨b, hb, hq⟩
          rcases List.mem_cons.1 hb with rfl | hb'
          · exact absurd hq ha
          · exact ⟨b, hb', hq⟩
        · rintro ⟨b, hb, hq⟩
          exact ⟨b, List.mem_cons_of_mem _ hb, hq⟩
      simp only [ha, false_and, if_false, hiff]


theorem scan_not_runnable (L : List (Nat × Nat)) (u : Kernel) (fp : Nat)
    (h : (u.proc fp).state ≠ ProcState.RUNNABLE) :
    ((L.foldl (fun k ij => wticksSlot k ij.1 ij.2) u).proc fp).wticks = (u.proc fp).wticks := by
  induction L generalizing u with
  | nil => rfl
  | cons a L ih =>
    rw [List.foldl_cons]
    obtain ⟨_, g2⟩ := sameSched_wticksSlot_except u a.1 a.2
    rw [ih (wticksSlot u a.1 a.2) (by rw [g2]; exact h), wticksSlot_wticks, if_neg]
    exact fun hc => h hc.2

theorem wticksScan_eq (u : Kernel) :
    wticksScan u = ((List.range NPR) ×ˢ (List.range NPROC)).foldl
      (fun k ij => wticksSlot k ij.1 ij.2) u := by
  unfold wticksScan
  exact foldl_product (fun k i j => wticksSlot k i j) _ _ u

theorem mem_grid (a : Nat × Nat) :
    a ∈ (List.range NPR) ×ˢ (List.range NPROC) ↔ a.1 < NPR ∧ a.2 < NPROC := by
  obtain ⟨i, j⟩ := a
  simp [List.mem_product, List.mem_range]

/-- What the scan of lines 168-176 does to the wait ticks of one process. -/
theorem wticksScan_wticks (u : Kernel) (fp : Nat) :
    ((∀ i j i' j', i < NPR → j < NPROC → i' < NPR → j' < NPROC →
          u.queue i j = some fp → u.queue i' j' = some fp → i = i' ∧ j = j') →
        (∃ i j, i < NPR ∧ j < NPROC ∧ u.queue i j = some fp) →
        (u.proc fp).state = ProcState.RUNNABLE →
        ((wticksScan u).proc fp).wticks = incInt32 (u.proc fp).wticks)
      ∧ ((¬ (∃ i j, i < NPR ∧ j < NPROC ∧ u.queue i j = some fp)
            ∨ (u.proc fp).state ≠ ProcState.RUNNABLE) →
          ((wticksScan u).proc fp).wticks = (u.proc fp).wticks) := by
  rw [wticksScan_eq]
  constructor
  · intro huniq hex hr
    rw [scan_unique _ u fp ((List.nodup_range NPR).product (List.nodup_range NPROC))]
    · rw [if_pos]
      obtain ⟨i, j, hi, hj, hq⟩ := hex
      exact ⟨⟨(i, j), (mem_grid (i, j)).2 ⟨hi, hj⟩, hq⟩, hr⟩
    · intro a ha b hb h1 h2
      obtain ⟨e1, e2⟩ := huniq a.1 a.2 b.1 b.2 ((mem_grid a).1 ha).1 ((mem_grid a).1 ha).2
        ((mem_grid b).1 hb).1 ((mem_grid b).1 hb).2 h1 h2
      exact Prod.ext e1 e2
  · rintro (hno | hnr)
    · apply scan_none
      intro a ha hq
      exact hno ⟨a.1, a.2, ((mem_grid a).1 ha).1, ((mem_grid a).1 ha).2, hq⟩
    · exact scan_not_runnable _ u fp hnr

theorem wticksScan_frame (u : Kernel) :
    (wticksScan u).queue = u.queue ∧ ∀ q, ((wticksScan u).proc q).state = (u.proc q).state := by
  rw [wticksScan_eq]
  exact scan_frame _ u

theorem usertrapCause_timer (env : Env) (s : Kernel) (p : Nat) (t u : Kernel)
    (h8 : s.scause ≠ 8) (h15 : s.scause ≠ 15) (hd : devintr env s = (2, t))
    (hret : alarmHook (rtimeAccount t) p 2 = Res.ok () u) :
    usertrapCause env s p = Res.ok 2 (mlfqAccount u p 2) := by
  simp [usertrapCause, h8, h15, hd, hret]

theorem usertrapCause_timer_halt (env : Env) (s : Kernel) (p : Nat) (t u : Kernel) (h : Halt)
    (h8 : s.scause ≠ 8) (h15 : s.scause ≠ 15) (hd : devintr env s = (2, t))
    (hret : alarmHook (rtimeAccount t) p 2 = Res.halt h u) :
    usertrapCause env s p = Res.halt h u := by
  simp [usertrapCause, h8, h15, hd, hret]

/-- The alarm hook returns on the state the run-time accounting leaves, unless
it fires with the allocator exhausted. -/
theorem alarmHook_after_rtime (t : Kernel) (p : Nat)
    (hmem : (t.proc p).alarmOn = 0 → incInt32 (t.proc p).nticks = (t.proc p).interval →
      (kalloc t).1 ≠ 0) :
    alarmHook (rtimeAccount t) p 2 = Res.ok () (alarmHook (rtimeAccount t) p 2).state := by
  obtain ⟨_, a2, _, a4⟩ := sameAlarm_rtimeAccount t
  obtain ⟨n1, n2, _, n4, _, _⟩ := a4 p
  apply alarmHook_returns
  intro h0 he
  rw [kalloc_fst_congr _ _ a2]
  rw [n4] at h0
  rw [n1, n2] at he
  exact hmem h0 he

theorem mlfqAccount_scan (v : Kernel) (p : Nat) :
    ∃ u, mlfqAccount v p 2 = wticksScan u ∧ SameSched v u := by
  unfold mlfqAccount
  simp only [if_true]
  by_cases hr : (v.proc p).state = ProcState.RUNNING
  · refine ⟨setProc v p (fun q => { q with rticks := incInt32 q.rticks }),
      by rw [if_pos hr], rfl, fun q => ?_⟩
    by_cases h : q = p
    · subst h; simp [setProc]
    · simp [setProc, h]
  · exact ⟨v, by rw [if_neg hr], SameSched.schedRefl v⟩

theorem sameSched_before_scan (t : Kernel) (p : Nat) :
    ∃ u, mlfqAccount (alarmHook (rtimeAccount t) p 2).state p 2 = wticksScan u
      ∧ SameSched t u := by
  obtain ⟨u, h1, h2⟩ := mlfqAccount_scan (alarmHook (rtimeAccount t) p 2).state p
  exact ⟨u, h1, ((sameSched_rtimeAccount t).schedTrans
    (sameSched_alarmHook (rtimeAccount t) p 2)).schedTrans h2⟩

/-- Claim C9, amended (wait-tick accounting): on a timer-interrupt user trap,
with the grid and the processes as `devintr` leaves them, if the alarm hook
does not fire with the allocator exhausted then the cause dispatch returns and
a process that occupies exactly one slot of the `NPR` by `NPROC` grid, is
`RUNNABLE` and whose `wticks` is below the maximum of an `int` has its
`wticks` increased by exactly 1; a process that is not in the grid or is not
`RUNNABLE` keeps its `wticks`; neither depends on the current process `p`. -/
theorem wticks_accounting (env : Env) (s : Kernel) (p fp : Nat)
    (h8 : s.scause ≠ 8) (h15 : s.scause ≠ 15) (hd : (devintr env s).1 = 2) :
    ((((devintr env s).2.proc p).alarmOn = 0 →
          incInt32 ((devintr env s).2.proc p).nticks = ((devintr env s).2.proc p).interval →
          (kalloc (devintr env s).2).1 ≠ 0) →
        (usertrapCause env s p).returned = some 2
          ∧ ((∀ i j i' j', i < NPR → j < NPROC → i' < NPR → j' < NPROC →
                (devintr env s).2.queue i j = some fp → (devintr env s).2.queue i' j' = some fp →
                i = i' ∧ j = j') →
              (∃ i j, i < NPR ∧ j < NPROC ∧ (devintr env s).2.queue i j = some fp) →
              ((devintr env s).2.proc fp).state = ProcState.RUNNABLE →
              ((devintr env s).2.proc fp).wticks < 2147483647 →
              ((usertrapCause env s p).state.proc fp).wticks
                = ((devintr env s).2.proc fp).wticks + 1))
      ∧ ((¬ (∃ i j, i < NPR ∧ j < NPROC ∧ (devintr env s).2.queue i j = some fp)
            ∨ ((devintr env s).2.proc fp).state ≠ ProcState.RUNNABLE) →
          ((usertrapCause env s p).state.proc fp).wticks
            = ((devintr env s).2.proc fp).wticks) := by
  have hd2 : devintr env s = (2, (devintr env s).2) := Prod.ext hd rfl
  obtain ⟨u, hu, hq, hp⟩ := sameSched_before_scan (devintr env s).2 p
  obtain ⟨w1, w2⟩ := wticksScan_wticks u fp
  rw [hq, (hp fp).1, (hp fp).2] at w1 w2
  refine ⟨fun hmem => ?_, fun hno => ?_⟩
  · have hret := alarmHook_after_rtime (devintr env s).2 p hmem
    rw [usertrapCause_timer env s p (devintr env s).2 _ h8 h15 hd2 hret]
    refine ⟨rfl, fun huniq hex hr hmax => ?_⟩
    rw [state_ok, hu, w1 huniq hex hr, incInt32_of_lt _ hmax]
  · cases hh : alarmHook (rtimeAccount (devintr env s).2) p 2 with
    | ok v a =>
      have ha : (alarmHook (rtimeAccount (devintr env s).2) p 2).state = a := by rw [hh]; rfl
      rw [usertrapCause_timer env s p (devintr env s).2 a h8 h15 hd2 hh]
      rw [ha] at hu
      rw [state_ok, hu]
      exact w2 hno
    | halt h a =>
      have ha : (alarmHook (rtimeAccount (devintr env s).2) p 2).state = a := by rw [hh]; rfl
      rw [usertrapCause_timer_halt env s p (devintr env s).2 a h h8 h15 hd2 hh]
      have hs := (sameSched_rtimeAccount (devintr env s).2).schedTrans
        (sameSched_alarmHook (rtimeAccount (devintr env s).2) p 2)
      rw [ha] at hs
      rw [state_halt]
      exact (hs.2 fp).2


/-- Claim C13 (privilege check of `kerneltrap`): in every state with the
`SSTATUS_SPP` bit of `sstatus` clear, `kerneltrap` panics with "not from
supervisor mode" in the very state it was entered in: `devintr` is not
called, nothing is logged (no yield, no kill, no exit), the process table is
untouched, and the function does not return. -/
theorem kerneltrap_from_user_panics (env : Env) (pol : Policy) (s : Kernel)
    (hspp : s.sstatus &&& SSTATUS_SPP = 0) :
    kerneltrap env pol s
        = Res.halt (Halt.panic PanicSite.kerneltrap_not_from_supervisor_mode) s
      ∧ (kerneltrap env pol s).returned = none
      ∧ (kerneltrap env pol s).state.log = s.log
      ∧ (kerneltrap env pol s).state.proc = s.proc := by
  have h : kerneltrap env pol s
      = Res.halt (Halt.panic PanicSite.kerneltrap_not_from_supervisor_mode) s := by
    simp [kerneltrap, hspp]
  rw [h]
  simp [Res.returned, Res.state]

theorem and_bit63_ne_zero (x : Nat) : x &&& 0x8000000000000000 ≠ 0 ↔ x.testBit 63 = true :=
  and_ne_zero_iff x 63

theorem class_logic (A B : Prop) [Decidable A] [Decidable B] (hx : B → ¬ A) :
    ((if A then (1 : Int) else if B then 2 else 0) = 1 ↔ A)
      ∧ ((if A then (1 : Int) else if B then 2 else 0) = 2 ↔ B)
      ∧ ((if A then (1 : Int) else if B then 2 else 0) = 0 ↔ (¬ A ∧ ¬ B))
      ∧ ((if A then (1 : Int) else if B then 2 else 0) = 0
          ∨ (if A then (1 : Int) else if B then 2 else 0) = 1
          ∨ (if A then (1 : Int) else if B then 2 else 0) = 2) := by
  by_cases hA : A <;> by_cases hB : B <;> simp_all

theorem devintr_fst (e : Env) (k : Kernel) :
    (devintr e k).1
      = if k.scause.testBit 63 = true ∧ k.scause &&& 0xff = 9 then 1
        else if k.scause = 0x8000000000000001 then 2 else 0 := by
  unfold devintr
  simp only [record]
  by_cases h1 : k.scause.testBit 63 = true ∧ k.scause &&& 0xff = 9
  · have h1' : k.scause &&& 0x8000000000000000 ≠ 0 ∧ k.scause &&& 0xff = 9 :=
      ⟨(and_bit63_ne_zero _).2 h1.1, h1.2⟩
    rw [if_pos h1', if_pos h1]
  · have h1' : ¬ (k.scause &&& 0x8000000000000000 ≠ 0 ∧ k.scause &&& 0xff = 9) :=
      fun h => h1 ⟨(and_bit63_ne_zero _).1 h.1, h.2⟩
    rw [if_neg h1', if_neg h1]
    by_cases h2 : k.scause = 0x8000000000000001
    · rw [if_pos h2, if_pos h2]
    · rw [if_neg h2, if_neg h2]

theorem devintr_unrecognized (e : Env) (k : Kernel) (h : (devintr e k).1 = 0) :
    devintr e k = (0, record k Call.devintr) := by
  unfold devintr at h ⊢
  simp only [record] at h ⊢
  split
  · rename_i h1; rw [if_pos h1] at h; simp at h
  · rename_i h1
    rw [if_neg h1] at h
    split
    · rename_i h2; rw [if_pos h2] at h; simp at h
    · rfl

/-- Claim C15 (classification by `devintr`): the value returned is 1 exactly
when bit 63 of `scause` is set and `scause & 0xff` is 9, it is 2 exactly when
`scause` is `0x8000000000000001`, and 0 exactly in every other case; the value
is always one of the three, and it is the same for any other environment
(interrupt number claimed, drivers) and any other state (hart id included)
with the same `scause`. -/
theorem devintr_class (env : Env) (s : Kernel) :
    ((devintr env s).1 = 1 ↔ (s.scause.testBit 63 = true ∧ s.scause &&& 0xff = 9))
      ∧ ((devintr env s).1 = 2 ↔ s.scause = 0x8000000000000001)
      ∧ ((devintr env s).1 = 0 ↔
          (¬ (s.scause.testBit 63 = true ∧ s.scause &&& 0xff = 9)
            ∧ s.scause ≠ 0x8000000000000001))
      ∧ ((devintr env s).1 = 0 ∨ (devintr env s).1 = 1 ∨ (devintr env s).1 = 2)
      ∧ (∀ (env2 : Env) (s2 : Kernel), s2.scause = s.scause →
          (devintr env2 s2).1 = (devintr env s).1) := by
  have key := devintr_fst
  have hexcl : s.scause = 0x8000000000000001 →
      ¬ (s.scause.testBit 63 = true ∧ s.scause &&& 0xff = 9) := by
    intro h hc
    rw [h] at hc
    exact absurd hc.2 (by decide)
  obtain ⟨c1, c2, c3, c4⟩ := class_logic _ _ hexcl
  refine ⟨?_, ?_, ?_, ?_, ?_⟩
  · rw [key]; exact c1
  · rw [key]; exact c2
  · rw [key]; exact c3
  · rw [key]; exact c4
  · intro env2 s2 hs
    rw [key, key, hs]

/-- Claim C16 (register restore of `kerneltrap`): whenever `kerneltrap` gets
past its checks (`SPP` set, interrupts disabled, `devintr` non-zero) it
returns, and `sepc` and `sstatus` at the return are those of the entry,
whatever `devintr`, the drivers and `yield` did in between. -/
theorem kerneltrap_restores (env : Env) (pol : Policy) (s : Kernel)
    (hspp : s.sstatus &&& SSTATUS_SPP ≠ 0) (hintr : intr_get s = false)
    (hdev : (devintr env s).1 ≠ 0) :
    ∃ s', kerneltrap env pol s = Res.ok () s' ∧ s'.sepc = s.sepc ∧ s'.sstatus = s.sstatus := by
  refine ⟨{ kerneltrapPolicy env pol (devintr env s).1 (devintr env s).2 with
    sepc := s.sepc, sstatus := s.sstatus }, ?_, rfl, rfl⟩
  simp [kerneltrap, hspp, hintr, hdev]


theorem logExtBy_same (P : Call → Prop) (s t : Kernel) (h : t.log = s.log) : LogExtBy P s t :=
  ⟨[], by simp [h], by simp⟩

theorem logExtBy_step {P : Call → Prop} {s t u : Kernel} (h1 : LogExtBy P s t)
    (h2 : LogExtBy P t u) : LogExtBy P s u := by
  obtain ⟨l1, e1, p1⟩ := h1
  obtain ⟨l2, e2, p2⟩ := h2
  refine ⟨l1 ++ l2, by rw [e2, e1, List.append_assoc], ?_⟩
  intro c hc
  rcases List.mem_append.1 hc with h | h
  · exact p1 c h
  · exact p2 c h

theorem logExtBy_one (P : Call → Prop) (s t : Kernel) (c : Call) (hc : P c)
    (h : t.log = s.log ++ [c]) : LogExtBy P s t :=
  ⟨[c], h, by simpa using hc⟩

theorem logExtBy_kalloc (P : Call → Prop) (hk : P Call.kalloc) (s : Kernel) :
    LogExtBy P s (kalloc s).2 := by
  unfold kalloc
  split
  · exact logExtBy_one P _ _ Call.kalloc hk rfl
  · exact logExtBy_one P _ _ Call.kalloc hk rfl

theorem logExtBy_walk (P : Call → Prop) (hw : P Call.walk) (hk : P Call.kalloc) (s : Kernel)
    (pagetable va alloc : Nat) : LogExtBy P s (walk s pagetable va alloc).2 := by
  have h0 : LogExtBy P s (record s Call.walk) := logExtBy_one P _ _ Call.walk hw rfl
  unfold walk
  simp only
  split
  · exact h0
  · split
    · exact h0
    · split
      · exact logExtBy_step h0 (logExtBy_kalloc P hk _)
      · exact logExtBy_step h0
          (logExtBy_step (logExtBy_kalloc P hk (record s Call.walk))
            (logExtBy_same P _ _ rfl))

theorem logExtBy_uvmunmapPage (P : Call → Prop) (hf : P Call.kfree) (s : Kernel)
    (pagetable a do_free : Nat) : LogExtBy P s (uvmunmapPage s pagetable a do_free) := by
  unfold uvmunmapPage
  split
  · exact logExtBy_same P _ _ rfl
  · by_cases h : do_free = 0
    · simp only [h, if_true]; exact logExtBy_same P _ _ rfl
    · simp only [h, if_false]
      exact logExtBy_one P _ _ Call.kfree hf (by simp [writePte, kfree, record])

theorem logExtBy_foldl {β : Type} (P : Call → Prop) (f : Kernel → β → Kernel)
    (hf : ∀ k b, LogExtBy P k (f k b)) (l : List β) (s : Kernel) :
    LogExtBy P s (l.foldl f s) := by
  induction l generalizing s with
  | nil => exact logExtBy_same P _ _ rfl
  | cons b l ih => exact logExtBy_step (hf s b) (ih (f s b))

theorem logExtBy_uvmunmap (P : Call → Prop) (hu : P Call.uvmunmap) (hf : P Call.kfree)
    (s : Kernel) (pagetable va npages do_free : Nat) :
    LogExtBy P s (uvmunmap s pagetable va npages do_free) := by
  unfold uvmunmap
  exact logExtBy_step (logExtBy_one P _ _ Call.uvmunmap hu rfl)
    (logExtBy_foldl P _ (fun k i => logExtBy_uvmunmapPage P hf k pagetable _ do_free) _ _)

theorem logExtBy_mappagesLoop (P : Call → Prop) (hw : P Call.walk) (hk : P Call.kalloc)
    (pagetable perm k : Nat) (s : Kernel) (a pa : Nat) :
    LogExtBy P s (mappagesLoop pagetable perm k s a pa).2 := by
  induction k generalizing s a pa with
  | zero => exact logExtBy_same P _ _ rfl
  | succ k ih =>
    unfold mappagesLoop
    have h := logExtBy_walk P hw hk s pagetable a 1
    split
    · rename_i s1 heq
      rw [heq] at h; exact h
    · rename_i p s1 heq
      rw [heq] at h
      exact logExtBy_step h (logExtBy_step (logExtBy_same P _ _ rfl) (ih _ _ _))

theorem logExtBy_mappages (P : Call → Prop) (hm : P Call.mappages) (hw : P Call.walk)
    (hk : P Call.kalloc) (s : Kernel) (pagetable va size pa perm : Nat) :
    LogExtBy P s (mappages s pagetable va size pa perm).2 := by
  unfold mappages
  exact logExtBy_step (logExtBy_one P _ _ Call.mappages hm rfl)
    (logExtBy_mappagesLoop P hw hk _ _ _ _ _ _)

theorem memLog_call {s u : Kernel} (t : Kernel) (c : Call) (hc : isMemCall c = true)
    (ht : t.log = u.log ++ [c]) (h : LogExtBy (fun c => isMemCall c = true) s u) :
    LogExtBy (fun c => isMemCall c = true) s t :=
  logExtBy_step h (logExtBy_one _ u t c hc ht)

theorem memLog_memref_lock {s u : Kernel} (h : LogExtBy (fun c => isMemCall c = true) s u) :
    LogExtBy (fun c => isMemCall c = true) s (memref_lock u) :=
  memLog_call _ Call.memref_lock rfl rfl h

theorem memLog_memref_unlock {s u : Kernel} (h : LogExtBy (fun c => isMemCall c = true) s u) :
    LogExtBy (fun c => isMemCall c = true) s (memref_unlock u) :=
  memLog_call _ Call.memref_unlock rfl rfl h

theorem memLog_memref_lock_kalloc {s u : Kernel}
    (h : LogExtBy (fun c => isMemCall c = true) s u) :
    LogExtBy (fun c => isMemCall c = true) s (memref_lock_kalloc u) :=
  memLog_call _ Call.memref_lock_kalloc rfl rfl h

theorem memLog_memref_unlock_kalloc {s u : Kernel}
    (h : LogExtBy (fun c => isMemCall c = true) s u) :
    LogExtBy (fun c => isMemCall c = true) s (memref_unlock_kalloc u) :=
  memLog_call _ Call.memref_unlock_kalloc rfl rfl h

theorem memLog_memref_get {s u : Kernel} (pa : Nat)
    (h : LogExtBy (fun c => isMemCall c = true) s u) :
    LogExtBy (fun c => isMemCall c = true) s (memref_get u pa).2 :=
  memLog_call _ Call.memref_get rfl rfl h

theorem memLog_memref_set {s u : Kernel} (pa : Nat) (v : Int)
    (h : LogExtBy (fun c => isMemCall c = true) s u) :
    LogExtBy (fun c => isMemCall c = true) s (memref_set u pa v) :=
  memLog_call _ Call.memref_set rfl rfl h

theorem memLog_kfree {s u : Kernel} (pa : Nat)
    (h : LogExtBy (fun c => isMemCall c = true) s u) :
    LogExtBy (fun c => isMemCall c = true) s (kfree u pa) :=
  memLog_call _ Call.kfree rfl rfl h

theorem memLog_memmove {s u : Kernel} (dst src n : Nat)
    (h : LogExtBy (fun c => isMemCall c = true) s u) :
    LogExtBy (fun c => isMemCall c = true) s (memmove u dst src n) :=
  memLog_call _ Call.memmove rfl rfl h

theorem memLog_writePte {s u : Kernel} (p : PtePtr) (v : Nat)
    (h : LogExtBy (fun c => isMemCall c = true) s u) :
    LogExtBy (fun c => isMemCall c = true) s (writePte u p v) :=
  logExtBy_step h (logExtBy_same _ _ _ rfl)

theorem memLog_kalloc {s u : Kernel} (h : LogExtBy (fun c => isMemCall c = true) s u) :
    LogExtBy (fun c => isMemCall c = true) s (kalloc u).2 :=
  logExtBy_step h (logExtBy_kalloc (fun c => isMemCall c = true) rfl u)

theorem memLog_walk {s u : Kernel} (pagetable va alloc : Nat)
    (h : LogExtBy (fun c => isMemCall c = true) s u) :
    LogExtBy (fun c => isMemCall c = true) s (walk u pagetable va alloc).2 :=
  logExtBy_step h (logExtBy_walk (fun c => isMemCall c = true) rfl rfl u pagetable va alloc)

theorem memLog_uvmunmap {s u : Kernel} (pagetable va npages do_free : Nat)
    (h : LogExtBy (fun c => isMemCall c = true) s u) :
    LogExtBy (fun c => isMemCall c = true) s (uvmunmap u pagetable va npages do_free) :=
  logExtBy_step h
    (logExtBy_uvmunmap (fun c => isMemCall c = true) rfl rfl u pagetable va npages do_free)

theorem memLog_mappages {s u : Kernel} (pagetable va size pa perm : Nat)
    (h : LogExtBy (fun c => isMemCall c = true) s u) :
    LogExtBy (fun c => isMemCall c = true) s (mappages u pagetable va size pa perm).2 :=
  logExtBy_step h
    (logExtBy_mappages (fun c => isMemCall c = true) rfl rfl rfl u pagetable va size pa perm)

/-- Whatever path `handleCOW` takes, it only adds page-table, allocator, copy
and share-count calls to the log. -/
theorem handleCOW_log (s : Kernel) (pagetable va : Nat) :
    LogExtBy (fun c => isMemCall c = true) s (handleCOW s pagetable va).state := by
  have h0 : LogExtBy (fun c => isMemCall c = true) s s := logExtBy_same _ _ _ rfl
  unfold handleCOW
  split
  · exact h0
  · simp only
    split
    · exact memLog_walk _ _ _ h0
    · split
      · exact memLog_walk _ _ _ h0
      · split
        · simp only [Res.state]
          apply memLog_memref_unlock
          apply memLog_memref_lock_kalloc
          apply memLog_writePte
          apply memLog_memref_get
          apply memLog_memref_unlock_kalloc
          apply memLog_memref_lock
          exact memLog_walk _ _ _ h0
        · split
          · simp only [Res.state]
            apply memLog_memref_unlock
            apply memLog_kalloc
            apply memLog_memref_get
            apply memLog_memref_unlock_kalloc
            apply memLog_memref_lock
            exact memLog_walk _ _ _ h0
          · split
            · simp only [Res.state]
              apply memLog_memref_unlock
              apply memLog_kfree
              apply memLog_mappages
              apply memLog_uvmunmap
              apply memLog_memmove
              apply memLog_kalloc
              apply memLog_memref_get
              apply memLog_memref_unlock_kalloc
              apply memLog_memref_lock
              exact memLog_walk _ _ _ h0
            · simp only [Res.state]
              apply memLog_memref_unlock
              apply memLog_memref_lock_kalloc
              apply memLog_memref_set
              apply memLog_mappages
              apply memLog_uvmunmap
              apply memLog_memmove
              apply memLog_kalloc
              apply memLog_memref_get
              apply memLog_memref_unlock_kalloc
              apply memLog_memref_lock
              exact memLog_walk _ _ _ h0


/-- Claim C14 (user faults kill the process, not the kernel): for a user trap
(`SPP` clear) of process `p`, (a) when `scause` is neither 8 nor 15 and
`devintr` returns 0, and (b) when `scause` is 15 and `handleCOW` returns a
non-zero value, `usertrap` sets the killed flag of `p` and ends in `exit(-1)`;
the log shows the calls made: no `yield`, and the run ends in the exit, neither
in a panic nor in the return to user space. -/
theorem usertrap_fault_kills (env : Env) (pol : Policy) (s : Kernel) (p : Nat)
    (hspp : s.sstatus &&& SSTATUS_SPP = 0) (hcur : s.cur = some p) :
    (s.scause ≠ 8 → s.scause ≠ 15 → (devintr env s).1 = 0 →
        (usertrap env pol s).halted = some (Halt.exit (-1))
          ∧ ((usertrap env pol s).state.proc p).killed = 1
          ∧ (usertrap env pol s).state.log
              = s.log ++ [Call.w_stvec, Call.devintr, Call.printf, Call.printf,
                  Call.setkilled, Call.exit (-1)])
      ∧ (s.scause = 15 → ∀ (r : Int) (s1 : Kernel),
          handleCOW (setTrapframe (w_stvec s env.kernelvec) (s.proc p).trapframe
              (fun t => { t with epc := s.sepc })) (s.proc p).pagetable s.stval = Res.ok r s1 →
          r ≠ 0 →
          (usertrap env pol s).halted = some (Halt.exit (-1))
            ∧ ((usertrap env pol s).state.proc p).killed = 1
            ∧ ∃ l, (usertrap env pol s).state.log
                  = s.log ++ Call.w_stvec :: l ++ [Call.setkilled, Call.exit (-1)]
                ∧ ∀ c ∈ l, isMemCall c = true) := by
  have h1 : ¬ (s.sstatus &&& SSTATUS_SPP ≠ 0) := by simp [hspp]
  constructor
  · intro h8 h15 hd
    have hd2 : (devintr env (setTrapframe (w_stvec s env.kernelvec) (s.proc p).trapframe
        (fun t => { t with epc := s.sepc }))).1 = 0 := by
      rw [devintr_fst] at hd ⊢
      exact hd
    have hd3 := devintr_unrecognized env _ hd2
    have hu : usertrap env pol s = Res.halt (Halt.exit (-1))
        (record (setkilled (record (record (record (setTrapframe (w_stvec s env.kernelvec)
          (s.proc p).trapframe (fun t => { t with epc := s.sepc })) Call.devintr)
          Call.printf) Call.printf) p) (Call.exit (-1))) := by
      have c8 : (setTrapframe (w_stvec s env.kernelvec) (s.proc p).trapframe
          (fun t => { t with epc := s.sepc })).scause ≠ 8 := h8
      have c15 : (setTrapframe (w_stvec s env.kernelvec) (s.proc p).trapframe
          (fun t => { t with epc := s.sepc })).scause ≠ 15 := h15
      have hc : (w_stvec s env.kernelvec).cur = some p := hcur
      have hp : (w_stvec s env.kernelvec).proc = s.proc := rfl
      have hsepc : (w_stvec s env.kernelvec).sepc = s.sepc := rfl
      simp only [usertrap, h1, if_false, hc, hp, hsepc, usertrapCause, c8, c15, hd3]
      simp [usertrapFinish, killed, setkilled, setProc, record, exit]
    rw [hu]
    simp [Res.halted, Res.state, record, setkilled, setProc, setTrapframe, w_stvec]
  · intro h15 r s1 hh hr
    have hu : usertrap env pol s = Res.halt (Halt.exit (-1))
        (record (setkilled s1 p) (Call.exit (-1))) := by
      have c8 : (setTrapframe (w_stvec s env.kernelvec) (s.proc p).trapframe
          (fun t => { t with epc := s.sepc })).scause ≠ 8 := by
        show s.scause ≠ 8
        rw [h15]; decide
      have c15 : (setTrapframe (w_stvec s env.kernelvec) (s.proc p).trapframe
          (fun t => { t with epc := s.sepc })).scause = 15 := h15
      have hc : (w_stvec s env.kernelvec).cur = some p := hcur
      have hp : (w_stvec s env.kernelvec).proc = s.proc := rfl
      have hsepc : (w_stvec s env.kernelvec).sepc = s.sepc := rfl
      have hpp : (setTrapframe (w_stvec s env.kernelvec) (s.proc p).trapframe
          (fun t => { t with epc := s.sepc })).proc = s.proc := rfl
      have hst : (setTrapframe (w_stvec s env.kernelvec) (s.proc p).trapframe
          (fun t => { t with epc := s.sepc })).stval = s.stval := rfl
      simp only [usertrap, h1, if_false, hc, hp, hsepc, usertrapCause, c8, c15, hpp, hst, hh]
      simp [usertrapFinish, killed, setkilled, setProc, record, exit, hr]
    have hl := handleCOW_log (setTrapframe (w_stvec s env.kernelvec) (s.proc p).trapframe
      (fun t => { t with epc := s.sepc })) (s.proc p).pagetable s.stval
    rw [hh] at hl
    obtain ⟨l, hl1, hl2⟩ := hl
    rw [hu]
    refine ⟨rfl, by simp [Res.state, record, setkilled, setProc], l, ?_, hl2⟩
    have hl3 : s1.log = s.log ++ [Call.w_stvec] ++ l := hl1
    simp only [Res.state, record, setkilled, setProc]
    rw [hl3]
    simp


theorem firstEmpty_le (s : Kernel) (i n : Nat) : firstEmpty s i n ≤ n := by
  induction n with
  | zero => simp [firstEmpty]
  | succ n ih =>
    unfold firstEmpty
    split
    · omega
    · split <;> omega

theorem firstEmpty_eq_zero (s : Kernel) (i n : Nat) (hn : 0 < n) :
    firstEmpty s i n = 0 ↔ s.queue i 0 = none := by
  induction n with
  | zero => omega
  | succ n ih =>
    by_cases h0 : n = 0
    · subst h0
      simp only [firstEmpty, lt_self_iff_false, if_false]
      by_cases hq : s.queue i 0 = none <;> simp [hq]
    · have hpos : 0 < n := by omega
      have ih' := ih hpos
      have hle := firstEmpty_le s i n
      unfold firstEmpty
      split
      · exact ih'
      · rename_i hge
        have hne : firstEmpty s i n ≠ 0 := by omega
        have hq : s.queue i 0 ≠ none := fun h => hne (ih'.2 h)
        split
        · constructor
          · intro h; omega
          · intro h; exact absurd h hq
        · constructor
          · intro h; omega
          · intro h; exact absurd h hq

theorem logExt_yield (env : Env) (t : Kernel) : LogExt t (yield env t) :=
  ⟨[Call.yield], rfl⟩

theorem logExt_mlfqPreempt (env : Env) (p fuel i : Nat) (t : Kernel) :
    LogExt t (mlfqPreempt env p fuel i t) := by
  induction fuel generalizing i t with
  | zero => exact LogExt.extRefl t
  | succ fuel ih =>
    unfold mlfqPreempt
    split
    · simp only
      split
      · exact (logExt_yield env t).extTrans (ih _ _)
      · exact ih _ _
    · exact LogExt.extRefl t

/-- The scan of lines 205-214 calls `yield` once it reaches a level above the
level of `p` whose slot 0 is occupied. -/
theorem mlfqPreempt_yields (env : Env) (p fuel i : Nat) (t : Kernel) (i0 : Nat)
    (hle : i ≤ i0) (hfuel : i0 - i < fuel) (hpr : (i0 : Int) < (t.proc p).pr)
    (hocc : t.queue i0 0 ≠ none) :
    Call.yield ∈ (mlfqPreempt env p fuel i t).log.drop t.log.length := by
  induction fuel generalizing i with
  | zero => omega
  | succ fuel ih =>
    have hi : (i : Int) < (t.proc p).pr := by omega
    unfold mlfqPreempt
    rw [if_pos hi]
    simp only
    by_cases hj : firstEmpty t i NPROC = 0
    · have hq : t.queue i 0 = none := (firstEmpty_eq_zero t i NPROC (by decide)).1 hj
      have hne : i ≠ i0 := fun h => hocc (h ▸ hq)
      rw [if_neg (by simpa using hj)]
      exact ih (i + 1) (by omega) (by omega)
    · rw [if_pos hj]
      obtain ⟨l, hl⟩ := logExt_mlfqPreempt env p fuel (i + 1) (yield env t)
      rw [hl]
      have : (yield env t).log = t.log ++ [Call.yield] := rfl
      rw [this, List.append_assoc, List.drop_left]
      simp

/-- The scan of lines 205-214 does nothing when slot 0 of every level above
the level of `p` is empty. -/
theorem mlfqPreempt_quiet (env : Env) (p fuel i : Nat) (t : Kernel)
    (h : ∀ k : Nat, (k : Int) < (t.proc p).pr → t.queue k 0 = none) :
    mlfqPreempt env p fuel i t = t := by
  induction fuel generalizing i with
  | zero => rfl
  | succ fuel ih =>
    unfold mlfqPreempt
    split
    · rename_i hi
      have hj : firstEmpty t i NPROC = 0 :=
        (firstEmpty_eq_zero t i NPROC (by decide)).2 (h i hi)
      simp only [hj, ne_eq, not_true_eq_false, if_false]
      exact ih (i + 1)
    · rfl

set_option maxRecDepth 100000 in
/-- Claim C11 fails on the code: in `timerTrapHole` the process of slot 0 is at
level 1 and the runnable process of slot 3 is queued at level 0 in
`queue[0][1]`, behind the empty `queue[0][0]`.  The scan of lines 168-176
finds it (its `wticks` goes from 0 to 1), the scan of lines 205-214 stops at
the empty slot, and the whole user trap runs without a call of `yield`. -/
theorem mlfq_hole_not_seen :
    timerTrapHole.sstatus &&& SSTATUS_SPP = 0
      ∧ (devintr idleEnv timerTrapHole).1 = 2
      ∧ (timerTrapHole.proc 0).killed = 0
      ∧ (timerTrapHole.proc 0).pr = 1
      ∧ timerTrapHole.queue 0 1 = some 3
      ∧ (timerTrapHole.proc 3).state = ProcState.RUNNABLE
      ∧ (timerTrapHole.proc 3).wticks = 0
      ∧ ((usertrap idleEnv Policy.MLFQ timerTrapHole).state.proc 3).wticks = 1
      ∧ ((usertrap idleEnv Policy.MLFQ timerTrapHole).state.proc 0).pr = 1
      ∧ (usertrap idleEnv Policy.MLFQ timerTrapHole).halted = some (Halt.userret (MAKE_SATP 1))
      ∧ Call.yield ∉ (usertrap idleEnv Policy.MLFQ timerTrapHole).state.log := by
  decide


/-- The in-place path of `handleCOW` (line 56) in terms of the fields of the
state: only the faulting entry changes. -/
theorem handleCOW_inplace_fields (s : Kernel) (pagetable va e : Nat) (hva : va < MAXVA)
    (hpage : PGROUNDDOWN va ≠ 0)
    (hent : s.pagetables pagetable (PGROUNDDOWN va / PGSIZE) = some e)
    (hV : e &&& PTE_V ≠ 0) (hU : e &&& PTE_U ≠ 0) (hC : e &&& PTE_COW ≠ 0)
    (h1 : s.memref (PTE2PA e) = 1) :
    ∃ s', handleCOW s pagetable va = Res.ok 0 s'
      ∧ s'.pagetables = (fun root vpn =>
          if root = pagetable ∧ vpn = PGROUNDDOWN va / PGSIZE
          then some ((e &&& not64 PTE_COW) ||| PTE_W) else s.pagetables root vpn)
      ∧ s'.memref = s.memref ∧ s'.mem = s.mem ∧ s'.freelist = s.freelist
      ∧ s'.log = s.log ++ [Call.walk, Call.memref_lock, Call.memref_unlock_kalloc,
          Call.memref_get, Call.memref_lock_kalloc, Call.memref_unlock] := by
  rw [handleCOW_resolve_eq s pagetable va e hva hpage hent hV hU hC]
  have hg : (memref_get (memref_unlock_kalloc (memref_lock (record s Call.walk))) (PTE2PA e)).1
      = 1 := by
    simp [memref_get, memref_unlock_kalloc, memref_lock, record, h1]
  simp only [hg, if_true]
  refine ⟨_, rfl, ?_, ?_, ?_, ?_, ?_⟩
  · simp [memref_unlock, memref_lock_kalloc, writePte, memref_get, memref_unlock_kalloc,
      memref_lock, record, readPte, hent]
  · simp [memref_unlock, memref_lock_kalloc, writePte, memref_get, memref_unlock_kalloc,
      memref_lock, record]
  · simp [memref_unlock, memref_lock_kalloc, writePte, memref_get, memref_unlock_kalloc,
      memref_lock, record]
  · simp [memref_unlock, memref_lock_kalloc, writePte, memref_get, memref_unlock_kalloc,
      memref_lock, record]
  · simp [memref_unlock, memref_lock_kalloc, writePte, memref_get, memref_unlock_kalloc,
      memref_lock, record]

/-- The path of `handleCOW` on which `kalloc` fails (lines 58-61): page
tables, share counts and memory are as before. -/
theorem handleCOW_nomem_fields (s : Kernel) (pagetable va e : Nat) (hva : va < MAXVA)
    (hpage : PGROUNDDOWN va ≠ 0)
    (hent : s.pagetables pagetable (PGROUNDDOWN va / PGSIZE) = some e)
    (hV : e &&& PTE_V ≠ 0) (hU : e &&& PTE_U ≠ 0) (hC : e &&& PTE_COW ≠ 0)
    (h1 : s.memref (PTE2PA e) ≠ 1) (hk : (kalloc s).1 = 0) :
    ∃ s', handleCOW s pagetable va = Res.ok 1 s'
      ∧ s'.pagetables = s.pagetables ∧ s'.memref = s.memref ∧ s'.mem = s.mem := by
  rw [handleCOW_resolve_eq s pagetable va e hva hpage hent hV hU hC]
  have hg : (memref_get (memref_unlock_kalloc (memref_lock (record s Call.walk))) (PTE2PA e)).1
      = s.memref (PTE2PA e) := by
    simp [memref_get, memref_unlock_kalloc, memref_lock, record]
  have hk2 : (kalloc (memref_get (memref_unlock_kalloc (memref_lock (record s Call.walk)))
      (PTE2PA e)).2).1 = 0 := by
    unfold kalloc at hk ⊢
    simp only [memref_get, memref_unlock_kalloc, memref_lock, record]
    cases hl : s.freelist with
    | nil => rfl
    | cons f rest => rw [hl] at hk; exact hk
  simp only [hg, h1, if_false, hk2, if_true]
  refine ⟨_, rfl, ?_, ?_, ?_⟩
  · unfold kalloc
    simp only [memref_get, memref_unlock_kalloc, memref_lock, record, memref_unlock]
    cases s.freelist <;> rfl
  · unfold kalloc
    simp only [memref_get, memref_unlock_kalloc, memref_lock, record, memref_unlock]
    cases s.freelist <;> rfl
  · unfold kalloc
    simp only [memref_get, memref_unlock_kalloc, memref_lock, record, memref_unlock]
    cases s.freelist <;> rfl

/-- The copy path of `handleCOW` (lines 58-71) in terms of the fields of the
state: the faulting entry points at the new frame, the new frame holds the
bytes of the old one, and the share count of the old frame is one less. -/
theorem handleCOW_copy_fields (s : Kernel) (pagetable va e : Nat) (hva : va < MAXVA)
    (hpage : PGROUNDDOWN va ≠ 0)
    (hent : s.pagetables pagetable (PGROUNDDOWN va / PGSIZE) = some e)
    (hV : e &&& PTE_V ≠ 0) (hU : e &&& PTE_U ≠ 0) (hC : e &&& PTE_COW ≠ 0)
    (h1 : s.memref (PTE2PA e) ≠ 1) (hk : (kalloc s).1 ≠ 0) :
    ∃ s', handleCOW s pagetable va = Res.ok 0 s'
      ∧ s'.pagetables = (fun root vpn =>
          if root = pagetable ∧ vpn = PGROUNDDOWN va / PGSIZE
          then some (PA2PTE (kalloc s).1 ||| ((PTE_FLAGS e &&& not64 PTE_COW) ||| PTE_W)
            ||| PTE_V)
          else s.pagetables root vpn)
      ∧ s'.memref = (fun a =>
          if a = PTE2PA e then decInt32 (s.memref (PTE2PA e)) else s.memref a)
      ∧ s'.mem = (fun a =>
          if (kalloc s).1 ≤ a ∧ a < (kalloc s).1 + PGSIZE
          then s.mem (PTE2PA e + (a - (kalloc s).1)) else s.mem a)
      ∧ s'.freelist = s.freelist.tail := by
  rw [handleCOW_resolve_eq s pagetable va e hva hpage hent hV hU hC]
  have hg : (memref_get (memref_unlock_kalloc (memref_lock (record s Call.walk))) (PTE2PA e)).1
      = s.memref (PTE2PA e) := by
    simp [memref_get, memref_unlock_kalloc, memref_lock, record]
  obtain ⟨f, rest, hfl⟩ : ∃ f rest, s.freelist = f :: rest := by
    cases hl : s.freelist with
    | nil => simp [kalloc, hl] at hk
    | cons f rest => exact ⟨f, rest, rfl⟩
  have hks : (kalloc s).1 = (PGSIZE * f) % 2 ^ 64 := by simp [kalloc, hfl]
  rw [hks] at hk
  rw [hks]
  simp only [hg, h1, if_false]
  have hk2 : kalloc (memref_get (memref_unlock_kalloc (memref_lock (record s Call.walk)))
      (PTE2PA e)).2 = ((PGSIZE * f) % 2 ^ 64,
        record { (memref_get (memref_unlock_kalloc (memref_lock (record s Call.walk)))
          (PTE2PA e)).2 with freelist := rest } Call.kalloc) := by
    simp [kalloc, memref_get, memref_unlock_kalloc, memref_lock, record, hfl]
  simp only [hk2, hk, if_false]
  rw [uvmunmap_one _ pagetable (PGROUNDDOWN va) e
    (by simpa [memmove, memref_get, memref_unlock_kalloc, memref_lock, record] using hent)]
  rw [mappages_one _ pagetable va _ _ 0 hva
    (by simp [writePte])]
  simp only [ne_eq, not_true_eq_false, if_false]
  refine ⟨_, rfl, ?_, ?_, ?_, ?_⟩
  · funext root vpn
    simp only [memref_unlock, memref_lock_kalloc, memref_set, record, writePte, memmove,
      memref_get, memref_unlock_kalloc, memref_lock]
    by_cases h : root = pagetable ∧ vpn = PGROUNDDOWN va / PGSIZE
    · simp [h]
    · simp [h]
  · simp [memref_unlock, memref_lock_kalloc, memref_set, record, writePte, memmove,
      memref_get, memref_unlock_kalloc, memref_lock]
  · simp [memref_unlock, memref_lock_kalloc, memref_set, record, writePte, memmove,
      memref_get, memref_unlock_kalloc, memref_lock]
  · simp [memref_unlock, memref_lock_kalloc, memref_set, record, writePte, memmove,
      memref_get, memref_unlock_kalloc, memref_lock, hfl]


theorem resolve_cow_clear (e : Nat) : ((e &&& not64 PTE_COW) ||| PTE_W) &&& PTE_COW = 0 :=
  (and_two_pow_eq_zero ((e &&& not64 PTE_COW) ||| PTE_W) 8).2 (by rw [testBit_resolve]; simp)

theorem install_cow_clear (new e : Nat) :
    (PA2PTE new ||| ((PTE_FLAGS e &&& not64 PTE_COW) ||| PTE_W) ||| PTE_V) &&& PTE_COW = 0 := by
  have hv : PTE_V = 2 ^ 0 := rfl
  apply (and_two_pow_eq_zero _ 8).2
  rw [Nat.testBit_or, Nat.testBit_or, testBit_PA2PTE, testBit_resolve, hv, Nat.testBit_two_pow]
  simp

/-- Claim C12 (two writers of one shared frame): when two page tables map the
same frame `F = PTE2PA e1` copy-on-write (valid, user, `PTE_COW`) with share
count 2 and a frame is free, `handleCOW` for the first takes the copy path:
it returns 0, the frame of `kalloc` is taken from the allocator and mapped for
it, the count of `F` becomes 1, the bytes of `F` are unchanged and the entry of
the second table is untouched; `handleCOW` for the second then takes the
in-place path: it returns 0 without `kalloc`, its entry still points at `F`,
with `PTE_W` set and `PTE_COW` cleared, and the count of `F` stays 1. -/
theorem cow_two_writers (s : Kernel) (pt1 pt2 va1 va2 e1 e2 : Nat) (hne : pt1 ≠ pt2)
    (hva1 : va1 < MAXVA) (hva2 : va2 < MAXVA)
    (hp1 : PGROUNDDOWN va1 ≠ 0) (hp2 : PGROUNDDOWN va2 ≠ 0)
    (hent1 : s.pagetables pt1 (PGROUNDDOWN va1 / PGSIZE) = some e1)
    (hent2 : s.pagetables pt2 (PGROUNDDOWN va2 / PGSIZE) = some e2)
    (hV1 : e1 &&& PTE_V ≠ 0) (hU1 : e1 &&& PTE_U ≠ 0) (hC1 : e1 &&& PTE_COW ≠ 0)
    (hV2 : e2 &&& PTE_V ≠ 0) (hU2 : e2 &&& PTE_U ≠ 0) (hC2 : e2 &&& PTE_COW ≠ 0)
    (hF : PTE2PA e2 = PTE2PA e1) (hcnt : s.memref (PTE2PA e1) = 2)
    (hk : (kalloc s).1 ≠ 0) :
    ∃ s1 e1', handleCOW s pt1 va1 = Res.ok 0 s1
      ∧ s1.pagetables pt1 (PGROUNDDOWN va1 / PGSIZE) = some e1'
      ∧ PTE2PA e1' = (kalloc s).1 ∧ s1.freelist = s.freelist.tail
      ∧ s1.memref (PTE2PA e1) = 1
      ∧ (∀ i, i < PGSIZE → s1.mem (PTE2PA e1 + i) = s.mem (PTE2PA e1 + i))
      ∧ s1.pagetables pt2 (PGROUNDDOWN va2 / PGSIZE) = some e2
      ∧ ∃ s2 e2', handleCOW s1 pt2 va2 = Res.ok 0 s2
          ∧ s2.freelist = s1.freelist ∧ Call.kalloc ∉ s2.log.drop s1.log.length
          ∧ s2.pagetables pt2 (PGROUNDDOWN va2 / PGSIZE) = some e2'
          ∧ PTE2PA e2' = PTE2PA e1 ∧ e2' &&& PTE_W ≠ 0 ∧ e2' &&& PTE_COW = 0
          ∧ s2.memref (PTE2PA e1) = 1 := by
  have hn1 : s.memref (PTE2PA e1) ≠ 1 := by rw [hcnt]; decide
  obtain ⟨s1, hs1, hpt1, hmr1, hmem1, hfl1⟩ :=
    handleCOW_copy_fields s pt1 va1 e1 hva1 hp1 hent1 hV1 hU1 hC1 hn1 hk
  obtain ⟨hal, hlt⟩ := kalloc_aligned s
  have hpa := PTE2PA_aligned e1
  have hent2' : s1.pagetables pt2 (PGROUNDDOWN va2 / PGSIZE) = some e2 := by
    rw [hpt1]
    have : ¬ (pt2 = pt1 ∧ PGROUNDDOWN va2 / PGSIZE = PGROUNDDOWN va1 / PGSIZE) :=
      fun h => hne h.1.symm
    simp only [this, if_false, hent2]
  have hcnt1 : s1.memref (PTE2PA e1) = 1 := by
    rw [hmr1, hcnt]; simp [decInt32]
  have hcnt2 : s1.memref (PTE2PA e2) = 1 := by rw [hF]; exact hcnt1
  obtain ⟨s2, hs2, hpt2, hmr2, _, hfl2, hlog2⟩ :=
    handleCOW_inplace_fields s1 pt2 va2 e2 hva2 hp2 hent2' hV2 hU2 hC2 hcnt2
  refine ⟨s1, PA2PTE (kalloc s).1 ||| ((PTE_FLAGS e1 &&& not64 PTE_COW) ||| PTE_W) ||| PTE_V,
    hs1, by rw [hpt1]; simp, ?_, hfl1, hcnt1, ?_, hent2', s2,
    (e2 &&& not64 PTE_COW) ||| PTE_W, hs2, hfl2, ?_,
    by rw [hpt2]; simp, ?_, ?_, resolve_cow_clear e2, ?_⟩
  · exact PTE2PA_install _ _ hlt hal (resolve_flags_lt e1)
  · intro i hi
    rw [hmem1]
    simp only
    split
    · congr 1
      simp only [PGSIZE] at *
      omega
    · rfl
  · rw [hlog2, List.drop_left]
    decide
  · rw [PTE2PA_resolve, hF]
  · exact (and_ne_zero_iff ((e2 &&& not64 PTE_COW) ||| PTE_W) 2).2
      (by rw [testBit_resolve]; simp)
  · rw [hmr2]; exact hcnt1

theorem cowCountsPositive_of_tables (s t : Kernel)
    (slot : Nat × Nat) (e' : Nat) (he' : e' &&& PTE_COW = 0)
    (hpt : ∀ root vpn, t.pagetables root vpn
      = if root = slot.1 ∧ vpn = slot.2 then some e' else s.pagetables root vpn)
    (hmr : ∀ root vpn e, s.pagetables root vpn = some e → e &&& PTE_V ≠ 0 →
      e &&& PTE_COW ≠ 0 → ¬ (root = slot.1 ∧ vpn = slot.2) → 1 ≤ t.memref (PTE2PA e)) :
    CowCountsPositive t := by
  intro root vpn e h hv hc
  rw [hpt] at h
  by_cases hs : root = slot.1 ∧ vpn = slot.2
  · rw [if_pos hs] at h
    cases h
    exact absurd he' hc
  · rw [if_neg hs] at h
    exact hmr root vpn e h hv hc hs

/-- Claim C17 (share counts stay positive): if every frame referenced by a
valid copy-on-write entry has share count at least 1 when `handleCOW` is
called, the same holds in the state `handleCOW` ends in, on every path,
returning or not; and every share count `handleCOW` changed is at least 1
afterwards. -/
theorem handleCOW_keeps_counts_positive (s : Kernel) (pagetable va : Nat)
    (hinv : CowCountsPositive s) :
    CowCountsPositive (handleCOW s pagetable va).state
      ∧ ∀ a, (handleCOW s pagetable va).state.memref a ≠ s.memref a →
          1 ≤ (handleCOW s pagetable va).state.memref a := by
  by_cases hva : MAXVA ≤ va
  · have h : handleCOW s pagetable va = Res.ok 1 s := by simp [handleCOW, hva]
    rw [h]
    exact ⟨hinv, fun a ha => absurd rfl ha⟩
  · have hva' : va < MAXVA := by omega
    cases hent : s.pagetables pagetable (PGROUNDDOWN va / PGSIZE) with
    | none =>
      rw [handleCOW_absent s pagetable va hva' hent]
      exact ⟨hinv, fun a ha => absurd rfl ha⟩
    | some e =>
      by_cases hrej : e &&& PTE_COW = 0 ∨ e &&& PTE_V = 0 ∨ e &&& PTE_U = 0 ∨ PGROUNDDOWN va = 0
      · have h : handleCOW s pagetable va = Res.ok 1 (record s Call.walk) := by
          have hva2 : ¬ (va ≥ MAXVA) := by omega
          have hr : readPte (record s Call.walk) ⟨pagetable, PGROUNDDOWN va / PGSIZE⟩ = e := by
            simp [readPte, record, hent]
          have hc : (PTE_FLAGS e &&& PTE_COW = 0) = (e &&& PTE_COW = 0) := by
            have := flags_and e 8 (by norm_num); have := and_two_pow_eq_zero e 8
            simp_all [PTE_COW]
          have hv : (PTE_FLAGS e &&& PTE_V = 0) = (e &&& PTE_V = 0) := by
            have := flags_and e 0 (by norm_num); have := and_two_pow_eq_zero e 0
            simp_all [PTE_V]
          have hu : (PTE_FLAGS e &&& PTE_U = 0) = (e &&& PTE_U = 0) := by
            have := flags_and e 4 (by norm_num); have := and_two_pow_eq_zero e 4
            simp_all [PTE_U]
          simp only [handleCOW, hva2, if_false, walk_present s pagetable _ 0 e hent, hr, hc,
            hv, hu]
          rw [if_pos]
          tauto
        rw [h]
        exact ⟨hinv, fun a ha => absurd rfl ha⟩
      · have hC : e &&& PTE_COW ≠ 0 := fun h => hrej (Or.inl h)
        have hV : e &&& PTE_V ≠ 0 := fun h => hrej (Or.inr (Or.inl h))
        have hU : e &&& PTE_U ≠ 0 := fun h => hrej (Or.inr (Or.inr (Or.inl h)))
        have hpage : PGROUNDDOWN va ≠ 0 := fun h => hrej (Or.inr (Or.inr (Or.inr h)))
        have hpos : 1 ≤ s.memref (PTE2PA e) := hinv pagetable _ e hent hV hC
        by_cases h1 : s.memref (PTE2PA e) = 1
        · obtain ⟨s', hs', hpt, hmr, _, _, _⟩ :=
            handleCOW_inplace_fields s pagetable va e hva' hpage hent hV hU hC h1
          rw [hs']
          simp only [Res.state]
          refine ⟨cowCountsPositive_of_tables s s' (pagetable, PGROUNDDOWN va / PGSIZE) _
            (resolve_cow_clear e) (fun root vpn => by rw [hpt]) ?_, ?_⟩
          · intro root vpn e2 h2 hv2 hc2 _
            rw [hmr]; exact hinv root vpn e2 h2 hv2 hc2
          · intro a ha; rw [hmr] at ha; exact absurd rfl ha
        · by_cases hk : (kalloc s).1 = 0
          · obtain ⟨s', hs', hpt, hmr, _⟩ :=
              handleCOW_nomem_fields s pagetable va e hva' hpage hent hV hU hC h1 hk
            rw [hs']
            simp only [Res.state]
            refine ⟨?_, ?_⟩
            · intro root vpn e2 h2 hv2 hc2
              rw [hpt] at h2; rw [hmr]; exact hinv root vpn e2 h2 hv2 hc2
            · intro a ha; rw [hmr] at ha; exact absurd rfl ha
          · obtain ⟨s', hs', hpt, hmr, _, _⟩ :=
              handleCOW_copy_fields s pagetable va e hva' hpage hent hV hU hC h1 hk
            have hdec : decInt32 (s.memref (PTE2PA e)) = s.memref (PTE2PA e) - 1 :=
              decInt32_of_gt _ (by omega)
            rw [hs']
            simp only [Res.state]
            refine ⟨cowCountsPositive_of_tables s s' (pagetable, PGROUNDDOWN va / PGSIZE) _
              (install_cow_clear _ e) (fun root vpn => by rw [hpt]) ?_, ?_⟩
            · intro root vpn e2 h2 hv2 hc2 _
              rw [hmr]
              simp only
              split
              · rw [hdec]; omega
              · exact hinv root vpn e2 h2 hv2 hc2
            · intro a ha
              rw [hmr] at ha ⊢
              simp only at ha ⊢
              split
              · rw [hdec]; omega
              · rename_i hne; rw [if_neg hne] at ha; exact absurd rfl ha

theorem cowShared_counts_positive : CowCountsPositive cowShared := by
  intro root vpn e h hv hc
  have hp : cowShared.pagetables root vpn
      = if (root = 1 ∨ root = 2) ∧ vpn = 5 then some 0x20001513
        else if root = 3 ∧ vpn = 5 then some 0x20001417 else none := rfl
  rw [hp] at h
  split at h
  · cases h
    decide
  · split at h
    · cases h
      exact absurd (by decide) hc
    · cases h


/-- What the alarm hook does when it fires with a page allocated (lines 155-159). -/
theorem alarmHook_checkpoint (u : Kernel) (p : Nat) (hon : (u.proc p).alarmOn = 0)
    (hfire : incInt32 (u.proc p).nticks = (u.proc p).interval)
    (hk : (kalloc u).1 ≠ 0) (hfresh : (kalloc u).1 ≠ (u.proc p).trapframe) :
    ((alarmHook u p 2).state.proc p).alarmContext = (kalloc u).1
      ∧ (alarmHook u p 2).state.tfmem (kalloc u).1 = u.tfmem (u.proc p).trapframe
      ∧ ((alarmHook u p 2).state.proc p).alarmOn = 1
      ∧ (alarmHook u p 2).state.tfmem (u.proc p).trapframe
          = { u.tfmem (u.proc p).trapframe with epc := (u.proc p).handler }
      ∧ ((alarmHook u p 2).state.proc p).trapframe = (u.proc p).trapframe
      ∧ ((alarmHook u p 2).state.proc p).handler = (u.proc p).handler := by
  cases hfl : u.freelist with
  | nil =>
    have hk0 : (kalloc u).1 = 0 := by simp [kalloc, hfl]
    exact absurd hk0 hk
  | cons f rest =>
    have hk0 : (kalloc u).1 = (PGSIZE * f) % 2 ^ 64 := by simp [kalloc, hfl]
    rw [hk0] at hfresh hk ⊢
    have hfresh2 : ¬ ((u.proc p).trapframe = (PGSIZE * f) % 2 ^ 64) := fun h => hfresh h.symm
    have e64 : (2 : Nat) ^ 64 = 18446744073709551616 := by norm_num
    rw [e64] at hk hfresh hfresh2
    simp [alarmHook, kalloc, setProc, hfl, hon, hfire, setTrapframe, memmove, record, hfresh,
      hfresh2, hk, Res.state]


/-- On a timer interrupt taken in user mode, `usertrap` saves `sepc`, runs the
accounting blocks and the alarm hook on the state `devintr` leaves, and, when
the hook returns, goes on with lines 186-222. -/
theorem usertrap_timer_eq (env : Env) (pol : Policy) (s : Kernel) (p : Nat) (s2 u : Kernel)
    (hspp : s.sstatus &&& SSTATUS_SPP = 0) (hcur : s.cur = some p)
    (h8 : s.scause ≠ 8) (h15 : s.scause ≠ 15)
    (hs2 : s2 = setTrapframe (w_stvec s env.kernelvec) (s.proc p).trapframe
      (fun tf => { tf with epc := s.sepc }))
    (hd : (devintr env s2).1 = 2)
    (hret : alarmHook (rtimeAccount (devintr env s2).2) p 2 = Res.ok () u) :
    usertrap env pol s = usertrapFinish env pol p 2 (mlfqAccount u p 2) := by
  have h1 : ¬ (s.sstatus &&& SSTATUS_SPP ≠ 0) := by simp [hspp]
  have hc : (w_stvec s env.kernelvec).cur = some p := hcur
  have hp : (w_stvec s env.kernelvec).proc = s.proc := rfl
  have hsepc : (w_stvec s env.kernelvec).sepc = s.sepc := rfl
  have hd2 : devintr env s2 = (2, (devintr env s2).2) := Prod.ext hd rfl
  have c8 : s2.scause ≠ 8 := by rw [hs2]; exact h8
  have c15 : s2.scause ≠ 15 := by rw [hs2]; exact h15
  have hcause := usertrapCause_timer env s2 p (devintr env s2).2 u c8 c15 hd2 hret
  simp only [usertrap, h1, if_false, hc, hp, hsepc]
  rw [← hs2, hcause]

/-- On a timer interrupt taken in user mode, a halt of the alarm hook is the
end of `usertrap`. -/
theorem usertrap_timer_halt (env : Env) (pol : Policy) (s : Kernel) (p : Nat) (s2 u : Kernel)
    (h : Halt) (hspp : s.sstatus &&& SSTATUS_SPP = 0) (hcur : s.cur = some p)
    (h8 : s.scause ≠ 8) (h15 : s.scause ≠ 15)
    (hs2 : s2 = setTrapframe (w_stvec s env.kernelvec) (s.proc p).trapframe
      (fun tf => { tf with epc := s.sepc }))
    (hd : (devintr env s2).1 = 2)
    (hret : alarmHook (rtimeAccount (devintr env s2).2) p 2 = Res.halt h u) :
    usertrap env pol s = Res.halt h u := by
  have h1 : ¬ (s.sstatus &&& SSTATUS_SPP ≠ 0) := by simp [hspp]
  have hc : (w_stvec s env.kernelvec).cur = some p := hcur
  have hp : (w_stvec s env.kernelvec).proc = s.proc := rfl
  have hsepc : (w_stvec s env.kernelvec).sepc = s.sepc := rfl
  have hd2 : devintr env s2 = (2, (devintr env s2).2) := Prod.ext hd rfl
  have c8 : s2.scause ≠ 8 := by rw [hs2]; exact h8
  have c15 : s2.scause ≠ 15 := by rw [hs2]; exact h15
  have hcause := usertrapCause_timer_halt env s2 p (devintr env s2).2 u h c8 c15 hd2 hret
  simp only [usertrap, h1, if_false, hc, hp, hsepc]
  rw [← hs2, hcause]

/-- Claim C18 (content of the alarm checkpoint): on a timer-interrupt user
trap of process `p`, let `s2` be the state once `usertrap` has saved `sepc`
and `t` the state `devintr` leaves.  If in `t` the alarm is not pending,
`nticks + 1` equals `interval` in `int` arithmetic and the checkpoint page is
allocated (`kalloc` hands out a page, which is not the page of the trapframe),
then in the state `r` handed to lines 186-222: `alarmContext` is that page and
holds a copy of the trapframe of `t`, taken before the pc was rewritten (its
`epc` is `sepc` when `devintr` left the trapframe as saved), `alarmOn` is 1,
the `epc` of the trapframe is `p->handler`, and every other field of the
trapframe is as in `t`. -/
theorem alarm_checkpoint (env : Env) (pol : Policy) (s : Kernel) (p : Nat) (s2 t : Kernel)
    (hspp : s.sstatus &&& SSTATUS_SPP = 0) (hcur : s.cur = some p)
    (h8 : s.scause ≠ 8) (h15 : s.scause ≠ 15)
    (hs2 : s2 = setTrapframe (w_stvec s env.kernelvec) (s.proc p).trapframe
      (fun tf => { tf with epc := s.sepc }))
    (hd : (devintr env s2).1 = 2) (ht : t = (devintr env s2).2)
    (hon : (t.proc p).alarmOn = 0)
    (hfire : incInt32 (t.proc p).nticks = (t.proc p).interval)
    (hk : (kalloc t).1 ≠ 0)
    (hfresh : (kalloc t).1 ≠ (t.proc p).trapframe) :
    ∃ r, usertrap env pol s = usertrapFinish env pol p 2 r
      ∧ (r.proc p).alarmContext = (kalloc t).1
      ∧ r.tfmem (r.proc p).alarmContext = t.tfmem (t.proc p).trapframe
      ∧ (t.tfmem (t.proc p).trapframe = s2.tfmem (s.proc p).trapframe →
          (r.tfmem (r.proc p).alarmContext).epc = s.sepc)
      ∧ (r.proc p).alarmOn = 1
      ∧ (r.tfmem (r.proc p).trapframe).epc = (r.proc p).handler
      ∧ r.tfmem (r.proc p).trapframe
          = { t.tfmem (t.proc p).trapframe with epc := (t.proc p).handler } := by
  have hret := alarmHook_after_rtime t p (fun _ _ => hk)
  rw [ht] at hret
  have hu := usertrap_timer_eq env pol s p s2 _ hspp hcur h8 h15 hs2 hd hret
  rw [← ht] at hu
  obtain ⟨a1, a2, _, a4⟩ := sameAlarm_rtimeAccount t
  obtain ⟨n1, n2, n3, n4, n5, n6⟩ := a4 p
  have hkk : (kalloc (rtimeAccount t)).1 = (kalloc t).1 := kalloc_fst_congr _ _ a2
  have hon' : ((rtimeAccount t).proc p).alarmOn = 0 := by rw [n4, hon]
  have hfire' : incInt32 ((rtimeAccount t).proc p).nticks = ((rtimeAccount t).proc p).interval := by
    rw [n1, n2, hfire]
  have hk' : (kalloc (rtimeAccount t)).1 ≠ 0 := by rw [hkk]; exact hk
  have hfresh' : (kalloc (rtimeAccount t)).1 ≠ ((rtimeAccount t).proc p).trapframe := by
    rw [hkk, n6]; exact hfresh
  obtain ⟨c1, c2, c3, c4, c5, c6⟩ :=
    alarmHook_checkpoint (rtimeAccount t) p hon' hfire' hk' hfresh'
  rw [hkk, a1, n6] at c2
  rw [a1, n6, n3] at c4
  rw [hkk] at c1
  rw [n6] at c5
  obtain ⟨b1, _, _, b4⟩ := sameAlarm_mlfqAccount (alarmHook (rtimeAccount t) p 2).state p 2
  obtain ⟨m1, m2, m3, m4, m5, m6⟩ := b4 p
  have hh : ((alarmHook (rtimeAccount t) p 2).state.proc p).handler = (t.proc p).handler := by
    rw [c6, n3]
  refine ⟨_, hu, ?_, ?_, ?_, ?_, ?_, ?_⟩
  · rw [m5, c1]
  · rw [m5, c1, b1, c2]
  · intro hsame
    rw [m5, c1, b1, c2, hsame, hs2]
    simp [setTrapframe]
  · rw [m4, c3]
  · rw [m6, c5, b1, c4, m3, hh]
  · rw [m6, c5, b1, c4]

/-- Claim C19 (interval 0 never fires): on a timer-interrupt user trap of
process `p`, with `t` the state `devintr` leaves, if in `t` the interval is 0,
the alarm is not pending and `0 ≤ nticks < 2147483647`, then in the state `r`
handed to lines 186-222 `nticks` is one more, `alarmOn` is still 0, the
allocator and the call log are as in `t` (no `kalloc`), and `alarmContext`
and all trapframes are unchanged. -/
theorem alarm_interval_zero (env : Env) (pol : Policy) (s : Kernel) (p : Nat) (s2 t : Kernel)
    (hspp : s.sstatus &&& SSTATUS_SPP = 0) (hcur : s.cur = some p)
    (h8 : s.scause ≠ 8) (h15 : s.scause ≠ 15)
    (hs2 : s2 = setTrapframe (w_stvec s env.kernelvec) (s.proc p).trapframe
      (fun tf => { tf with epc := s.sepc }))
    (hd : (devintr env s2).1 = 2) (ht : t = (devintr env s2).2)
    (hint : (t.proc p).interval = 0) (hon : (t.proc p).alarmOn = 0)
    (hn0 : 0 ≤ (t.proc p).nticks) (hmax : (t.proc p).nticks < 2147483647) :
    ∃ r, usertrap env pol s = usertrapFinish env pol p 2 r
      ∧ (r.proc p).nticks = (t.proc p).nticks + 1
      ∧ (r.proc p).alarmOn = 0
      ∧ r.freelist = t.freelist ∧ r.log = t.log
      ∧ (r.proc p).alarmContext = (t.proc p).alarmContext
      ∧ r.tfmem = t.tfmem := by
  obtain ⟨a1, a2, a3, a4⟩ := sameAlarm_rtimeAccount t
  obtain ⟨n1, n2, n3, n4, n5, n6⟩ := a4 p
  have hon' : ((rtimeAccount t).proc p).alarmOn = 0 := by rw [n4, hon]
  have hne : incInt32 ((rtimeAccount t).proc p).nticks ≠ ((rtimeAccount t).proc p).interval := by
    rw [n1, n2, hint, incInt32_of_lt _ hmax]; omega
  have hq := alarmHook_quiet (rtimeAccount t) p hon' hne
  have hq2 := hq
  rw [ht] at hq2
  have hu := usertrap_timer_eq env pol s p s2 _ hspp hcur h8 h15 hs2 hd hq2
  rw [← ht] at hu
  obtain ⟨b1, b2, b3, b4⟩ := sameAlarm_mlfqAccount
    (setProc (rtimeAccount t) p (fun q => { q with nticks := incInt32 q.nticks })) p 2
  obtain ⟨m1, m2, m3, m4, m5, m6⟩ := b4 p
  have q1 : ((setProc (rtimeAccount t) p
      (fun q => { q with nticks := incInt32 q.nticks })).proc p).nticks
        = (t.proc p).nticks + 1 := by
    simp [setProc, n1, incInt32_of_lt _ hmax]
  have q4 : ((setProc (rtimeAccount t) p
      (fun q => { q with nticks := incInt32 q.nticks })).proc p).alarmOn = 0 := by
    simp [setProc, n4, hon]
  have q5 : ((setProc (rtimeAccount t) p
      (fun q => { q with nticks := incInt32 q.nticks })).proc p).alarmContext
        = (t.proc p).alarmContext := by
    simp [setProc, n5]
  have qf : (setProc (rtimeAccount t) p
      (fun q => { q with nticks := incInt32 q.nticks })).freelist = t.freelist := by
    simp only [setProc]; exact a2
  have ql : (setProc (rtimeAccount t) p
      (fun q => { q with nticks := incInt32 q.nticks })).log = t.log := by
    simp only [setProc]; exact a3
  have qt : (setProc (rtimeAccount t) p
      (fun q => { q with nticks := incInt32 q.nticks })).tfmem = t.tfmem := by
    simp only [setProc]; exact a1
  exact ⟨_, hu, m1.trans q1, m4.trans q4, b2.trans qf, b3.trans ql, m5.trans q5, b1.trans qt⟩

theorem SameTicks.ticksRefl (p : Nat) (u : Kernel) : SameTicks p u u := ⟨rfl, rfl, rfl⟩

theorem SameTicks.ticksTrans {p : Nat} {u t w : Kernel} (h1 : SameTicks p u t)
    (h2 : SameTicks p t w) : SameTicks p u w :=
  ⟨h2.1.trans h1.1, h2.2.1.trans h1.2.1, h2.2.2.trans h1.2.2⟩

theorem sameTicks_of_proc (p : Nat) (u t : Kernel) (h : t.proc = u.proc) : SameTicks p u t := by
  unfold SameTicks
  rw [h]
  exact ⟨rfl, rfl, rfl⟩

theorem devintr_timer (env : Env) (s : Kernel) (hsc : s.scause = 0x8000000000000001) :
    (devintr env s).1 = 2 := by
  rw [devintr_fst, hsc]
  decide

theorem sameTicks_devintr (env : Env) (p : Nat) (hw : ∀ t, SameTicks p t (env.wakeup t))
    (s : Kernel) (hsc : s.scause = 0x8000000000000001) :
    SameTicks p s (devintr env s).2 := by
  have h1 : ¬ ((record s Call.devintr).scause &&& 0x8000000000000000 ≠ 0
      ∧ (record s Call.devintr).scause &&& 0xff = 9) := by
    have : (record s Call.devintr).scause = 0x8000000000000001 := hsc
    rw [this]
    decide
  have h2 : (record s Call.devintr).scause = 0x8000000000000001 := hsc
  unfold devintr
  simp only [h1, if_false, h2, if_true]
  by_cases hc : cpuid (record s Call.devintr) = 0
  · rw [if_pos hc]
    exact hw (record { record s Call.devintr with
      ticks := ((record s Call.devintr).ticks + 1) % 2 ^ 32 } Call.clockintr)
  · rw [if_neg hc]
    exact ⟨rfl, rfl, rfl⟩

theorem sameTicks_yield (env : Env) (p : Nat) (hy : ∀ t, SameTicks p t (env.yield t))
    (t : Kernel) : SameTicks p t (yield env t) := hy t

theorem sameTicks_mlfqPreempt (env : Env) (p : Nat) (hy : ∀ t, SameTicks p t (env.yield t))
    (fuel i : Nat) (t : Kernel) : SameTicks p t (mlfqPreempt env p fuel i t) := by
  induction fuel generalizing i t with
  | zero => simp [mlfqPreempt, SameTicks]
  | succ fuel ih =>
    unfold mlfqPreempt
    split
    · simp only
      split
      · exact (sameTicks_yield env p hy t).ticksTrans (ih (i + 1) (yield env t))
      · exact ih (i + 1) t
    · exact SameTicks.ticksRefl p t

theorem sameTicks_setProc (p : Nat) (s : Kernel) (i : Nat) (f : Proc → Proc)
    (hf : ∀ q : Proc, (f q).nticks = q.nticks ∧ (f q).interval = q.interval
      ∧ (f q).alarmOn = q.alarmOn) : SameTicks p s (setProc s i f) := by
  by_cases h : p = i
  · subst h
    simpa [SameTicks, setProc] using hf (s.proc p)
  · simp [SameTicks, setProc, h]

theorem sameTicks_mlfqQuantum (env : Env) (p : Nat) (hy : ∀ t, SameTicks p t (env.yield t))
    (s : Kernel) : SameTicks p s (mlfqQuantum env p s) := by
  unfold mlfqQuantum
  split
  · simp only
    refine SameTicks.ticksTrans ?_ (sameTicks_yield env p hy _)
    split
    · exact (sameTicks_setProc p s p (fun q => { q with rticks := 0 })
        (fun _ => ⟨rfl, rfl, rfl⟩)).ticksTrans
          (sameTicks_setProc p _ p _ (fun _ => ⟨rfl, rfl, rfl⟩))
    · exact sameTicks_setProc p s p _ (fun _ => ⟨rfl, rfl, rfl⟩)
  · exact SameTicks.ticksRefl p s

theorem sameTicks_usertrapPolicy (env : Env) (pol : Policy) (p : Nat)
    (hy : ∀ t, SameTicks p t (env.yield t)) (which_dev : Int) (s : Kernel) :
    SameTicks p s (usertrapPolicy env pol p which_dev s) := by
  unfold usertrapPolicy
  cases pol with
  | RR =>
    simp only
    split
    · exact sameTicks_yield env p hy s
    · exact SameTicks.ticksRefl p s
  | MLFQ =>
    simp only
    split
    · exact (sameTicks_mlfqQuantum env p hy s).ticksTrans
        (sameTicks_mlfqPreempt env p hy _ _ _)
    · exact SameTicks.ticksRefl p s
  | LOTTERY =>
    simp only
    split
    · exact sameTicks_yield env p hy s
    · exact SameTicks.ticksRefl p s

theorem usertrapret_proc (env : Env) (s : Kernel) : (usertrapret env s).state.proc = s.proc := by
  unfold usertrapret
  split <;> rfl

theorem sameTicks_usertrapFinish (env : Env) (pol : Policy) (p : Nat)
    (hy : ∀ t, SameTicks p t (env.yield t)) (which_dev : Int) (r : Kernel) :
    SameTicks p r (usertrapFinish env pol p which_dev r).state := by
  unfold usertrapFinish
  split
  · exact ⟨rfl, rfl, rfl⟩
  · exact (sameTicks_usertrapPolicy env pol p hy which_dev r).ticksTrans
      (sameTicks_of_proc p _ _ (usertrapret_proc env _))

/-- What the alarm hook does when it fires with a page allocated: the alarm is
pending and the trapframe resumes at the handler. -/
theorem alarmHook_fire (u : Kernel) (p : Nat) (hon : (u.proc p).alarmOn = 0)
    (hfire : incInt32 (u.proc p).nticks = (u.proc p).interval) (hk : (kalloc u).1 ≠ 0) :
    ((alarmHook u p 2).state.proc p).alarmOn = 1
      ∧ ((alarmHook u p 2).state.tfmem ((alarmHook u p 2).state.proc p).trapframe).epc
          = ((alarmHook u p 2).state.proc p).handler
      ∧ ((alarmHook u p 2).state.proc p).nticks = (u.proc p).interval
      ∧ ((alarmHook u p 2).state.proc p).interval = (u.proc p).interval := by
  cases hfl : u.freelist with
  | nil =>
    have hk0 : (kalloc u).1 = 0 := by simp [kalloc, hfl]
    exact absurd hk0 hk
  | cons f rest =>
    have hk0 : (kalloc u).1 = (PGSIZE * f) % 2 ^ 64 := by simp [kalloc, hfl]
    rw [hk0] at hk
    have e64 : (2 : Nat) ^ 64 = 18446744073709551616 := by norm_num
    rw [e64] at hk
    simp [alarmHook, kalloc, setProc, hfl, hon, hfire, setTrapframe, memmove, record, hk,
      Res.state]

theorem tickState_eq (env : Env) (e : Kernel) (p : Nat) :
    tickState env e p = (devintr env (setTrapframe (w_stvec e env.kernelvec)
      (e.proc p).trapframe (fun tf => { tf with epc := e.sepc }))).2 := rfl

theorem sameTicks_tickState (env : Env) (p : Nat) (hw : ∀ t, SameTicks p t (env.wakeup t))
    (e : Kernel) (he : TimerEntry p e) : SameTicks p e (tickState env e p) := by
  rw [tickState_eq]
  exact (sameTicks_of_proc p e _ rfl).ticksTrans (sameTicks_devintr env p hw _ he.2.2)

/-- A timer tick of `p` on which the alarm is not pending and not due. -/
theorem usertrap_tick_quiet (env : Env) (pol : Policy) (p : Nat) (e : Kernel)
    (hw : ∀ t, SameTicks p t (env.wakeup t)) (hy : ∀ t, SameTicks p t (env.yield t))
    (he : TimerEntry p e) (hon : (e.proc p).alarmOn = 0)
    (hne : incInt32 (e.proc p).nticks ≠ (e.proc p).interval) :
    (∃ r, usertrap env pol e = usertrapFinish env pol p 2 r
        ∧ (r.proc p).alarmOn = 0
        ∧ r.tfmem = (tickState env e p).tfmem
        ∧ r.freelist = (tickState env e p).freelist
        ∧ (r.proc p).alarmContext = ((tickState env e p).proc p).alarmContext)
      ∧ ((usertrap env pol e).state.proc p).alarmOn = 0
      ∧ ((usertrap env pol e).state.proc p).nticks = incInt32 (e.proc p).nticks
      ∧ ((usertrap env pol e).state.proc p).interval = (e.proc p).interval := by
  obtain ⟨hspp, hcur, hsc⟩ := he
  have h8 : e.scause ≠ 8 := by rw [hsc]; decide
  have h15 : e.scause ≠ 15 := by rw [hsc]; decide
  obtain ⟨t1, t2, t3⟩ := sameTicks_tickState env p hw e ⟨hspp, hcur, hsc⟩
  obtain ⟨a1, a2, a3, a4⟩ := sameAlarm_rtimeAccount (tickState env e p)
  obtain ⟨n1, n2, n3, n4, n5, n6⟩ := a4 p
  have hon' : ((rtimeAccount (tickState env e p)).proc p).alarmOn = 0 := by rw [n4, t3, hon]
  have hne' : incInt32 ((rtimeAccount (tickState env e p)).proc p).nticks
      ≠ ((rtimeAccount (tickState env e p)).proc p).interval := by
    rw [n1, n2, t1, t2]; exact hne
  have hq := alarmHook_quiet (rtimeAccount (tickState env e p)) p hon' hne'
  have hu := usertrap_timer_eq env pol e p _ _ hspp hcur h8 h15 rfl
    (devintr_timer env _ hsc) hq
  obtain ⟨b1, b2, b3, b4⟩ := sameAlarm_mlfqAccount
    (setProc (rtimeAccount (tickState env e p)) p
      (fun q => { q with nticks := incInt32 q.nticks })) p 2
  obtain ⟨m1, m2, m3, m4, m5, m6⟩ := b4 p
  have q1 : ((setProc (rtimeAccount (tickState env e p)) p
      (fun q => { q with nticks := incInt32 q.nticks })).proc p).nticks
        = incInt32 (e.proc p).nticks := by
    simp [setProc, n1, t1]
  have q2 : ((setProc (rtimeAccount (tickState env e p)) p
      (fun q => { q with nticks := incInt32 q.nticks })).proc p).interval
        = (e.proc p).interval := by
    simp [setProc, n2, t2]
  have q4 : ((setProc (rtimeAccount (tickState env e p)) p
      (fun q => { q with nticks := incInt32 q.nticks })).proc p).alarmOn = 0 := by
    simp [setProc, n4, t3, hon]
  have q5 : ((setProc (rtimeAccount (tickState env e p)) p
      (fun q => { q with nticks := incInt32 q.nticks })).proc p).alarmContext
        = ((tickState env e p).proc p).alarmContext := by
    simp [setProc, n5]
  have qf : (setProc (rtimeAccount (tickState env e p)) p
      (fun q => { q with nticks := incInt32 q.nticks })).freelist
        = (tickState env e p).freelist := by
    simp only [setProc]; exact a2
  have qt : (setProc (rtimeAccount (tickState env e p)) p
      (fun q => { q with nticks := incInt32 q.nticks })).tfmem = (tickState env e p).tfmem := by
    simp only [setProc]; exact a1
  obtain ⟨f1, f2, f3⟩ := sameTicks_usertrapFinish env pol p hy 2
    (mlfqAccount (setProc (rtimeAccount (tickState env e p)) p
      (fun q => { q with nticks := incInt32 q.nticks })) p 2)
  rw [← hu] at f1 f2 f3
  exact ⟨⟨_, hu, m4.trans q4, b1.trans qt, b2.trans qf, m5.trans q5⟩,
    f3.trans (m4.trans q4), f1.trans (m1.trans q1), f2.trans (m2.trans q2)⟩

/-- A timer tick of `p` on which the alarm is due and the checkpoint page is
allocated. -/
theorem usertrap_tick_fire (env : Env) (pol : Policy) (p : Nat) (e : Kernel)
    (hw : ∀ t, SameTicks p t (env.wakeup t)) (hy : ∀ t, SameTicks p t (env.yield t))
    (he : TimerEntry p e) (hon : (e.proc p).alarmOn = 0)
    (hfire : incInt32 (e.proc p).nticks = (e.proc p).interval)
    (hk : (kalloc (tickState env e p)).1 ≠ 0) :
    (∃ r, usertrap env pol e = usertrapFinish env pol p 2 r
        ∧ (r.proc p).alarmOn = 1
        ∧ (r.tfmem (r.proc p).trapframe).epc = (r.proc p).handler)
      ∧ ((usertrap env pol e).state.proc p).alarmOn = 1 := by
  obtain ⟨hspp, hcur, hsc⟩ := he
  have h8 : e.scause ≠ 8 := by rw [hsc]; decide
  have h15 : e.scause ≠ 15 := by rw [hsc]; decide
  obtain ⟨t1, t2, t3⟩ := sameTicks_tickState env p hw e ⟨hspp, hcur, hsc⟩
  obtain ⟨a1, a2, a3, a4⟩ := sameAlarm_rtimeAccount (tickState env e p)
  obtain ⟨n1, n2, n3, n4, n5, n6⟩ := a4 p
  have hon' : ((rtimeAccount (tickState env e p)).proc p).alarmOn = 0 := by rw [n4, t3, hon]
  have hfire' : incInt32 ((rtimeAccount (tickState env e p)).proc p).nticks
      = ((rtimeAccount (tickState env e p)).proc p).interval := by
    rw [n1, n2, t1, t2]; exact hfire
  have hk' : (kalloc (rtimeAccount (tickState env e p))).1 ≠ 0 := by
    rw [kalloc_fst_congr _ _ a2]; exact hk
  have hret := alarmHook_after_rtime (tickState env e p) p (fun _ _ => hk)
  have hu := usertrap_timer_eq env pol e p _ _ hspp hcur h8 h15 rfl
    (devintr_timer env _ hsc) hret
  obtain ⟨c1, c2, _, _⟩ := alarmHook_fire (rtimeAccount (tickState env e p)) p hon' hfire' hk'
  obtain ⟨b1, b2, b3, b4⟩ := sameAlarm_mlfqAccount
    (alarmHook (rtimeAccount (tickState env e p)) p 2).state p 2
  obtain ⟨m1, m2, m3, m4, m5, m6⟩ := b4 p
  obtain ⟨f1, f2, f3⟩ := sameTicks_usertrapFinish env pol p hy 2
    (mlfqAccount (alarmHook (rtimeAccount (tickState env e p)) p 2).state p 2)
  rw [← hu] at f3
  refine ⟨⟨_, hu, m4.trans c1, ?_⟩, f3.trans (m4.trans c1)⟩
  rw [m6, b1, m3]
  exact c2

/-- A timer tick of `p` on which the alarm is due and the allocator is
exhausted: `usertrap` stops at the copy through the null pointer, with the
alarm not pending and every trapframe as `devintr` left it. -/
theorem usertrap_tick_nomem (env : Env) (pol : Policy) (p : Nat) (e : Kernel)
    (hw : ∀ t, SameTicks p t (env.wakeup t))
    (he : TimerEntry p e) (hon : (e.proc p).alarmOn = 0)
    (hfire : incInt32 (e.proc p).nticks = (e.proc p).interval)
    (hk : (kalloc (tickState env e p)).1 = 0) :
    (usertrap env pol e).halted = some Halt.nullDeref
      ∧ ((usertrap env pol e).state.proc p).alarmOn = 0
      ∧ (usertrap env pol e).state.tfmem = (tickState env e p).tfmem := by
  obtain ⟨hspp, hcur, hsc⟩ := he
  have h8 : e.scause ≠ 8 := by rw [hsc]; decide
  have h15 : e.scause ≠ 15 := by rw [hsc]; decide
  obtain ⟨t1, t2, t3⟩ := sameTicks_tickState env p hw e ⟨hspp, hcur, hsc⟩
  obtain ⟨a1, a2, a3, a4⟩ := sameAlarm_rtimeAccount (tickState env e p)
  obtain ⟨n1, n2, n3, n4, n5, n6⟩ := a4 p
  have hon' : ((rtimeAccount (tickState env e p)).proc p).alarmOn = 0 := by rw [n4, t3, hon]
  have hfire' : incInt32 ((rtimeAccount (tickState env e p)).proc p).nticks
      = ((rtimeAccount (tickState env e p)).proc p).interval := by
    rw [n1, n2, t1, t2]; exact hfire
  have hk' : (kalloc (rtimeAccount (tickState env e p))).1 = 0 := by
    rw [kalloc_fst_congr _ _ a2]; exact hk
  obtain ⟨c1, c2, c3⟩ := alarmHook_nomem (rtimeAccount (tickState env e p)) p hon' hfire' hk'
  cases hh : alarmHook (rtimeAccount (tickState env e p)) p 2 with
  | ok v u =>
    rw [hh] at c1
    cases c1
  | halt h u =>
    rw [hh] at c1 c2 c3
    have hu := usertrap_timer_halt env pol e p _ u h hspp hcur h8 h15 rfl
      (devintr_timer env _ hsc) hh
    rw [hu]
    exact ⟨c1, c2, c3.trans a1⟩

/-- A timer tick of `p` taken while the alarm is pending. -/
theorem usertrap_tick_pending (env : Env) (pol : Policy) (p : Nat) (e : Kernel)
    (he : TimerEntry p e) (hon : ((tickState env e p).proc p).alarmOn ≠ 0) :
    ∃ r, usertrap env pol e = usertrapFinish env pol p 2 r
      ∧ SameAlarm (tickState env e p) r := by
  obtain ⟨hspp, hcur, hsc⟩ := he
  have h8 : e.scause ≠ 8 := by rw [hsc]; decide
  have h15 : e.scause ≠ 15 := by rw [hsc]; decide
  have a := sameAlarm_rtimeAccount (tickState env e p)
  have hon' : ((rtimeAccount (tickState env e p)).proc p).alarmOn ≠ 0 := by
    rw [(a.2.2.2 p).2.2.2.1]; exact hon
  have hq := alarmHook_pending (rtimeAccount (tickState env e p)) p 2 hon'
  have hu := usertrap_timer_eq env pol e p _ _ hspp hcur h8 h15 rfl
    (devintr_timer env _ hsc) hq
  exact ⟨_, hu, a.alarmTrans (sameAlarm_mlfqAccount _ p 2)⟩

theorem spp_cleared (x : Nat) : (x &&& not64 SSTATUS_SPP) &&& SSTATUS_SPP = 0 := by
  have h : SSTATUS_SPP = 2 ^ 8 := rfl
  have h8 : Nat.testBit (2 ^ 8) 8 = true := by decide
  rw [h, and_two_pow_eq_zero, Nat.testBit_and, testBit_not64, h8]
  simp

theorem timerAgain_entry (p : Nat) (u : Kernel) :
    TimerEntry p (timerAgain p u) ∧ SameTicks p u (timerAgain p u) :=
  ⟨⟨spp_cleared u.sstatus, rfl, rfl⟩, ⟨rfl, rfl, rfl⟩⟩

/-- The alarm hook over a sequence of timer-interrupt user traps, with the
checkpoint page allocated: for a process `p` with interval `I = n + 1` (an
`int`) that starts with `nticks = 0` and `alarmOn = 0`, over any such sequence,
whatever happens between two traps and whatever `wakeup` and `yield` do, as
long as `nticks`, `interval` and `alarmOn` of `p` are left alone: after `k ≤ n`
traps the alarm is not pending and `nticks = k`; each of the first `n` traps
hands to lines 186-222 a state with `alarmOn = 0` and with trapframes,
allocator and checkpoint as `devintr` left them; if the checkpoint page is
allocated at trap `n + 1`, that trap hands on a state with `alarmOn = 1` and
the trapframe `epc` equal to `p->handler`, and ends with `alarmOn = 1`; and a
timer-interrupt user trap taken while `alarmOn ≠ 0` hands on the trapframes,
the allocator, the call log and all alarm fields as `devintr` left them. -/
theorem alarm_fires_at_interval (env : Env) (pol : Policy) (enter : Nat → Kernel → Kernel)
    (p : Nat) (s : Kernel) (n : Nat) (hn : (n : Int) + 1 ≤ 2147483647)
    (hw : ∀ t, SameTicks p t (env.wakeup t)) (hy : ∀ t, SameTicks p t (env.yield t))
    (hent : ∀ k, k ≤ n → TimerEntry p (enter k (trapRun env pol enter k s))
      ∧ SameTicks p (trapRun env pol enter k s) (enter k (trapRun env pol enter k s)))
    (hint : (s.proc p).interval = (n : Int) + 1) (hn0 : (s.proc p).nticks = 0)
    (hon : (s.proc p).alarmOn = 0) :
    (∀ k, k ≤ n → ((trapRun env pol enter k s).proc p).alarmOn = 0
        ∧ ((trapRun env pol enter k s).proc p).nticks = k)
      ∧ (∀ k, k < n →
          ∃ r, usertrap env pol (enter k (trapRun env pol enter k s))
              = usertrapFinish env pol p 2 r
            ∧ (r.proc p).alarmOn = 0
            ∧ r.tfmem = (tickState env (enter k (trapRun env pol enter k s)) p).tfmem
            ∧ r.freelist = (tickState env (enter k (trapRun env pol enter k s)) p).freelist
            ∧ (r.proc p).alarmContext
                = ((tickState env (enter k (trapRun env pol enter k s)) p).proc p).alarmContext)
      ∧ ((kalloc (tickState env (enter n (trapRun env pol enter n s)) p)).1 ≠ 0 →
          (∃ r, usertrap env pol (enter n (trapRun env pol enter n s))
              = usertrapFinish env pol p 2 r
            ∧ (r.proc p).alarmOn = 1
            ∧ (r.tfmem (r.proc p).trapframe).epc = (r.proc p).handler)
          ∧ ((trapRun env pol enter (n + 1) s).proc p).alarmOn = 1)
      ∧ (∀ e, TimerEntry p e → ((tickState env e p).proc p).alarmOn ≠ 0 →
          ∃ r, usertrap env pol e = usertrapFinish env pol p 2 r
            ∧ SameAlarm (tickState env e p) r) := by
  have key : ∀ k, k ≤ n → ((trapRun env pol enter k s).proc p).alarmOn = 0
      ∧ ((trapRun env pol enter k s).proc p).nticks = k
      ∧ ((trapRun env pol enter k s).proc p).interval = (n : Int) + 1 := by
    intro k
    induction k with
    | zero => intro _; exact ⟨hon, by simpa using hn0, hint⟩
    | succ k ih =>
      intro hk
      obtain ⟨i1, i2, i3⟩ := ih (by omega)
      obtain ⟨e1, e2, e3, e4⟩ := hent k (by omega)
      have c1 : ((enter k (trapRun env pol enter k s)).proc p).alarmOn = 0 := by rw [e4, i1]
      have c2 : incInt32 ((enter k (trapRun env pol enter k s)).proc p).nticks = (k : Int) + 1 := by
        rw [e2, i2, incInt32_of_lt]; omega
      have c3 : incInt32 ((enter k (trapRun env pol enter k s)).proc p).nticks
          ≠ ((enter k (trapRun env pol enter k s)).proc p).interval := by
        rw [c2, e3, i3]; omega
      obtain ⟨_, f1, f2, f3⟩ := usertrap_tick_quiet env pol p _ hw hy e1 c1 c3
      simp only [trapRun]
      refine ⟨f1, ?_, ?_⟩
      · rw [f2, c2]; push_cast; rfl
      · rw [f3, e3, i3]
  refine ⟨fun k hk => ⟨(key k hk).1, (key k hk).2.1⟩, ?_, ?_,
    fun e he hp => usertrap_tick_pending env pol p e he hp⟩
  · intro k hk
    obtain ⟨i1, i2, i3⟩ := key k (by omega)
    obtain ⟨e1, e2, e3, e4⟩ := hent k (by omega)
    have c1 : ((enter k (trapRun env pol enter k s)).proc p).alarmOn = 0 := by rw [e4, i1]
    have c3 : incInt32 ((enter k (trapRun env pol enter k s)).proc p).nticks
        ≠ ((enter k (trapRun env pol enter k s)).proc p).interval := by
      rw [e2, i2, incInt32_of_lt _ (by omega), e3, i3]; omega
    exact (usertrap_tick_quiet env pol p _ hw hy e1 c1 c3).1
  · intro hk
    obtain ⟨i1, i2, i3⟩ := key n (le_refl n)
    obtain ⟨e1, e2, e3, e4⟩ := hent n (le_refl n)
    have c1 : ((enter n (trapRun env pol enter n s)).proc p).alarmOn = 0 := by rw [e4, i1]
    have c3 : incInt32 ((enter n (trapRun env pol enter n s)).proc p).nticks
        = ((enter n (trapRun env pol enter n s)).proc p).interval := by
      rw [e2, i2, incInt32_of_lt _ (by omega), e3, i3]
    exact usertrap_tick_fire env pol p _ hw hy e1 c1 c3 hk

/-! ## The claims on the sample states -/

/-- Claim C1 on `cowShared`: the first table resolves its write fault at
`0x5123` by the copy path. -/
theorem handleCOW_shared_witness :
    ∃ s' e', handleCOW cowShared 1 0x5123 = Res.ok 0 s'
      ∧ s'.memref (PTE2PA 0x20001513) = (2 : Int) - 1
      ∧ (∀ i, i < PGSIZE → s'.mem (PTE2PA 0x20001513 + i) = cowShared.mem (PTE2PA 0x20001513 + i))
      ∧ s'.pagetables 1 (PGROUNDDOWN 0x5123 / PGSIZE) = some e'
      ∧ PTE2PA e' = (kalloc cowShared).1
      ∧ (∀ i, i < PGSIZE →
          s'.mem ((kalloc cowShared).1 + i) = cowShared.mem (PTE2PA 0x20001513 + i))
      ∧ PTE_FLAGS e' = (PTE_FLAGS 0x20001513 &&& not64 PTE_COW) ||| PTE_W :=
  handleCOW_shared cowShared 1 0x5123 0x20001513 2 (by decide) (by decide) (by decide)
    (by decide) (by decide) (by decide) (by decide) (by decide) (by decide)

/-- Claim C2 on `cowSole`: the second table, now sole owner, resolves its
write fault at `0x5123` in place. -/
theorem handleCOW_sole_owner_witness :
    ∃ s' e', handleCOW cowSole 2 0x5123 = Res.ok 0 s'
      ∧ s'.log = cowSole.log ++ [Call.walk, Call.memref_lock, Call.memref_unlock_kalloc,
          Call.memref_get, Call.memref_lock_kalloc, Call.memref_unlock]
      ∧ s'.freelist = cowSole.freelist ∧ s'.mem = cowSole.mem ∧ s'.memref = cowSole.memref
      ∧ s'.pagetables 2 (PGROUNDDOWN 0x5123 / PGSIZE) = some e'
      ∧ PTE2PA e' = PTE2PA 0x20001513 ∧ e' &&& PTE_W ≠ 0 ∧ e' &&& PTE_COW = 0
      ∧ (∀ i, i < 64 → 2 ^ i ≠ PTE_W → 2 ^ i ≠ PTE_COW →
          e'.testBit i = Nat.testBit 0x20001513 i)
      ∧ s'.memref (PTE2PA 0x20001513) = 1 :=
  handleCOW_sole_owner cowSole 2 0x5123 0x20001513 (by decide) (by decide) (by decide)
    (by decide) (by decide) (by decide) (by decide)

/-- Claim C3 on `cowShared`: the entry of the third table has no copy-on-write
marker and the fault is rejected. -/
theorem handleCOW_reject_witness :
    (0x5123 < MAXVA ∧ cowShared.pagetables 3 (PGROUNDDOWN 0x5123 / PGSIZE) = some 0x20001417
        ∧ 0x20001417 &&& PTE_COW = 0)
      ∧ handleCOW cowShared 3 0x5123 = Res.ok 1 (record cowShared Call.walk) :=
  ⟨by decide, handleCOW_reject cowShared 3 0x5123 0x20001417 (by decide) (by decide)
    (Or.inl (by decide))⟩

/-- Claim C4 on `cowShared`: the address `MAXVA` itself is rejected. -/
theorem handleCOW_range_witness :
    MAXVA ≤ 2 ^ 38 ∧ handleCOW cowShared 1 (2 ^ 38) = Res.ok 1 cowShared :=
  ⟨by decide, handleCOW_range cowShared 1 (2 ^ 38) (by decide)⟩

theorem cowLeaf_leafTables : LeafTables cowLeaf := by
  intro root v w h
  simp only [cowLeaf, h]
  split <;> simp

set_option maxRecDepth 100000 in
/-- Claim C5 fails on the code: the first page table of `cowLeaf` has the leaf
table of pages 0 to 511 and no other, so for the fault address `0x200123`
`walk` returns the null pointer, and `handleCOW` dereferences it on lines
43-44 instead of returning 1; the user trap of that store fault stops there
instead of killing the process.  (An empty slot of the leaf table that is
present, as for `0x6123`, is rejected with 1.) -/
theorem handleCOW_absent_entry_null_deref :
    LeafTables cowLeaf
      ∧ 0x200123 < MAXVA ∧ (walk cowLeaf 1 (PGROUNDDOWN 0x200123) 0).1 = none
      ∧ handleCOW cowLeaf 1 0x200123 = Res.halt Halt.nullDeref (record cowLeaf Call.walk)
      ∧ (handleCOW cowLeaf 1 0x200123).returned = none
      ∧ (handleCOW cowLeaf 1 0x6123).returned = some 1
      ∧ (usertrap idleEnv Policy.RR storeFaultAbsent).halted = some Halt.nullDeref
      ∧ ((usertrap idleEnv Policy.RR storeFaultAbsent).state.proc 0).killed = 0 :=
  ⟨cowLeaf_leafTables, by decide, by decide,
    handleCOW_absent cowLeaf 1 0x200123 (by decide) (by decide), by decide, by decide,
    by decide, by decide⟩

set_option maxRecDepth 100000 in
/-- Claim C7 fails on the code: in `alarmNoMem` the interval is 1, so the first
timer tick is the one at which the handler is due, but the allocator is
exhausted and line 155 does not test the result of `kalloc`: `usertrap` stops
at the copy through the null pointer of line 156 with `alarmOn` still 0 and
the trapframe `epc` still the saved `sepc`, not the handler. -/
theorem alarm_tick_without_page :
    alarmNoMem.sstatus &&& SSTATUS_SPP = 0
      ∧ (devintr idleEnv alarmNoMem).1 = 2
      ∧ (alarmNoMem.proc 0).interval = 1 ∧ (alarmNoMem.proc 0).nticks = 0
      ∧ (alarmNoMem.proc 0).alarmOn = 0 ∧ (alarmNoMem.proc 0).handler = 0x1000
      ∧ (usertrap idleEnv Policy.RR alarmNoMem).halted = some Halt.nullDeref
      ∧ ((usertrap idleEnv Policy.RR alarmNoMem).state.proc 0).alarmOn = 0
      ∧ ((usertrap idleEnv Policy.RR alarmNoMem).state.tfmem
            (alarmNoMem.proc 0).trapframe).epc = 0x400 := by
  decide

set_option maxRecDepth 100000 in
/-- The alarm hook on `timerTrap`: with interval 2 and a free page, the alarm
is not pending after the first timer trap and the second one installs the
handler. -/
theorem alarm_fires_at_interval_witness :
    ((timerTrap.proc 0).interval = ((1 : Nat) : Int) + 1 ∧ (timerTrap.proc 0).nticks = 0
        ∧ (timerTrap.proc 0).alarmOn = 0
        ∧ (kalloc (tickState idleEnv (timerAgain 0
            (trapRun idleEnv Policy.RR (fun _ u => timerAgain 0 u) 1 timerTrap)) 0)).1 ≠ 0)
      ∧ (∀ k, k ≤ 1 →
          ((trapRun idleEnv Policy.RR (fun _ u => timerAgain 0 u) k timerTrap).proc 0).alarmOn = 0
            ∧ ((trapRun idleEnv Policy.RR (fun _ u => timerAgain 0 u) k timerTrap).proc 0).nticks
                = k)
      ∧ (∃ r, usertrap idleEnv Policy.RR (timerAgain 0
              (trapRun idleEnv Policy.RR (fun _ u => timerAgain 0 u) 1 timerTrap))
            = usertrapFinish idleEnv Policy.RR 0 2 r
          ∧ (r.proc 0).alarmOn = 1
          ∧ (r.tfmem (r.proc 0).trapframe).epc = (r.proc 0).handler)
      ∧ ((trapRun idleEnv Policy.RR (fun _ u => timerAgain 0 u) 2 timerTrap).proc 0).alarmOn
          = 1 :=
  ⟨by decide,
    (alarm_fires_at_interval idleEnv Policy.RR (fun _ u => timerAgain 0 u) 0 timerTrap 1
      (by decide) (fun _ => ⟨rfl, rfl, rfl⟩) (fun _ => ⟨rfl, rfl, rfl⟩)
      (fun _ _ => timerAgain_entry 0 _) (by decide) (by decide) (by decide)).1,
    (alarm_fires_at_interval idleEnv Policy.RR (fun _ u => timerAgain 0 u) 0 timerTrap 1
      (by decide) (fun _ => ⟨rfl, rfl, rfl⟩) (fun _ => ⟨rfl, rfl, rfl⟩)
      (fun _ _ => timerAgain_entry 0 _) (by decide) (by decide) (by decide)).2.2.1
      (by decide)⟩

/-- Claim C8 on `quantumDue`: at level 1 with two ticks used the process
moves to level 2 with `rticks = 0` and yields. -/
theorem mlfq_quantum_exhaustion_witness :
    ((quantumDue.proc 0).killed = 0 ∧ (0 : Int) ≤ 1 ∧ (1 : Int) ≤ P4
        ∧ (quantumDue.proc 0).pr = 1 ∧ (quantumDue.proc 0).rticks = 2 ^ (1 : Int).toNat)
      ∧ usertrapFinish idleEnv Policy.MLFQ 0 2 quantumDue
          = usertrapret idleEnv (mlfqPreempt idleEnv 0 2147483648 0
              (yield idleEnv (setProc quantumDue 0
                (fun q => { q with rticks := 0, pr := if (1 : Int) < P4 then 1 + 1 else P4 })))) :=
  ⟨by decide,
    (mlfq_quantum_exhaustion idleEnv quantumDue 0 1 (by decide) (by decide) (by decide)
      (by decide)).1 (by decide)⟩

set_option maxRecDepth 100000 in
/-- Claim C9 fails as stated: in `timerTrapTwice` the runnable process of slot
3 occupies two slots of the grid, and one timer-interrupt user trap raises its
`wticks` from 0 to 2. -/
theorem wticks_counted_per_slot :
    timerTrapTwice.sstatus &&& SSTATUS_SPP = 0
      ∧ (devintr idleEnv timerTrapTwice).1 = 2
      ∧ ((devintr idleEnv timerTrapTwice).2.proc 3).state = ProcState.RUNNABLE
      ∧ (devintr idleEnv timerTrapTwice).2.queue 0 0 = some 3
      ∧ (timerTrapTwice.proc 3).wticks = 0
      ∧ ((usertrap idleEnv Policy.RR timerTrapTwice).state.proc 3).wticks = 2 := by
  decide

/-- Claim C9, amended, on `timerTrap`: the alarm is not due, the cause
dispatch returns, the runnable process of slot 3, queued once, gains one wait
tick; the unused slot 5 keeps its count. -/
theorem wticks_accounting_witness :
    (timerTrap.scause ≠ 8 ∧ timerTrap.scause ≠ 15 ∧ (devintr idleEnv timerTrap).1 = 2
        ∧ (kalloc (devintr idleEnv timerTrap).2).1 ≠ 0)
      ∧ ((usertrapCause idleEnv timerTrap 0).returned = some 2
        ∧ ((usertrapCause idleEnv timerTrap 0).state.proc 3).wticks
            = ((devintr idleEnv timerTrap).2.proc 3).wticks + 1)
      ∧ ((usertrapCause idleEnv timerTrap 0).state.proc 5).wticks
          = ((devintr idleEnv timerTrap).2.proc 5).wticks :=
  ⟨by decide,
    ⟨((wticks_accounting idleEnv timerTrap 0 3 (by decide) (by decide) (by decide)).1
        (fun _ _ => by decide)).1,
      ((wticks_accounting idleEnv timerTrap 0 3 (by decide) (by decide) (by decide)).1
        (fun _ _ => by decide)).2
        (by
          have hq : ∀ i j, (devintr idleEnv timerTrap).2.queue i j
              = if i = 0 ∧ j = 0 then some 3 else none := fun _ _ => rfl
          intro i j i2 j2 _ _ _ _ h1 h2
          rw [hq] at h1 h2
          split at h1
          · split at h2
            · omega
            · cases h2
          · cases h1)
        ⟨0, 0, by decide, by decide, by decide⟩ (by decide) (by decide)⟩,
    (wticks_accounting idleEnv timerTrap 0 5 (by decide) (by decide) (by decide)).2
      (Or.inr (by decide))⟩

/-- Claim C10 on `killedSyscall`: the killed process exits with status -1
before its system call is served. -/
theorem usertrap_killed_syscall_witness :
    (usertrap idleEnv Policy.RR killedSyscall).halted = some (Halt.exit (-1))
      ∧ (usertrap idleEnv Policy.RR killedSyscall).state.log
          = killedSyscall.log ++ [Call.w_stvec, Call.exit (-1)]
      ∧ ((usertrap idleEnv Policy.RR killedSyscall).state.tfmem
            (killedSyscall.proc 0).trapframe).epc = killedSyscall.sepc
      ∧ (usertrap idleEnv Policy.RR killedSyscall).state.sstatus = killedSyscall.sstatus :=
  usertrap_killed_syscall idleEnv Policy.RR killedSyscall 0 (by decide) (by decide)
    (by decide) (by decide)

/-- Claim C13 on `timerTrap` (previous privilege: user): `kerneltrap` panics
at once. -/
theorem kerneltrap_from_user_panics_witness :
    timerTrap.sstatus &&& SSTATUS_SPP = 0
      ∧ (kerneltrap idleEnv Policy.RR timerTrap
          = Res.halt (Halt.panic PanicSite.kerneltrap_not_from_supervisor_mode) timerTrap
        ∧ (kerneltrap idleEnv Policy.RR timerTrap).returned = none
        ∧ (kerneltrap idleEnv Policy.RR timerTrap).state.log = timerTrap.log
        ∧ (kerneltrap idleEnv Policy.RR timerTrap).state.proc = timerTrap.proc) :=
  ⟨by decide, kerneltrap_from_user_panics idleEnv Policy.RR timerTrap (by decide)⟩

/-- Claim C14 on `badCauseTrap` and `storeFaultTrap`: an unrecognized cause and
a store fault that `handleCOW` rejects both end in `exit(-1)` of the killed
process. -/
theorem usertrap_fault_kills_witness :
    ((usertrap idleEnv Policy.RR badCauseTrap).halted = some (Halt.exit (-1))
        ∧ ((usertrap idleEnv Policy.RR badCauseTrap).state.proc 0).killed = 1
        ∧ (usertrap idleEnv Policy.RR badCauseTrap).state.log
            = badCauseTrap.log ++ [Call.w_stvec, Call.devintr, Call.printf, Call.printf,
                Call.setkilled, Call.exit (-1)])
      ∧ ((usertrap idleEnv Policy.RR storeFaultTrap).halted = some (Halt.exit (-1))
        ∧ ((usertrap idleEnv Policy.RR storeFaultTrap).state.proc 0).killed = 1
        ∧ ∃ l, (usertrap idleEnv Policy.RR storeFaultTrap).state.log
              = storeFaultTrap.log ++ Call.w_stvec :: l ++ [Call.setkilled, Call.exit (-1)]
            ∧ ∀ c ∈ l, isMemCall c = true) :=
  ⟨(usertrap_fault_kills idleEnv Policy.RR badCauseTrap 0 (by decide) (by decide)).1
      (by decide) (by decide) (by decide),
    (usertrap_fault_kills idleEnv Policy.RR storeFaultTrap 0 (by decide) (by decide)).2
      (by decide) 1
      (handleCOW (setTrapframe (w_stvec storeFaultTrap idleEnv.kernelvec)
        (storeFaultTrap.proc 0).trapframe (fun t => { t with epc := storeFaultTrap.sepc }))
        (storeFaultTrap.proc 0).pagetable storeFaultTrap.stval).state
      rfl (by decide)⟩

/-- Claim C16 on `kernelTimerTrap`: `kerneltrap` returns with `sepc` and
`sstatus` as at entry. -/
theorem kerneltrap_restores_witness :
    (kernelTimerTrap.sstatus &&& SSTATUS_SPP ≠ 0 ∧ intr_get kernelTimerTrap = false
        ∧ (devintr idleEnv kernelTimerTrap).1 ≠ 0)
      ∧ ∃ s', kerneltrap idleEnv Policy.RR kernelTimerTrap = Res.ok () s'
          ∧ s'.sepc = kernelTimerTrap.sepc ∧ s'.sstatus = kernelTimerTrap.sstatus :=
  ⟨by decide, kerneltrap_restores idleEnv Policy.RR kernelTimerTrap (by decide) (by decide)
    (by decide)⟩

/-- Claim C12 on `cowShared`: the first table takes the copy path, the second
then takes the in-place path. -/
theorem cow_two_writers_witness :
    ∃ s1 e1', handleCOW cowShared 1 0x5123 = Res.ok 0 s1
      ∧ s1.pagetables 1 (PGROUNDDOWN 0x5123 / PGSIZE) = some e1'
      ∧ PTE2PA e1' = (kalloc cowShared).1 ∧ s1.freelist = cowShared.freelist.tail
      ∧ s1.memref (PTE2PA 0x20001513) = 1
      ∧ (∀ i, i < PGSIZE →
          s1.mem (PTE2PA 0x20001513 + i) = cowShared.mem (PTE2PA 0x20001513 + i))
      ∧ s1.pagetables 2 (PGROUNDDOWN 0x5123 / PGSIZE) = some 0x20001513
      ∧ ∃ s2 e2', handleCOW s1 2 0x5123 = Res.ok 0 s2
          ∧ s2.freelist = s1.freelist ∧ Call.kalloc ∉ s2.log.drop s1.log.length
          ∧ s2.pagetables 2 (PGROUNDDOWN 0x5123 / PGSIZE) = some e2'
          ∧ PTE2PA e2' = PTE2PA 0x20001513 ∧ e2' &&& PTE_W ≠ 0 ∧ e2' &&& PTE_COW = 0
          ∧ s2.memref (PTE2PA 0x20001513) = 1 :=
  cow_two_writers cowShared 1 2 0x5123 0x5123 0x20001513 0x20001513 (by decide) (by decide)
    (by decide) (by decide) (by decide) (by decide) (by decide) (by decide) (by decide)
    (by decide) (by decide) (by decide) (by decide) rfl (by decide) (by decide)

/-- Claim C17 on `cowShared`: the invariant holds there and still holds after
the copy path. -/
theorem handleCOW_keeps_counts_positive_witness :
    CowCountsPositive cowShared
      ∧ CowCountsPositive (handleCOW cowShared 1 0x5123).state
      ∧ ∀ a, (handleCOW cowShared 1 0x5123).state.memref a ≠ cowShared.memref a →
          1 ≤ (handleCOW cowShared 1 0x5123).state.memref a :=
  ⟨cowShared_counts_positive,
    handleCOW_keeps_counts_positive cowShared 1 0x5123 cowShared_counts_positive⟩

/-- Claim C18 on `alarmDue`: the second tick fires the alarm; the checkpoint
holds the trapframe with the saved `sepc`. -/
theorem alarm_checkpoint_witness :
    ∃ r, usertrap idleEnv Policy.RR alarmDue = usertrapFinish idleEnv Policy.RR 0 2 r
      ∧ (r.proc 0).alarmContext = (kalloc (devintr idleEnv alarmDueSaved).2).1
      ∧ r.tfmem (r.proc 0).alarmContext
          = (devintr idleEnv alarmDueSaved).2.tfmem
              (((devintr idleEnv alarmDueSaved).2.proc 0).trapframe)
      ∧ ((devintr idleEnv alarmDueSaved).2.tfmem
              (((devintr idleEnv alarmDueSaved).2.proc 0).trapframe)
            = alarmDueSaved.tfmem (alarmDue.proc 0).trapframe →
          (r.tfmem (r.proc 0).alarmContext).epc = alarmDue.sepc)
      ∧ (r.proc 0).alarmOn = 1
      ∧ (r.tfmem (r.proc 0).trapframe).epc = (r.proc 0).handler
      ∧ r.tfmem (r.proc 0).trapframe
          = { (devintr idleEnv alarmDueSaved).2.tfmem
                (((devintr idleEnv alarmDueSaved).2.proc 0).trapframe) with
              epc := ((devintr idleEnv alarmDueSaved).2.proc 0).handler } :=
  alarm_checkpoint idleEnv Policy.RR alarmDue 0 alarmDueSaved (devintr idleEnv alarmDueSaved).2
    (by decide) (by decide) (by decide) (by decide) rfl (by decide) rfl (by decide)
    (by decide) (by decide) (by decide)

/-- Claim C19 on `alarmOff`: with interval 0 a tick only counts. -/
theorem alarm_interval_zero_witness :
    ∃ r, usertrap idleEnv Policy.RR alarmOff = usertrapFinish idleEnv Policy.RR 0 2 r
      ∧ (r.proc 0).nticks = ((devintr idleEnv alarmOffSaved).2.proc 0).nticks + 1
      ∧ (r.proc 0).alarmOn = 0
      ∧ r.freelist = (devintr idleEnv alarmOffSaved).2.freelist
      ∧ r.log = (devintr idleEnv alarmOffSaved).2.log
      ∧ (r.proc 0).alarmContext = ((devintr idleEnv alarmOffSaved).2.proc 0).alarmContext
      ∧ r.tfmem = (devintr idleEnv alarmOffSaved).2.tfmem :=
  alarm_interval_zero idleEnv Policy.RR alarmOff 0 alarmOffSaved
    (devintr idleEnv alarmOffSaved).2
    (by decide) (by decide) (by decide) (by decide) rfl (by decide) rfl (by decide)
    (by decide) (by decide) (by decide)

end Xv6
